import Mathlib

/-!
Helios scene graph and per-frame synchronisation: a shallow embedding.

The definitions follow `src/src/engine/resource/scene.cpp`.

Conventions of the embedding:

* `float` values are exact rationals (`Scalar`).  Values that pass through a
  transcendental library call (`glm::pow`, `cosf`, `glm::perspective`) are kept
  symbolically: the record stores the arguments of the call.
* A node owns its children (`std::vector<std::shared_ptr<Node>>`), so the scene
  graph is an inductive tree.  The raw back pointer `m_parent` is kept as the id
  of the parent; where the code dereferences it the embedding passes the data of
  the node that holds the child.
* A raw node pointer stored in the `RenderState` (`this`) is a `NodePtr`: the
  fields of the pointee when the pointer is stored, together with the fields of
  its parent.  The only field of a stored node that changes afterwards in the
  same frame is `m_is_heirarchy_dirty` (cleared by its own `update_children`),
  and nothing reads that flag through the `RenderState`.
* Mapped GPU buffers are functions from an element index to the element last
  written there (`none`: never written).
* `std::unordered_set<uint32_t>` is a list of keys, `std::unordered_map` an
  association list whose first binding of a key is the current one.
-/

namespace Helios

/-! ## glm values -/

abbrev Scalar := ℚ

structure Vec3 where
  x : Scalar
  y : Scalar
  z : Scalar
deriving DecidableEq

structure Vec4 where
  x : Scalar
  y : Scalar
  z : Scalar
  w : Scalar
deriving DecidableEq

structure IVec4 where
  x : Int
  y : Int
  z : Int
  w : Int
deriving DecidableEq

/-- A `glm::quat`. -/
structure Quat where
  w : Scalar
  x : Scalar
  y : Scalar
  z : Scalar
deriving DecidableEq

/-- A `glm::mat4`; entry `M i j` is row `i`, column `j` (glm writes `M[j][i]`). -/
abbrev Mat4 := Matrix (Fin 4) (Fin 4) Scalar

/-- The matrix `glm::mat4_cast(q)`. -/
def mat4_cast (q : Quat) : Mat4 :=
  !![1 - 2 * (q.y * q.y + q.z * q.z), 2 * (q.x * q.y - q.w * q.z), 2 * (q.x * q.z + q.w * q.y), 0;
     2 * (q.x * q.y + q.w * q.z), 1 - 2 * (q.x * q.x + q.z * q.z), 2 * (q.y * q.z - q.w * q.x), 0;
     2 * (q.x * q.z - q.w * q.y), 2 * (q.y * q.z + q.w * q.x), 1 - 2 * (q.x * q.x + q.y * q.y), 0;
     0, 0, 0, 1]

/-- The matrix `glm::scale(glm::mat4(1.0f), s)`. -/
def glm_scale (s : Vec3) : Mat4 :=
  !![s.x, 0, 0, 0;
     0, s.y, 0, 0;
     0, 0, s.z, 0;
     0, 0, 0, 1]

/-- The matrix `glm::translate(glm::mat4(1.0f), p)`. -/
def glm_translate (p : Vec3) : Mat4 :=
  !![1, 0, 0, p.x;
     0, 1, 0, p.y;
     0, 0, 1, p.z;
     0, 0, 0, 1]

/-- The product `M * glm::vec4(p, 1.0f)` converted back to a `glm::vec3`. -/
def mul_point (M : Mat4) (p : Vec3) : Vec3 :=
  { x := M 0 0 * p.x + M 0 1 * p.y + M 0 2 * p.z + M 0 3,
    y := M 1 0 * p.x + M 1 1 * p.y + M 1 2 * p.z + M 1 3,
    z := M 2 0 * p.x + M 2 1 * p.y + M 2 2 * p.z + M 2 3 }

def Vec3.cross (a b : Vec3) : Vec3 :=
  { x := a.y * b.z - b.y * a.z,
    y := a.z * b.x - b.z * a.x,
    z := a.x * b.y - b.x * a.y }

/-- The product `q * v` of glm: `v + ((uv * q.w) + uuv) * 2` with
`uv = cross(q.xyz, v)` and `uuv = cross(q.xyz, uv)`. -/
def Quat.rotate (q : Quat) (v : Vec3) : Vec3 :=
  let u : Vec3 := { x := q.x, y := q.y, z := q.z }
  let uv := u.cross v
  let uuv := u.cross uv
  { x := v.x + (uv.x * q.w + uuv.x) * 2,
    y := v.y + (uv.y * q.w + uuv.y) * 2,
    z := v.z + (uv.z * q.w + uuv.z) * 2 }

def Vec3.neg (v : Vec3) : Vec3 := { x := -v.x, y := -v.y, z := -v.z }

/-- The matrix `glm::inverse(M)` (adjugate over determinant). -/
def glm_inverse (M : Mat4) : Mat4 := (M.det)⁻¹ • M.adjugate

/-- The arguments of a `glm::perspective(glm::radians(fov), aspect, near, far)`
call; the matrix itself needs a tangent and is kept symbolic. -/
structure Perspective where
  fov_degrees : Scalar
  aspect : Scalar
  z_near : Scalar
  z_far : Scalar
deriving DecidableEq

/-! ## Resources

`Mesh`, `SubMesh`, `Material` and `Texture` are declared in headers outside
`src/`; the structures list the accessors that `scene.cpp` calls. -/

/-- A 2D texture: `id()` and the handle of `image_view()`. -/
structure Texture where
  id : Nat
  image_view : Nat
deriving DecidableEq

/-- A cube map (`TextureCube`): `id()` and the handle of `image_view()`. -/
structure TextureCube where
  id : Nat
  image_view : Nat
deriving DecidableEq

/-- A material, by the accessors the registrar reads. -/
structure Material where
  id : Nat
  albedo_texture : Option Texture
  normal_texture : Option Texture
  roughness_texture : Option Texture
  metallic_texture : Option Texture
  emissive_texture : Option Texture
  albedo_value : Vec4
  emissive_value : Vec4
  roughness_value : Scalar
  metallic_value : Scalar
  /-- The value `roughness_texture_info().array_index`. -/
  roughness_array_index : Int
  /-- The value `metallic_texture_info().array_index`. -/
  metallic_array_index : Int
  is_emissive : Bool
deriving DecidableEq

/-- A submesh of a mesh with `n` materials; `mat_idx` indexes `materials()`. -/
structure SubMesh (n : Nat) where
  mat_idx : Fin n
  base_index : Nat
  index_count : Nat
deriving DecidableEq

/-- A mesh: `id()`, the handles of `vertex_buffer()` and `index_buffer()`, the
device address of `acceleration_structure()`, `materials()`, `sub_meshes()`. -/
structure Mesh where
  id : Nat
  vertex_buffer : Nat
  index_buffer : Nat
  acceleration_structure : Nat
  materials : List Material
  sub_meshes : List (SubMesh materials.length)

/-- The element `materials[submesh.mat_idx]`. -/
def Mesh.material (mesh : Mesh) (submesh : SubMesh mesh.materials.length) : Material :=
  mesh.materials.get submesh.mat_idx

/-! ## Nodes -/

inductive NodeType where
  | NODE_MESH
  | NODE_CAMERA
  | NODE_DIRECTIONAL_LIGHT
  | NODE_SPOT_LIGHT
  | NODE_POINT_LIGHT
  | NODE_IBL
  | NODE_ROOT
deriving DecidableEq

/-- The members of a node.  The class hierarchy is flattened: every node has all
fields, and `m_type` (fixed by the constructor of each concrete class) selects
the class whose methods run; fields of other classes are never read. -/
structure NodeData where
  -- Node
  m_type : NodeType
  m_name : String
  m_id : Nat
  m_is_enabled : Bool
  m_is_transform_dirty : Bool
  m_is_heirarchy_dirty : Bool
  /-- The id of the node `m_parent` points to; `none` is `nullptr`. -/
  m_parent : Option Nat
  -- TransformNode
  m_position : Vec3
  m_orientation : Quat
  m_scale : Vec3
  m_model_matrix : Mat4
  m_model_matrix_without_scale : Mat4
  m_prev_model_matrix : Mat4
  -- MeshNode
  m_mesh : Option Mesh
  m_material_override : Option Material
  /-- The handle of `m_material_indices_buffer`. -/
  m_material_indices_buffer : Nat
  -- DirectionalLightNode, SpotLightNode, PointLightNode
  m_color : Vec3
  m_intensity : Scalar
  m_radius : Scalar
  m_inner_cone_angle : Scalar
  m_outer_cone_angle : Scalar
  -- CameraNode
  m_fov : Scalar
  m_near_plane : Scalar
  m_far_plane : Scalar
  m_projection_matrix : Perspective
  m_view_matrix : Mat4
  -- IBLNode
  m_image : Option TextureCube

/-- A node with its owned children, in insertion order. -/
inductive Node where
  | mk (data : NodeData) (m_children : List Node)

def Node.data : Node → NodeData
  | .mk d _ => d

def Node.m_children : Node → List Node
  | .mk _ cs => cs

/-- Whether `dynamic_cast<TransformNode*>` succeeds: every class but `IBLNode`
derives from `TransformNode`. -/
def NodeData.is_transform_node (d : NodeData) : Bool :=
  d.m_type != NodeType.NODE_IBL

/-- A stored node pointer: the pointee and the node its `m_parent` points to. -/
structure NodePtr where
  node : NodeData
  parent : Option NodeData

/-- The value `dynamic_cast<TransformNode*>(m_parent)`. -/
def NodePtr.parent_transform (p : NodePtr) : Option NodeData :=
  p.parent.filter NodeData.is_transform_node

/-- The method `TransformNode::forward`. -/
def TransformNode.forward (d : NodeData) : Vec3 :=
  d.m_orientation.rotate { x := 0, y := 0, z := 1 }

/-- The method `TransformNode::global_position`. -/
def TransformNode.global_position (p : NodePtr) : Vec3 :=
  match p.parent_transform with
  | some parent_transform => mul_point parent_transform.m_model_matrix_without_scale p.node.m_position
  | none => p.node.m_position

/-- The method `TransformNode::global_transform`. -/
def TransformNode.global_transform (p : NodePtr) : Mat4 :=
  match p.parent_transform with
  | some parent_transform => parent_transform.m_model_matrix_without_scale * p.node.m_model_matrix
  | none => p.node.m_model_matrix

/-- The method `TransformNode::global_transform_without_scale`. -/
def TransformNode.global_transform_without_scale (p : NodePtr) : Mat4 :=
  match p.parent_transform with
  | some parent_transform =>
      parent_transform.m_model_matrix_without_scale * p.node.m_model_matrix_without_scale
  | none => p.node.m_model_matrix_without_scale

/-- The method `TransformNode::normal_matrix`. -/
def TransformNode.normal_matrix (p : NodePtr) : Mat4 :=
  TransformNode.global_transform_without_scale p

/-! ## RenderState -/

/-- The values of `SceneState` (declared outside `src/`): the two the source
names, and `other` for any further value, which `create_gpu_resources` tests
for but no code under `src/` assigns. -/
inductive SceneState where
  | SCENE_STATE_READY
  | SCENE_STATE_HIERARCHY_UPDATED
  | other
deriving DecidableEq

structure RenderState where
  m_meshes : List NodePtr
  m_directional_lights : List NodePtr
  m_spot_lights : List NodePtr
  m_point_lights : List NodePtr
  m_camera : Option NodePtr
  m_ibl_environment_map : Option NodePtr
  m_read_image_ds : Option Nat
  m_write_image_ds : Option Nat
  m_scene_ds : Option Nat
  m_cmd_buffer : Option Nat
  /-- Whether `m_scene` is set (it then points to the scene being updated). -/
  m_scene : Bool
  m_vbo_ds : Option Nat
  m_ibo_ds : Option Nat
  m_material_indices_ds : Option Nat
  m_texture_ds : Option Nat
  m_ray_debug_ds : Option Nat
  m_num_lights : Nat
  m_scene_state : SceneState
  m_viewport_width : Nat
  m_viewport_height : Nat

/-- The method `RenderState::clear`. -/
def RenderState.clear (rs : RenderState) : RenderState :=
  { rs with
    m_meshes := [],
    m_directional_lights := [],
    m_spot_lights := [],
    m_point_lights := [],
    m_camera := none,
    m_ibl_environment_map := none,
    m_read_image_ds := none,
    m_write_image_ds := none,
    m_scene_ds := none,
    m_cmd_buffer := none,
    m_scene := false,
    m_vbo_ds := none,
    m_ibo_ds := none,
    m_material_indices_ds := none,
    m_texture_ds := none,
    m_ray_debug_ds := none,
    m_num_lights := 0,
    m_scene_state := SceneState.SCENE_STATE_READY }

/-- The method `RenderState::setup`. -/
def RenderState.setup (rs : RenderState) (width height : Nat) (cmd_buffer : Nat) : RenderState :=
  { rs.clear with
    m_viewport_width := width,
    m_viewport_height := height,
    m_cmd_buffer := some cmd_buffer }

/-! ## Graph edits -/

/-- The method `Node::add_child`. -/
def Node.add_child : Node → Node → Node
  | .mk d cs, .mk c ccs =>
    .mk { d with m_is_heirarchy_dirty := true } (cs ++ [.mk { c with m_parent := some d.m_id } ccs])

mutual
/-- The method `Node::mark_transforms_as_dirty`. -/
def Node.mark_transforms_as_dirty : Node → Node
  | .mk d cs => .mk { d with m_is_transform_dirty := true } (Node.mark_transforms_as_dirty_list cs)
/-- The loop over `m_children` of `Node::mark_transforms_as_dirty`. -/
def Node.mark_transforms_as_dirty_list : List Node → List Node
  | [] => []
  | c :: cs => c.mark_transforms_as_dirty :: Node.mark_transforms_as_dirty_list cs
end

/-- Assignment to the members of the receiver after `mark_transforms_as_dirty`. -/
def Node.map_data (f : NodeData → NodeData) : Node → Node
  | .mk d cs => .mk (f d) cs

/-- The method `TransformNode::set_position`. -/
def TransformNode.set_position (n : Node) (position : Vec3) : Node :=
  n.mark_transforms_as_dirty.map_data (fun d => { d with m_position := position })

/-- The method `TransformNode::set_scale`. -/
def TransformNode.set_scale (n : Node) (scale : Vec3) : Node :=
  n.mark_transforms_as_dirty.map_data (fun d => { d with m_scale := scale })

/-- The method `TransformNode::set_orientation`. -/
def TransformNode.set_orientation (n : Node) (q : Quat) : Node :=
  n.mark_transforms_as_dirty.map_data (fun d => { d with m_orientation := q })

/-- The method `TransformNode::move`. -/
def TransformNode.move (n : Node) (displacement : Vec3) : Node :=
  n.mark_transforms_as_dirty.map_data (fun d =>
    { d with m_position :=
      { x := d.m_position.x + displacement.x,
        y := d.m_position.y + displacement.y,
        z := d.m_position.z + displacement.z } })

/-! ## Mesh edits -/

/-- An object handed to `backend->queue_object_deletion`. -/
inductive QueuedObject where
  | mesh (id : Nat)
  | material (id : Nat)
  | texture_cube (id : Nat)
  | buffer (handle : Nat)
deriving DecidableEq

/-- The method `MeshNode::mid_frame_material_cleanup`, as the objects it
queues for deletion. -/
def MeshNode.mid_frame_material_cleanup (d : NodeData) : List QueuedObject :=
  match d.m_material_override with
  | some material_override => [QueuedObject.material material_override.id]
  | none => []

/-- The method `MeshNode::mid_frame_cleanup`, with a live backend. -/
def MeshNode.mid_frame_cleanup (d : NodeData) : List QueuedObject :=
  (match d.m_mesh with
   | some mesh => [QueuedObject.mesh mesh.id]
   | none => [])
  ++ MeshNode.mid_frame_material_cleanup d

/-- The method `MeshNode::create_instance_data_buffer`, with a live backend;
`new_buffer` is the handle of the buffer that `vk::Buffer::create` returns. -/
def MeshNode.create_instance_data_buffer (d : NodeData) (new_buffer : Nat) :
    NodeData × List QueuedObject :=
  match d.m_mesh with
  | some _ =>
    ({ d with m_material_indices_buffer := new_buffer },
     [QueuedObject.buffer d.m_material_indices_buffer])
  | none => (d, [])

/-- The method `MeshNode::set_mesh`: no dirty flag is touched. -/
def MeshNode.set_mesh (d : NodeData) (mesh : Option Mesh) (new_buffer : Nat) :
    NodeData × List QueuedObject :=
  let queued := MeshNode.mid_frame_cleanup d
  let r := MeshNode.create_instance_data_buffer { d with m_mesh := mesh } new_buffer
  (r.1, queued ++ r.2)

/-- An edit applied to the child at position `i` of a node. -/
def Node.edit_child (f : Node → Node) : Nat → Node → Node
  | i, .mk d cs => .mk d (cs.modify f i)

/-! ## Traversal -/

/-- The method `TransformNode::update`. -/
def TransformNode.update (d : NodeData) (rs : RenderState) : NodeData × RenderState :=
  if d.m_is_transform_dirty then
    let R := mat4_cast d.m_orientation
    let S := glm_scale d.m_scale
    let T := glm_translate d.m_position
    ({ d with
       m_prev_model_matrix := d.m_model_matrix,
       m_model_matrix_without_scale := T * R,
       m_model_matrix := (T * R) * S,
       m_is_transform_dirty := false },
     { rs with m_scene_state := SceneState.SCENE_STATE_HIERARCHY_UPDATED })
  else (d, rs)

/-- The body of the `update` override of the class selected by `m_type`, up to
its call of `update_children`: `RootNode::update`, `MeshNode::update`,
`DirectionalLightNode::update`, `SpotLightNode::update`,
`PointLightNode::update`, `CameraNode::update`, `IBLNode::update`.
`parent` is the pointee of `m_parent`. -/
def Node.update_self (parent : Option NodeData) (d : NodeData) (rs : RenderState) :
    NodeData × RenderState :=
  match d.m_type with
  | NodeType.NODE_ROOT => TransformNode.update d rs
  | NodeType.NODE_MESH =>
    let r := TransformNode.update d rs
    if r.1.m_mesh.isSome then
      (r.1, { r.2 with m_meshes := r.2.m_meshes ++ [{ node := r.1, parent := parent }] })
    else r
  | NodeType.NODE_DIRECTIONAL_LIGHT =>
    let r := TransformNode.update d rs
    (r.1, { r.2 with
            m_directional_lights := r.2.m_directional_lights ++ [{ node := r.1, parent := parent }] })
  | NodeType.NODE_SPOT_LIGHT =>
    let r := TransformNode.update d rs
    (r.1, { r.2 with m_spot_lights := r.2.m_spot_lights ++ [{ node := r.1, parent := parent }] })
  | NodeType.NODE_POINT_LIGHT =>
    let r := TransformNode.update d rs
    (r.1, { r.2 with m_point_lights := r.2.m_point_lights ++ [{ node := r.1, parent := parent }] })
  | NodeType.NODE_CAMERA =>
    let r := TransformNode.update d rs
    let d1 : NodeData :=
      { r.1 with
        m_projection_matrix :=
          { fov_degrees := r.1.m_fov,
            aspect := (r.2.m_viewport_width : Scalar) / (r.2.m_viewport_height : Scalar),
            z_near := r.1.m_near_plane,
            z_far := r.1.m_far_plane },
        m_view_matrix :=
          glm_inverse (TransformNode.global_transform_without_scale { node := r.1, parent := parent }) }
    match r.2.m_camera with
    | none => (d1, { r.2 with m_camera := some { node := d1, parent := parent } })
    | some _ => (d1, r.2)
  | NodeType.NODE_IBL =>
    match rs.m_ibl_environment_map with
    | none => (d, { rs with m_ibl_environment_map := some { node := d, parent := parent } })
    | some _ => (d, rs)

/-- The first statement of `Node::update_children`: a pending hierarchy change
is reported and its flag cleared. -/
def Node.update_children_flag (d : NodeData) (rs : RenderState) : NodeData × RenderState :=
  if d.m_is_heirarchy_dirty then
    ({ d with m_is_heirarchy_dirty := false },
     { rs with m_scene_state := SceneState.SCENE_STATE_HIERARCHY_UPDATED })
  else (d, rs)

mutual
/-- The virtual method `Node::update`: each override is
`if (m_is_enabled) { <own part>; update_children(render_state); }`. -/
def Node.update (parent : Option NodeData) : Node → RenderState → Node × RenderState
  | .mk d cs, rs =>
    if d.m_is_enabled then
      let r1 := Node.update_self parent d rs
      let r2 := Node.update_children_flag r1.1 r1.2
      let r3 := Node.update_list (some r2.1) cs r2.2
      (.mk r2.1 r3.1, r3.2)
    else (.mk d cs, rs)
/-- The loop `for (auto& child : m_children) child->update(render_state)` of
`Node::update_children`; `parent` is the node that runs the loop. -/
def Node.update_list (parent : Option NodeData) : List Node → RenderState → List Node × RenderState
  | [], rs => ([], rs)
  | c :: cs, rs =>
    let r1 := c.update parent rs
    let r2 := Node.update_list parent cs r1.2
    (r1.1 :: r2.1, r2.2)
end

/-- The method `Node::update_children`. -/
def Node.update_children (d : NodeData) (cs : List Node) (rs : RenderState) :
    (NodeData × List Node) × RenderState :=
  let r2 := Node.update_children_flag d rs
  let r3 := Node.update_list (some r2.1) cs r2.2
  ((r2.1, r3.1), r3.2)

/-! ## Scene -/

/-- A `std::unordered_map<uint32_t, uint32_t>`: the first binding of a key is
its current value. -/
abbrev IndexMap := List (Nat × Nat)

/-- The assignment `m[k] = v`. -/
def IndexMap.assign (m : IndexMap) (k v : Nat) : IndexMap := (k, v) :: m

/-- The read `m[k]`: a missing key is inserted with the value `0`. -/
def IndexMap.index (m : IndexMap) (k : Nat) : Nat × IndexMap :=
  match m.lookup k with
  | some v => (v, m)
  | none => (0, (k, 0) :: m)

/-- The field `MaterialData::albedo` as assigned by the registrar: `vec4(0)`, or
`vec4(pow(vec3(v), vec3(2.2)), v.a)` of the authored value `v`. -/
inductive PackedAlbedo where
  | zero
  | srgb_to_linear (v : Vec4)
deriving DecidableEq

structure MaterialData where
  /-- Slots x: albedo, y: normals, z: roughness, w: metallic. -/
  texture_indices0 : IVec4
  /-- Slots x: emissive, z: roughness channel, w: metallic channel. -/
  texture_indices1 : IVec4
  albedo : PackedAlbedo
  emissive : Vec4
  roughness_metallic : Vec4
deriving DecidableEq

/-- A `LightData` record as one of the five assignments of the registrar; the
fields are the values it packs, before their conversion to `float` and before
`cosf(glm::radians(.))` of the cone angles. -/
inductive LightData where
  | area (mesh_node_idx : Nat) (material_index : Nat) (primitive_offset : Nat) (primitive_count : Nat)
  | environment_map
  | directional (color : Vec3) (forward : Vec3) (intensity : Scalar) (radius : Scalar)
  | point (color : Vec3) (intensity : Scalar) (global_position : Vec3) (radius : Scalar)
  | spot (color : Vec3) (forward : Vec3) (intensity : Scalar) (global_position : Vec3)
      (radius : Scalar) (inner_cone_angle : Scalar) (outer_cone_angle : Scalar)
deriving DecidableEq

structure InstanceData where
  model_matrix : Mat4
  normal_matrix : Mat4
  mesh_index : Nat

/-- A `VkAccelerationStructureInstanceKHR` as the instance loop fills it. -/
structure GeometryInstance where
  /-- The first three rows of the global transform. -/
  transform : Matrix (Fin 3) (Fin 4) Scalar
  instanceCustomIndex : Nat
  mask : Nat
  instanceShaderBindingTableRecordOffset : Nat
  /-- The flag `VK_GEOMETRY_INSTANCE_TRIANGLE_FACING_CULL_DISABLE_BIT_KHR` is 1. -/
  flags : Nat
  accelerationStructureReference : Nat

/-- The image view bound as environment map. -/
inductive EnvironmentView where
  | ibl_image (image_view : Nat)
  | sky_model_cubemap
  | default_cubemap
deriving DecidableEq

/-- A `VkWriteDescriptorSet` passed to `vkUpdateDescriptorSets`. -/
inductive WriteDescriptorSet where
  | environment_map (dstSet : Nat) (view : EnvironmentView)
  | storage_buffers (dstSet : Nat) (buffers : List Nat)
  | image_samplers (dstSet : Nat) (views : List Nat)
deriving DecidableEq

/-- The members of `Scene` that `update` and `create_gpu_resources` use, with
the contents of the mapped buffers. -/
structure Scene where
  m_root : Node
  m_force_update : Bool
  m_num_area_lights : Nat
  m_global_mesh_indices : IndexMap
  m_scene_descriptor_set : Nat
  m_vbo_descriptor_set : Nat
  m_ibo_descriptor_set : Nat
  m_material_indices_descriptor_set : Nat
  m_textures_descriptor_set : Nat
  m_light_data_buffer : Nat → Option LightData
  m_material_data_buffer : Nat → Option MaterialData
  m_instance_data_buffer : Nat → Option InstanceData
  /-- The contents of `m_tlas.instance_buffer_host`. -/
  m_tlas_instance_buffer_host : Nat → Option GeometryInstance
  /-- The contents of the `m_material_indices_buffer` of the mesh nodes, by
  buffer handle. -/
  material_indices_buffers : Nat → List (Nat × Nat)
  /-- The direction last passed to `m_sky_model->update`. -/
  m_sky_model : Option Vec3

/-- The locals of the `SCENE_STATE_HIERARCHY_UPDATED` block of
`create_gpu_resources` and the state that block writes. -/
structure Registrar where
  processed_meshes : List Nat
  processed_materials : List Nat
  processed_textures : List Nat
  global_material_indices : IndexMap
  mesh_index_counter : Nat
  vbo_descriptors : List Nat
  ibo_descriptors : List Nat
  image_descriptors : List Nat
  material_indices_descriptors : List Nat
  gpu_material_counter : Nat
  gpu_light_counter : Nat
  material_buffer : Nat → Option MaterialData
  light_buffer : Nat → Option LightData
  m_num_area_lights : Nat
  m_global_mesh_indices : IndexMap
  material_indices_buffers : Nat → List (Nat × Nat)

/-- The write `buffer[i] = v` into mapped memory. -/
def write_at {α : Type} (buffer : Nat → Option α) (i : Nat) (v : α) : Nat → Option α :=
  fun j => if j = i then some v else buffer j

/-- The block guarded by `processed_textures.find(texture->id()) == end()`:
a texture not seen before is inserted and appended to `image_descriptors`, and
its slot `image_descriptors.size()` is returned. -/
def Registrar.add_texture (st : Registrar) (texture : Texture) : Option Nat × Registrar :=
  if st.processed_textures.contains texture.id then (none, st)
  else
    (some st.image_descriptors.length,
     { st with
       processed_textures := texture.id :: st.processed_textures,
       image_descriptors := st.image_descriptors ++ [texture.image_view] })

/-- The albedo block of `// Fill GPUMaterial`. -/
def Registrar.fill_albedo (st : Registrar) (material : Material) (md : MaterialData) :
    MaterialData × Registrar :=
  match material.albedo_texture with
  | some texture =>
    let r := st.add_texture texture
    (match r.1 with
     | some slot => { md with texture_indices0 := { md.texture_indices0 with x := slot } }
     | none => md, r.2)
  | none => ({ md with albedo := PackedAlbedo.srgb_to_linear material.albedo_value }, st)

/-- The normal-map block (it has no `else`). -/
def Registrar.fill_normal (st : Registrar) (material : Material) (md : MaterialData) :
    MaterialData × Registrar :=
  match material.normal_texture with
  | some texture =>
    let r := st.add_texture texture
    (match r.1 with
     | some slot => { md with texture_indices0 := { md.texture_indices0 with y := slot } }
     | none => md, r.2)
  | none => (md, st)

/-- The roughness block. -/
def Registrar.fill_roughness (st : Registrar) (material : Material) (md : MaterialData) :
    MaterialData × Registrar :=
  match material.roughness_texture with
  | some texture =>
    let r := st.add_texture texture
    (match r.1 with
     | some slot =>
       { md with
         texture_indices0 := { md.texture_indices0 with z := slot },
         texture_indices1 := { md.texture_indices1 with z := material.roughness_array_index } }
     | none => md, r.2)
  | none =>
    ({ md with roughness_metallic := { md.roughness_metallic with x := material.roughness_value } }, st)

/-- The metallic block. -/
def Registrar.fill_metallic (st : Registrar) (material : Material) (md : MaterialData) :
    MaterialData × Registrar :=
  match material.metallic_texture with
  | some texture =>
    let r := st.add_texture texture
    (match r.1 with
     | some slot =>
       { md with
         texture_indices0 := { md.texture_indices0 with w := slot },
         texture_indices1 := { md.texture_indices1 with w := material.metallic_array_index } }
     | none => md, r.2)
  | none =>
    ({ md with roughness_metallic := { md.roughness_metallic with y := material.metallic_value } }, st)

/-- The emissive block. -/
def Registrar.fill_emissive (st : Registrar) (material : Material) (md : MaterialData) :
    MaterialData × Registrar :=
  match material.emissive_texture with
  | some texture =>
    let r := st.add_texture texture
    (match r.1 with
     | some slot => { md with texture_indices1 := { md.texture_indices1 with x := slot } }
     | none => md, r.2)
  | none => ({ md with emissive := material.emissive_value }, st)

/-- The record `material_data` after its five initial assignments. -/
def MaterialData.cleared : MaterialData :=
  { texture_indices0 := { x := -1, y := -1, z := -1, w := -1 },
    texture_indices1 := { x := -1, y := -1, z := -1, w := -1 },
    albedo := PackedAlbedo.zero,
    emissive := { x := 0, y := 0, z := 0, w := 0 },
    roughness_metallic := { x := 0, y := 0, z := 0, w := 0 } }

/-- The statements from the initial assignments of `material_data` through
`// Fill GPUMaterial`. -/
def Registrar.fill_material (st : Registrar) (material : Material) : MaterialData × Registrar :=
  let a := st.fill_albedo material MaterialData.cleared
  let b := a.2.fill_normal material a.1
  let c := b.2.fill_roughness material b.1
  let d := c.2.fill_metallic material c.1
  d.2.fill_emissive material d.1

/-- The block guarded by `processed_materials.find(material->id()) == end()`:
the record `material_buffer[gpu_material_counter++]` is filled and its slot is
stored in `global_material_indices`. -/
def Registrar.add_material (st : Registrar) (material : Material) : Registrar :=
  if st.processed_materials.contains material.id then st
  else
    let st1 : Registrar :=
      { st with
        processed_materials := material.id :: st.processed_materials,
        gpu_material_counter := st.gpu_material_counter + 1 }
    let r := st1.fill_material material
    { r.2 with
      material_buffer := write_at r.2.material_buffer st.gpu_material_counter r.1,
      global_material_indices :=
        r.2.global_material_indices.assign material.id (r.2.gpu_material_counter - 1) }

/-- The material of a submesh for a mesh node: `materials[submesh.mat_idx]`,
replaced by `mesh_node->material_override()` when that is set. -/
def effective_material (mesh_node : NodePtr) (mesh : Mesh)
    (submesh : SubMesh mesh.materials.length) : Material :=
  match mesh_node.node.m_material_override with
  | some material_override => material_override
  | none => mesh.material submesh

/-- The block guarded by `material->is_emissive()`. -/
def Registrar.add_area_light (st : Registrar) (mesh_node_idx : Nat) (material : Material)
    (base_index index_count : Nat) : Registrar :=
  if material.is_emissive then
    let r := st.global_material_indices.index material.id
    { st with
      m_num_area_lights := st.m_num_area_lights + 1,
      gpu_light_counter := st.gpu_light_counter + 1,
      global_material_indices := r.2,
      light_buffer :=
        write_at st.light_buffer st.gpu_light_counter
          (LightData.area mesh_node_idx r.1 (base_index / 3) (index_count / 3)) }
  else st

/-- One iteration of the loop over the submeshes of a mesh seen for the first
time. -/
def Registrar.register_submesh (mesh_node_idx : Nat) (mesh_node : NodePtr) (mesh : Mesh)
    (st : Registrar) (submesh : SubMesh mesh.materials.length) : Registrar :=
  let material := effective_material mesh_node mesh submesh
  (st.add_material material).add_area_light mesh_node_idx material
    submesh.base_index submesh.index_count

/-- The block guarded by `processed_meshes.find(mesh->id()) == end()`. -/
def Registrar.register_mesh (st : Registrar) (mesh_node_idx : Nat) (mesh_node : NodePtr)
    (mesh : Mesh) : Registrar :=
  if st.processed_meshes.contains mesh.id then st
  else
    let st1 : Registrar :=
      { st with
        processed_meshes := mesh.id :: st.processed_meshes,
        m_global_mesh_indices := st.m_global_mesh_indices.assign mesh.id st.mesh_index_counter,
        mesh_index_counter := st.mesh_index_counter + 1,
        ibo_descriptors := st.ibo_descriptors ++ [mesh.index_buffer],
        vbo_descriptors := st.vbo_descriptors ++ [mesh.vertex_buffer] }
    mesh.sub_meshes.foldl (Registrar.register_submesh mesh_node_idx mesh_node mesh) st1

/-- One iteration of the loop `// Set submesh materials`: the pair
`(submesh.base_index / 3, global_material_indices[material->id()])` is
appended to the pairs written so far. -/
def set_submesh_material (mesh_node : NodePtr) (mesh : Mesh)
    (acc : IndexMap × List (Nat × Nat)) (submesh : SubMesh mesh.materials.length) :
    IndexMap × List (Nat × Nat) :=
  let material := effective_material mesh_node mesh submesh
  let r := acc.1.index material.id
  (r.2, acc.2 ++ [(submesh.base_index / 3, r.1)])

/-- The body of the loop over `render_state.m_meshes` in the
`SCENE_STATE_HIERARCHY_UPDATED` block.  A stored mesh node always has a mesh
(`MeshNode::update` stores no other); an entry without one is passed over.
The material-index buffer of a node has one element per submesh
(`create_instance_data_buffer`), so the loop `// Set submesh materials`
rewrites all of it. -/
def Registrar.process_mesh_node (st : Registrar) (mesh_node_idx : Nat) (mesh_node : NodePtr) :
    Registrar :=
  match mesh_node.node.m_mesh with
  | none => st
  | some mesh =>
    let st1 := st.register_mesh mesh_node_idx mesh_node mesh
    let st2 : Registrar :=
      { st1 with
        material_indices_descriptors :=
          st1.material_indices_descriptors ++ [mesh_node.node.m_material_indices_buffer] }
    let r := mesh.sub_meshes.foldl (set_submesh_material mesh_node mesh)
      (st2.global_material_indices, [])
    { st2 with
      global_material_indices := r.1,
      material_indices_buffers :=
        fun h => if h = mesh_node.node.m_material_indices_buffer then r.2
                 else st2.material_indices_buffers h }

/-- The loop `for (mesh_node_idx = ...; mesh_node_idx < m_meshes.size(); ...)`
of the `SCENE_STATE_HIERARCHY_UPDATED` block, from index `mesh_node_idx` on. -/
def Registrar.process_mesh_nodes : Nat → List NodePtr → Registrar → Registrar
  | _, [], st => st
  | mesh_node_idx, mesh_node :: rest, st =>
    Registrar.process_mesh_nodes (mesh_node_idx + 1) rest
      (st.process_mesh_node mesh_node_idx mesh_node)

/-- Whether `ibl_environment_map() && ibl_environment_map()->image()` holds. -/
def RenderState.has_ibl_image (rs : RenderState) : Bool :=
  match rs.m_ibl_environment_map with
  | some ibl => ibl.node.m_image.isSome
  | none => false

/-- The image view chosen for `environment_map_info`. -/
def environment_map_view (rs : RenderState) : EnvironmentView :=
  match rs.m_ibl_environment_map with
  | some ibl =>
    match ibl.node.m_image with
    | some image => EnvironmentView.ibl_image image.image_view
    | none =>
      if rs.m_directional_lights.length > 0 then EnvironmentView.sky_model_cubemap
      else EnvironmentView.default_cubemap
  | none =>
    if rs.m_directional_lights.length > 0 then EnvironmentView.sky_model_cubemap
    else EnvironmentView.default_cubemap

/-- The vector `write_datas` built after the mesh loop. -/
def write_datas (s : Scene) (rs : RenderState) (st : Registrar) : List WriteDescriptorSet :=
  [WriteDescriptorSet.environment_map s.m_scene_descriptor_set (environment_map_view rs)]
  ++ (if st.vbo_descriptors.length > 0 then
        [WriteDescriptorSet.storage_buffers s.m_vbo_descriptor_set st.vbo_descriptors] else [])
  ++ (if st.ibo_descriptors.length > 0 then
        [WriteDescriptorSet.storage_buffers s.m_ibo_descriptor_set st.ibo_descriptors] else [])
  ++ (if st.material_indices_descriptors.length > 0 then
        [WriteDescriptorSet.storage_buffers s.m_material_indices_descriptor_set
          st.material_indices_descriptors] else [])
  ++ (if st.image_descriptors.length > 0 then
        [WriteDescriptorSet.image_samplers s.m_textures_descriptor_set st.image_descriptors] else [])

/-- The state of the part of `create_gpu_resources` that runs whenever the
scene state is not `SCENE_STATE_READY`. -/
structure Uploader where
  gpu_light_counter : Nat
  light_buffer : Nat → Option LightData
  instance_buffer : Nat → Option InstanceData
  geometry_instance_buffer : Nat → Option GeometryInstance
  m_global_mesh_indices : IndexMap

/-- The body of the instance loop. -/
def Uploader.write_instance (u : Uploader) (mesh_node_idx : Nat) (mesh_node : NodePtr) : Uploader :=
  match mesh_node.node.m_mesh with
  | none => u
  | some mesh =>
    let global := TransformNode.global_transform mesh_node
    let rt_instance : GeometryInstance :=
      { transform := fun i j => global (Fin.castSucc i) j,
        instanceCustomIndex := mesh_node_idx % 2 ^ 24,
        mask := 255,
        instanceShaderBindingTableRecordOffset := 0,
        flags := 1,
        accelerationStructureReference := mesh.acceleration_structure }
    let r := u.m_global_mesh_indices.index mesh.id
    let instance_data : InstanceData :=
      { mesh_index := r.1,
        model_matrix := global,
        normal_matrix := TransformNode.normal_matrix mesh_node }
    { u with
      geometry_instance_buffer := write_at u.geometry_instance_buffer mesh_node_idx rt_instance,
      instance_buffer := write_at u.instance_buffer mesh_node_idx instance_data,
      m_global_mesh_indices := r.2 }

/-- The instance loop, from index `mesh_node_idx` on. -/
def Uploader.write_instances : Nat → List NodePtr → Uploader → Uploader
  | _, [], u => u
  | mesh_node_idx, mesh_node :: rest, u =>
    Uploader.write_instances (mesh_node_idx + 1) rest (u.write_instance mesh_node_idx mesh_node)

/-- The assignment `light_buffer[gpu_light_counter++] = record`. -/
def Uploader.push_light (u : Uploader) (record : LightData) : Uploader :=
  { u with
    gpu_light_counter := u.gpu_light_counter + 1,
    light_buffer := write_at u.light_buffer u.gpu_light_counter record }

def directional_light_data (light : NodePtr) : LightData :=
  LightData.directional light.node.m_color (TransformNode.forward light.node)
    light.node.m_intensity light.node.m_radius

def point_light_data (light : NodePtr) : LightData :=
  LightData.point light.node.m_color light.node.m_intensity
    (TransformNode.global_position light) light.node.m_radius

def spot_light_data (light : NodePtr) : LightData :=
  LightData.spot light.node.m_color (TransformNode.forward light.node) light.node.m_intensity
    (TransformNode.global_position light) light.node.m_radius
    light.node.m_inner_cone_angle light.node.m_outer_cone_angle

/-- The light records written after the instance loop: the environment entry,
then the directional, the point and the spot lights. -/
def Uploader.write_lights (u : Uploader) (rs : RenderState) : Uploader :=
  let u1 :=
    if rs.has_ibl_image || decide (rs.m_directional_lights.length > 0) then
      u.push_light LightData.environment_map
    else u
  let u2 := rs.m_directional_lights.foldl (fun v light => v.push_light (directional_light_data light)) u1
  let u3 := rs.m_point_lights.foldl (fun v light => v.push_light (point_light_data light)) u2
  rs.m_spot_lights.foldl (fun v light => v.push_light (spot_light_data light)) u3

/-- What one call of `create_gpu_resources` did, besides the new scene: the
final locals of the `SCENE_STATE_HIERARCHY_UPDATED` block when it ran, the
descriptor writes passed to `vkUpdateDescriptorSets` (empty: no call), and the
number of records written into the light buffer (final `gpu_light_counter`). -/
structure GpuPass where
  scene : Scene
  registrar : Option Registrar
  descriptor_writes : List WriteDescriptorSet
  light_records_written : Nat

/-- The initial locals of the `SCENE_STATE_HIERARCHY_UPDATED` block, after
`m_num_area_lights = 0`. -/
def Registrar.init (s : Scene) : Registrar :=
  { processed_meshes := [],
    processed_materials := [],
    processed_textures := [],
    global_material_indices := [],
    mesh_index_counter := 0,
    vbo_descriptors := [],
    ibo_descriptors := [],
    image_descriptors := [],
    material_indices_descriptors := [],
    gpu_material_counter := 0,
    gpu_light_counter := 0,
    material_buffer := s.m_material_data_buffer,
    light_buffer := s.m_light_data_buffer,
    m_num_area_lights := 0,
    m_global_mesh_indices := s.m_global_mesh_indices,
    material_indices_buffers := s.material_indices_buffers }

/-- The block `if (render_state.m_scene_state == SCENE_STATE_HIERARCHY_UPDATED)`
up to the end of its mesh loop. -/
def hierarchy_pass (s : Scene) (meshes : List NodePtr) : Registrar :=
  Registrar.process_mesh_nodes 0 meshes (Registrar.init s)

/-- The method `Scene::create_gpu_resources`. -/
def Scene.create_gpu_resources (s : Scene) (rs : RenderState) : GpuPass :=
  if rs.m_scene_state ≠ SceneState.SCENE_STATE_READY then
    let hier : Option Registrar :=
      if rs.m_scene_state = SceneState.SCENE_STATE_HIERARCHY_UPDATED then
        some (hierarchy_pass s rs.m_meshes)
      else none
    let s1 : Scene :=
      match hier with
      | some st =>
        { s with
          m_num_area_lights := st.m_num_area_lights,
          m_global_mesh_indices := st.m_global_mesh_indices,
          m_material_data_buffer := st.material_buffer,
          m_light_data_buffer := st.light_buffer,
          material_indices_buffers := st.material_indices_buffers }
      | none => s
    let writes : List WriteDescriptorSet :=
      match hier with
      | some st => write_datas s rs st
      | none => []
    let u0 : Uploader :=
      { gpu_light_counter := (match hier with | some st => st.gpu_light_counter | none => 0),
        light_buffer := s1.m_light_data_buffer,
        instance_buffer := s1.m_instance_data_buffer,
        geometry_instance_buffer := s1.m_tlas_instance_buffer_host,
        m_global_mesh_indices := s1.m_global_mesh_indices }
    let u1 := Uploader.write_instances 0 rs.m_meshes u0
    let u2 := u1.write_lights rs
    { scene :=
        { s1 with
          m_light_data_buffer := u2.light_buffer,
          m_instance_data_buffer := u2.instance_buffer,
          m_tlas_instance_buffer_host := u2.geometry_instance_buffer,
          m_global_mesh_indices := u2.m_global_mesh_indices },
      registrar := hier,
      descriptor_writes := writes,
      light_records_written := u2.gpu_light_counter }
  else
    { scene := s, registrar := none, descriptor_writes := [], light_records_written := 0 }

/-- The result of one frame: the scene (with the updated graph), the filled
`RenderState`, and what `create_gpu_resources` did. -/
structure Frame where
  render_state : RenderState
  pass : GpuPass

def Frame.scene (f : Frame) : Scene := f.pass.scene

/-- The first six assignments of `Scene::update`: the descriptor sets and the
scene are stored in the `RenderState`. -/
def Scene.bind_descriptor_sets (s : Scene) (render_state : RenderState) : RenderState :=
  { render_state with
    m_scene_ds := some s.m_scene_descriptor_set,
    m_vbo_ds := some s.m_vbo_descriptor_set,
    m_ibo_ds := some s.m_ibo_descriptor_set,
    m_material_indices_ds := some s.m_material_indices_descriptor_set,
    m_texture_ds := some s.m_textures_descriptor_set,
    m_scene := true }

/-- The statements of `Scene::update` between the traversal and the test of
`m_force_update`: `m_num_lights` is set, and the sky model is updated when it
provides the environment.  The second component is the direction last passed
to the sky model. -/
def Scene.count_lights (s : Scene) (rs : RenderState) : RenderState × Option Vec3 :=
  let rs1 : RenderState :=
    { rs with
      m_num_lights :=
        s.m_num_area_lights + rs.m_directional_lights.length + rs.m_spot_lights.length
          + rs.m_point_lights.length }
  if rs1.has_ibl_image then ({ rs1 with m_num_lights := rs1.m_num_lights + 1 }, s.m_sky_model)
  else
    match rs1.m_directional_lights with
    | light :: _ =>
      ({ rs1 with m_num_lights := rs1.m_num_lights + 1 },
       some (TransformNode.forward light.node).neg)
    | [] => (rs1, s.m_sky_model)

/-- The method `Scene::update`. -/
def Scene.update (s : Scene) (render_state : RenderState) : Frame :=
  let r := s.m_root.update none (s.bind_descriptor_sets render_state)
  let sky := s.count_lights r.2
  let rs2 : RenderState :=
    if s.m_force_update then
      { sky.1 with m_scene_state := SceneState.SCENE_STATE_HIERARCHY_UPDATED }
    else sky.1
  let s1 : Scene := { s with m_root := r.1, m_sky_model := sky.2, m_force_update := false }
  { render_state := rs2, pass := s1.create_gpu_resources rs2 }

/-! ## Further transform setters -/

/-- The product `p * q` of two `glm::quat`. -/
def Quat.mul (p q : Quat) : Quat :=
  { w := p.w * q.w - p.x * q.x - p.y * q.y - p.z * q.z,
    x := p.w * q.x + p.x * q.w + p.y * q.z - p.z * q.y,
    y := p.w * q.y + p.y * q.w + p.z * q.x - p.x * q.z,
    z := p.w * q.z + p.z * q.w + p.x * q.y - p.y * q.x }

/-- The glm functions of the transform setters that have no rational
formula; they are parameters of the setters that call them. -/
structure GlmOps where
  /-- The quaternion
  `glm::quat(glm::vec3(glm::radians(x), glm::radians(y), glm::radians(z)))`. -/
  euler_quat : Scalar → Scalar → Scalar → Quat
  /-- The values of the output arguments scale, orientation and translation
  after `glm::decompose(m, scale, orientation, translation, skew, perspective)`,
  given the matrix and the values the three arguments hold before the call. -/
  decompose : Mat4 → Vec3 → Quat → Vec3 → Vec3 × Quat × Vec3

/-- The three quaternions `pitch`, `yaw` and `roll` of the Euler setters. -/
def GlmOps.pitch (ops : GlmOps) (e : Vec3) : Quat := ops.euler_quat e.x 0 0

def GlmOps.yaw (ops : GlmOps) (e : Vec3) : Quat := ops.euler_quat 0 e.y 0

def GlmOps.roll (ops : GlmOps) (e : Vec3) : Quat := ops.euler_quat 0 0 e.z

/-- The method `TransformNode::set_orientation_from_euler_yxz`. -/
def TransformNode.set_orientation_from_euler_yxz (ops : GlmOps) (n : Node) (e : Vec3) : Node :=
  n.mark_transforms_as_dirty.map_data (fun d =>
    { d with m_orientation := ((ops.yaw e).mul (ops.pitch e)).mul (ops.roll e) })

/-- The method `TransformNode::set_orientation_from_euler_xyz`. -/
def TransformNode.set_orientation_from_euler_xyz (ops : GlmOps) (n : Node) (e : Vec3) : Node :=
  n.mark_transforms_as_dirty.map_data (fun d =>
    { d with m_orientation := ((ops.pitch e).mul (ops.yaw e)).mul (ops.roll e) })

/-- The method `TransformNode::rotate_euler_yxz`. -/
def TransformNode.rotate_euler_yxz (ops : GlmOps) (n : Node) (e : Vec3) : Node :=
  n.mark_transforms_as_dirty.map_data (fun d =>
    { d with m_orientation :=
      d.m_orientation.mul (((ops.yaw e).mul (ops.pitch e)).mul (ops.roll e)) })

/-- The method `TransformNode::rotate_euler_xyz`. -/
def TransformNode.rotate_euler_xyz (ops : GlmOps) (n : Node) (e : Vec3) : Node :=
  n.mark_transforms_as_dirty.map_data (fun d =>
    { d with m_orientation :=
      d.m_orientation.mul (((ops.pitch e).mul (ops.yaw e)).mul (ops.roll e)) })

/-- The call `glm::decompose(local_transform, m_scale, m_orientation,
m_position, out_skew, out_persp)` on the members of a node. -/
def TransformNode.decompose_into (ops : GlmOps) (local_transform : Mat4) (d : NodeData) :
    NodeData :=
  let r := ops.decompose local_transform d.m_scale d.m_orientation d.m_position
  { d with m_scale := r.1, m_orientation := r.2.1, m_position := r.2.2 }

/-- The method `TransformNode::set_from_local_transform`. -/
def TransformNode.set_from_local_transform (ops : GlmOps) (n : Node) (transform : Mat4) : Node :=
  n.mark_transforms_as_dirty.map_data (TransformNode.decompose_into ops transform)

/-- The method `TransformNode::set_from_global_transform`; `parent` is the
pointee of `m_parent`. -/
def TransformNode.set_from_global_transform (ops : GlmOps) (parent : Option NodeData) (n : Node)
    (transform : Mat4) : Node :=
  let local_transform : Mat4 :=
    match parent.filter NodeData.is_transform_node with
    | some parent_transform =>
      glm_inverse parent_transform.m_model_matrix_without_scale * transform
    | none => transform
  n.mark_transforms_as_dirty.map_data (TransformNode.decompose_into ops local_transform)

/-- A call of one of the ten transform mutators of `TransformNode`, with its
argument. -/
inductive Mutator where
  | set_from_local_transform (transform : Mat4)
  | set_from_global_transform (transform : Mat4)
  | set_orientation (q : Quat)
  | set_orientation_from_euler_yxz (e : Vec3)
  | set_orientation_from_euler_xyz (e : Vec3)
  | set_position (position : Vec3)
  | set_scale (scale : Vec3)
  | move (displacement : Vec3)
  | rotate_euler_yxz (e : Vec3)
  | rotate_euler_xyz (e : Vec3)

/-- The effect of a mutator call on the receiver and its descendants;
`parent` is the pointee of the receiver's `m_parent`. -/
def Mutator.apply (ops : GlmOps) (parent : Option NodeData) : Mutator → Node → Node
  | Mutator.set_from_local_transform transform, n =>
    TransformNode.set_from_local_transform ops n transform
  | Mutator.set_from_global_transform transform, n =>
    TransformNode.set_from_global_transform ops parent n transform
  | Mutator.set_orientation q, n => TransformNode.set_orientation n q
  | Mutator.set_orientation_from_euler_yxz e, n =>
    TransformNode.set_orientation_from_euler_yxz ops n e
  | Mutator.set_orientation_from_euler_xyz e, n =>
    TransformNode.set_orientation_from_euler_xyz ops n e
  | Mutator.set_position position, n => TransformNode.set_position n position
  | Mutator.set_scale scale, n => TransformNode.set_scale n scale
  | Mutator.move displacement, n => TransformNode.move n displacement
  | Mutator.rotate_euler_yxz e, n => TransformNode.rotate_euler_yxz ops n e
  | Mutator.rotate_euler_xyz e, n => TransformNode.rotate_euler_xyz ops n e

/-! ## Removal and search -/

/-- The method `IBLNode::mid_frame_cleanup`, with a live backend, as the
objects it queues for deletion. -/
def IBLNode.mid_frame_cleanup (d : NodeData) : List QueuedObject :=
  match d.m_image with
  | some image => [QueuedObject.texture_cube image.id]
  | none => []

/-- The virtual call `node->mid_frame_cleanup()`: `MeshNode` and `IBLNode`
override the method, the other classes inherit the empty
`Node::mid_frame_cleanup`. -/
def Node.mid_frame_cleanup (d : NodeData) : List QueuedObject :=
  match d.m_type with
  | NodeType.NODE_MESH => MeshNode.mid_frame_cleanup d
  | NodeType.NODE_IBL => IBLNode.mid_frame_cleanup d
  | _ => []

/-- The search loop of `Node::remove_child`: the index of the first child
with the name; `none` stands for `child_to_remove == -1`. -/
def Node.child_to_remove (name : String) : List Node → Option Nat
  | [] => none
  | c :: cs =>
    if c.data.m_name == name then some 0
    else (Node.child_to_remove name cs).map (fun i => i + 1)

/-- The method `Node::remove_child`, with the objects queued for deletion. -/
def Node.remove_child (name : String) : Node → Node × List QueuedObject
  | .mk d cs =>
    match Node.child_to_remove name cs with
    | some i =>
      (Node.mk { d with m_is_heirarchy_dirty := true } (cs.eraseIdx i),
       match cs[i]? with
       | some c => Node.mid_frame_cleanup c.data
       | none => [])
    | none => (Node.mk { d with m_is_heirarchy_dirty := true } cs, [])

mutual
/-- The method `Node::find_child(const std::string&)`; `none` is `nullptr`. -/
def Node.find_child (name : String) : Node → Option Node
  | .mk _ cs => Node.find_child_list name cs
/-- The loop over `m_children` of `Node::find_child(const std::string&)`. -/
def Node.find_child_list (name : String) : List Node → Option Node
  | [] => none
  | c :: cs =>
    if c.data.m_name == name then some c
    else
      match c.find_child name with
      | some found => some found
      | none => Node.find_child_list name cs
end

mutual
/-- The method `Node::find_child(const NodeType&)`. -/
def Node.find_child_of_type (type : NodeType) : Node → Option Node
  | .mk _ cs => Node.find_child_of_type_list type cs
/-- The loop over `m_children` of `Node::find_child(const NodeType&)`. -/
def Node.find_child_of_type_list (type : NodeType) : List Node → Option Node
  | [] => none
  | c :: cs =>
    if c.data.m_type == type then some c
    else
      match c.find_child_of_type type with
      | some found => some found
      | none => Node.find_child_of_type_list type cs
end

/-- The method `Scene::find_node`. -/
def Scene.find_node (s : Scene) (name : String) : Option Node :=
  if s.m_root.data.m_name == name then some s.m_root
  else s.m_root.find_child name

/-- The method `Scene::find_camera`; the `dynamic_pointer_cast<CameraNode>`
succeeds on the nodes of type `NODE_CAMERA`. -/
def Scene.find_camera (s : Scene) : Option Node :=
  if s.m_root.data.m_type == NodeType.NODE_CAMERA then some s.m_root
  else
    (s.m_root.find_child_of_type NodeType.NODE_CAMERA).filter
      (fun n => n.data.m_type == NodeType.NODE_CAMERA)

/-! ## Node construction -/

/-- The constructor `Node::Node`: the member initialiser `m_id(g_node_counter++)`
on the `static uint32_t g_node_counter`.  The result is the id of the new node
and the counter after the call. -/
def Node.construct (g_node_counter : Nat) : Nat × Nat :=
  (g_node_counter, (g_node_counter + 1) % 2 ^ 32)

/-- The ids of `n` nodes constructed one after the other, in construction
order, with the counter after the last construction. -/
def construct_nodes : Nat → Nat → List Nat × Nat
  | 0, g_node_counter => ([], g_node_counter)
  | n + 1, g_node_counter =>
    let r := Node.construct g_node_counter
    let rest := construct_nodes n r.2
    (r.1 :: rest.1, rest.2)

/-! ## The renderer (`src/core/renderer.cpp`) -/

inductive PipelineStage where
  | VK_PIPELINE_STAGE_TRANSFER_BIT
  | VK_PIPELINE_STAGE_ACCELERATION_STRUCTURE_BUILD_BIT
deriving DecidableEq

inductive AccessFlag where
  | VK_ACCESS_TRANSFER_WRITE_BIT
  | VK_ACCESS_ACCELERATION_STRUCTURE_WRITE_BIT_NV
  | VK_ACCESS_ACCELERATION_STRUCTURE_READ_BIT_NV
deriving DecidableEq

/-- A command recorded into the command buffer by `Renderer::render`. -/
inductive Command where
  /-- The call `vkCmdCopyBuffer` with one region; `srcOffset` is zero. -/
  | copy_buffer (src dst : Nat) (dstOffset size : Nat)
  /-- The call `vkCmdPipelineBarrier` with one `VkMemoryBarrier`. -/
  | pipeline_barrier (srcStage dstStage : PipelineStage)
      (srcAccessMask dstAccessMask : List AccessFlag)
  /-- The call `vkCmdBuildAccelerationStructureNV`. -/
  | build_acceleration_structure (instanceData : Nat) (instanceOffset : Nat) (update : Bool)
      (dst : Nat) (src : Option Nat) (scratch : Nat) (scratchOffset : Nat)
deriving DecidableEq

/-- A `vk::AccelerationStructure` with the description it was created from. -/
structure AccelerationStructure where
  handle : Nat
  instance_count : Nat
  top_level : Bool
  prefer_fast_trace : Bool
  allow_update : Bool
deriving DecidableEq

/-- The value `scene->acceleration_structure_data()`. -/
structure TlasData where
  tlas : Option AccelerationStructure
  /-- The handle of `instance_buffer_host`. -/
  instance_buffer_host : Nat
deriving DecidableEq

/-- The members of `Renderer` that `render` reads, and the constants
`sizeof(RTGeometryInstance)` and `MAX_SCENE_MESH_COUNT`, whose declarations
are not under `src/`. -/
structure Renderer where
  m_tlas_instance_buffer_device : Nat
  m_tlas_scratch_buffer : Nat
  sizeof_RTGeometryInstance : Nat
  MAX_SCENE_MESH_COUNT : Nat

/-- The method `Renderer::render`: the commands recorded so far with those it
appends, and the acceleration-structure data of the scene afterwards.
`new_tlas` is the handle of the object `vk::AccelerationStructure::create`
returns.  The fields `scene_state` and `meshes` of the render state are
`m_scene_state` and `m_meshes` here. -/
def Renderer.render (r : Renderer) (new_tlas : Nat) (cmd_buffer : List Command)
    (tlas_data : TlasData) (render_state : RenderState) : List Command × TlasData :=
  if render_state.m_scene_state = SceneState.SCENE_STATE_HIERARCHY_UPDATED then
    let is_update : Bool := tlas_data.tlas.isSome
    let tlas : AccelerationStructure :=
      match tlas_data.tlas with
      | some tlas => tlas
      | none =>
        { handle := new_tlas, instance_count := r.MAX_SCENE_MESH_COUNT, top_level := true,
          prefer_fast_trace := true, allow_update := true }
    (cmd_buffer ++
      [Command.copy_buffer tlas_data.instance_buffer_host r.m_tlas_instance_buffer_device 0
         (r.sizeof_RTGeometryInstance * render_state.m_meshes.length),
       Command.pipeline_barrier PipelineStage.VK_PIPELINE_STAGE_TRANSFER_BIT
         PipelineStage.VK_PIPELINE_STAGE_ACCELERATION_STRUCTURE_BUILD_BIT
         [AccessFlag.VK_ACCESS_TRANSFER_WRITE_BIT]
         [AccessFlag.VK_ACCESS_ACCELERATION_STRUCTURE_WRITE_BIT_NV],
       Command.build_acceleration_structure r.m_tlas_instance_buffer_device 0 is_update
         tlas.handle (if is_update then some tlas.handle else none) r.m_tlas_scratch_buffer 0,
       Command.pipeline_barrier PipelineStage.VK_PIPELINE_STAGE_ACCELERATION_STRUCTURE_BUILD_BIT
         PipelineStage.VK_PIPELINE_STAGE_ACCELERATION_STRUCTURE_BUILD_BIT
         [AccessFlag.VK_ACCESS_ACCELERATION_STRUCTURE_WRITE_BIT_NV,
          AccessFlag.VK_ACCESS_ACCELERATION_STRUCTURE_READ_BIT_NV]
         [AccessFlag.VK_ACCESS_ACCELERATION_STRUCTURE_WRITE_BIT_NV,
          AccessFlag.VK_ACCESS_ACCELERATION_STRUCTURE_READ_BIT_NV]],
     { tlas_data with tlas := some tlas })
  else (cmd_buffer, tlas_data)

/-! ## Specification vocabulary -/

mutual
/-- All nodes of a subtree in depth-first pre-order, children in insertion
order; each node comes with the flag "every proper ancestor is enabled"
(`anc_enabled` is the flag of the subtree's root). -/
def Node.preorder (anc_enabled : Bool) : Node → List (Bool × NodeData)
  | .mk d cs => (anc_enabled, d) :: Node.preorder_list (anc_enabled && d.m_is_enabled) cs
/-- The pre-order listing of a list of sibling subtrees. -/
def Node.preorder_list (anc_enabled : Bool) : List Node → List (Bool × NodeData)
  | [] => []
  | c :: cs => c.preorder anc_enabled ++ Node.preorder_list anc_enabled cs
end

/-- The nodes that are enabled and have only enabled ancestors, in pre-order. -/
def Node.visited (n : Node) : List NodeData :=
  ((n.preorder true).filter (fun e => e.1 && e.2.m_is_enabled)).map (fun e => e.2)

/-- The same for a list of sibling subtrees below enabled ancestors. -/
def Node.visited_list (cs : List Node) : List NodeData :=
  ((Node.preorder_list true cs).filter (fun e => e.1 && e.2.m_is_enabled)).map (fun e => e.2)

/-- A node whose visit changes the scene state: a transform node with a dirty
transform, or any node with a pending hierarchy change. -/
def NodeData.needs_update (d : NodeData) : Bool :=
  (d.is_transform_node && d.m_is_transform_dirty) || d.m_is_heirarchy_dirty

/-- The traversal started at the first node calls `update` on the second: the
second is the first itself, or lies below an enabled node on a path of enabled
nodes. -/
inductive Reaches : Node → Node → Prop where
  | here (n : Node) : Reaches n n
  | step (d : NodeData) (cs : List Node) (c p : Node) :
      d.m_is_enabled = true → c ∈ cs → Reaches c p → Reaches (Node.mk d cs) p

/-- The list of the `RenderState` that collects the nodes of a type. -/
def RenderState.list_of (rs : RenderState) : NodeType → List NodePtr
  | NodeType.NODE_MESH => rs.m_meshes
  | NodeType.NODE_DIRECTIONAL_LIGHT => rs.m_directional_lights
  | NodeType.NODE_SPOT_LIGHT => rs.m_spot_lights
  | NodeType.NODE_POINT_LIGHT => rs.m_point_lights
  | _ => []

/-- Whether a visited node is appended to the list of its type. -/
def NodeData.listed (d : NodeData) : Bool :=
  match d.m_type with
  | NodeType.NODE_MESH => d.m_mesh.isSome
  | NodeType.NODE_DIRECTIONAL_LIGHT => true
  | NodeType.NODE_SPOT_LIGHT => true
  | NodeType.NODE_POINT_LIGHT => true
  | _ => false

/-- A sample node: enabled, clean flags, identity transform, no payload. -/
def NodeData.sample (type : NodeType) (name : String) (id : Nat) : NodeData :=
  { m_type := type, m_name := name, m_id := id,
    m_is_enabled := true, m_is_transform_dirty := false, m_is_heirarchy_dirty := false,
    m_parent := none,
    m_position := { x := 0, y := 0, z := 0 },
    m_orientation := { w := 1, x := 0, y := 0, z := 0 },
    m_scale := { x := 1, y := 1, z := 1 },
    m_model_matrix := 1, m_model_matrix_without_scale := 1, m_prev_model_matrix := 1,
    m_mesh := none, m_material_override := none, m_material_indices_buffer := id,
    m_color := { x := 1, y := 1, z := 1 }, m_intensity := 1, m_radius := 1,
    m_inner_cone_angle := 30, m_outer_cone_angle := 45,
    m_fov := 60, m_near_plane := 1 / 10, m_far_plane := 100,
    m_projection_matrix := { fov_degrees := 60, aspect := 1, z_near := 1 / 10, z_far := 100 },
    m_view_matrix := 1,
    m_image := none }

/-- A sample `RenderState` before its first `setup`. -/
def RenderState.sample : RenderState :=
  { m_meshes := [], m_directional_lights := [], m_spot_lights := [], m_point_lights := [],
    m_camera := none, m_ibl_environment_map := none, m_read_image_ds := none,
    m_write_image_ds := none, m_scene_ds := none, m_cmd_buffer := none, m_scene := false,
    m_vbo_ds := none, m_ibo_ds := none, m_material_indices_ds := none, m_texture_ds := none,
    m_ray_debug_ds := none, m_num_lights := 0,
    m_scene_state := SceneState.SCENE_STATE_READY,
    m_viewport_width := 800, m_viewport_height := 600 }

/-- A sample scene around a root: empty tables and buffers, descriptor set
handles 1 to 5. -/
def Scene.sample (root : Node) (force_update : Bool) : Scene :=
  { m_root := root, m_force_update := force_update, m_num_area_lights := 0,
    m_global_mesh_indices := [],
    m_scene_descriptor_set := 1, m_vbo_descriptor_set := 2, m_ibo_descriptor_set := 3,
    m_material_indices_descriptor_set := 4, m_textures_descriptor_set := 5,
    m_light_data_buffer := fun _ => none,
    m_material_data_buffer := fun _ => none,
    m_instance_data_buffer := fun _ => none,
    m_tlas_instance_buffer_host := fun _ => none,
    material_indices_buffers := fun _ => [],
    m_sky_model := none }

/-- A graph for C2: a clean root with one clean mesh child. -/
def c2_root : Node :=
  Node.mk (NodeData.sample NodeType.NODE_ROOT "root" 0)
    [Node.mk (NodeData.sample NodeType.NODE_MESH "child" 1) []]

/-- The scene of C2 after `set_position` on its root, without force flag. -/
def c2_scene : Scene :=
  Scene.sample (TransformNode.set_position c2_root { x := 10, y := 0, z := 0 }) false

/-- A parent and a child for the instance of C3. -/
def c3_parent : Node := Node.mk (NodeData.sample NodeType.NODE_ROOT "root" 0) []

def c3_child : Node := Node.mk (NodeData.sample NodeType.NODE_MESH "child" 1) []

/-- The mesh identities of the entries of a mesh list, in list order. -/
def mesh_ids (meshes : List NodePtr) : List Nat :=
  meshes.filterMap (fun p => p.node.m_mesh.map (fun mesh => mesh.id))

/-- The meshes of the entries of a mesh list, in list order. -/
def mesh_list (meshes : List NodePtr) : List Mesh :=
  meshes.filterMap (fun p => p.node.m_mesh)

/-- The number of distinct identities whose first occurrence in `ids` precedes
the first occurrence of `x`. -/
def first_slot (ids : List Nat) (x : Nat) : Nat :=
  ((ids.take (ids.indexOf x)).toFinset).card

/-- The part of the registrar state that holds the mesh tables. -/
structure MeshTables where
  processed_meshes : List Nat
  m_global_mesh_indices : IndexMap
  mesh_index_counter : Nat
  ibo_descriptors : List Nat
  vbo_descriptors : List Nat

def Registrar.tables (st : Registrar) : MeshTables :=
  { processed_meshes := st.processed_meshes,
    m_global_mesh_indices := st.m_global_mesh_indices,
    mesh_index_counter := st.mesh_index_counter,
    ibo_descriptors := st.ibo_descriptors,
    vbo_descriptors := st.vbo_descriptors }

/-- The effect of the first-seen block of a mesh on the mesh tables. -/
def MeshTables.add (t : MeshTables) (mesh : Mesh) : MeshTables :=
  if t.processed_meshes.contains mesh.id then t
  else
    { processed_meshes := mesh.id :: t.processed_meshes,
      m_global_mesh_indices := t.m_global_mesh_indices.assign mesh.id t.mesh_index_counter,
      mesh_index_counter := t.mesh_index_counter + 1,
      ibo_descriptors := t.ibo_descriptors ++ [mesh.index_buffer],
      vbo_descriptors := t.vbo_descriptors ++ [mesh.vertex_buffer] }

/-- What the mesh tables hold after the first-seen blocks of the meshes `ms`
have run, in this order, on empty tables. -/
structure TablesInv (ms : List Mesh) (t : MeshTables) : Prop where
  hproc : ∀ x, x ∈ t.processed_meshes ↔ x ∈ ms.map (fun m => m.id)
  hcount : t.mesh_index_counter = ((ms.map (fun m => m.id)).toFinset).card
  hvbo : t.vbo_descriptors.length = t.mesh_index_counter
  hibo : t.ibo_descriptors.length = t.mesh_index_counter
  hslot : ∀ x ∈ ms.map (fun m => m.id),
    t.m_global_mesh_indices.lookup x = some (first_slot (ms.map (fun m => m.id)) x)
  hlt : ∀ x ∈ ms.map (fun m => m.id),
    first_slot (ms.map (fun m => m.id)) x < t.mesh_index_counter
  hsurj : ∀ k < t.mesh_index_counter,
    ∃ x ∈ ms.map (fun m => m.id), first_slot (ms.map (fun m => m.id)) x = k
  hvbo_at : ∀ x ∈ ms.map (fun m => m.id),
    t.vbo_descriptors[first_slot (ms.map (fun m => m.id)) x]?
      = (ms.find? (fun m => m.id == x)).map (fun m => m.vertex_buffer)
  hibo_at : ∀ x ∈ ms.map (fun m => m.id),
    t.ibo_descriptors[first_slot (ms.map (fun m => m.id)) x]?
      = (ms.find? (fun m => m.id == x)).map (fun m => m.index_buffer)

/-- A sample material without textures. -/
def Material.sample (id : Nat) (is_emissive : Bool) : Material :=
  { id := id,
    albedo_texture := none, normal_texture := none, roughness_texture := none,
    metallic_texture := none, emissive_texture := none,
    albedo_value := { x := 1, y := 1, z := 1, w := 1 },
    emissive_value := { x := 0, y := 0, z := 0, w := 0 },
    roughness_value := 1 / 2, metallic_value := 0,
    roughness_array_index := 0, metallic_array_index := 0,
    is_emissive := is_emissive }

/-- A sample mesh with one material and one submesh of twelve triangles that
starts at index 6. -/
def Mesh.sample (id : Nat) (material : Material) : Mesh :=
  { id := id, vertex_buffer := 100 + id, index_buffer := 200 + id,
    acceleration_structure := 300 + id,
    materials := [material],
    sub_meshes := [{ mat_idx := ⟨0, Nat.zero_lt_one⟩, base_index := 6, index_count := 36 }] }

/-- A sample mesh node: enabled, clean, with a mesh and an optional override. -/
def Node.sample_mesh (name : String) (id : Nat) (mesh : Mesh)
    (material_override : Option Material) : Node :=
  Node.mk
    { NodeData.sample NodeType.NODE_MESH name id with
      m_mesh := some mesh, m_material_override := material_override }
    []

/-- A sample root over the given children. -/
def Node.sample_root (children : List Node) : Node :=
  Node.mk (NodeData.sample NodeType.NODE_ROOT "root" 0) children

/-- The graph of C5: mesh A, mesh A again, mesh B. -/
def c5_scene : Scene :=
  Scene.sample
    (Node.sample_root
      [Node.sample_mesh "a1" 1 (Mesh.sample 7 (Material.sample 70 false)) none,
       Node.sample_mesh "a2" 2 (Mesh.sample 7 (Material.sample 70 false)) none,
       Node.sample_mesh "b" 3 (Mesh.sample 9 (Material.sample 90 false)) none])
    true

/-- The graph of C7: two instances of mesh 7, the second with the override
material 20. -/
def c7_scene : Scene :=
  Scene.sample
    (Node.sample_root
      [Node.sample_mesh "first" 1 (Mesh.sample 7 (Material.sample 70 false)) none,
       Node.sample_mesh "second" 2 (Mesh.sample 7 (Material.sample 70 false))
         (some (Material.sample 20 false))])
    true

/-- The graph of C9: two instances of mesh 7, whose material is emissive. -/
def c9_scene : Scene :=
  Scene.sample
    (Node.sample_root
      [Node.sample_mesh "lamp1" 1 (Mesh.sample 7 (Material.sample 70 true)) none,
       Node.sample_mesh "lamp2" 2 (Mesh.sample 7 (Material.sample 70 true)) none])
    true

/-- The number of submeshes of the mesh of an entry of the mesh list whose
effective material is emissive. -/
def emissive_submeshes (p : NodePtr) : Nat :=
  match p.node.m_mesh with
  | none => 0
  | some mesh =>
    (mesh.sub_meshes.filter (fun sub => (effective_material p mesh sub).is_emissive)).length

/-- The number of pairs (entry of the mesh list, submesh of its mesh) whose
effective material is emissive. -/
def emissive_pairs (meshes : List NodePtr) : Nat :=
  (meshes.map emissive_submeshes).sum

/-- The emissive submeshes of the entries whose mesh identity is not in `seen`
and does not occur earlier in the list. -/
def first_seen_emissive : List Nat → List NodePtr → Nat
  | _, [] => 0
  | seen, p :: rest =>
    match p.node.m_mesh with
    | none => first_seen_emissive seen rest
    | some mesh =>
      if seen.contains mesh.id then first_seen_emissive seen rest
      else emissive_submeshes p + first_seen_emissive (mesh.id :: seen) rest

/-- The registrar state with its texture table blanked. -/
def Registrar.without_textures (st : Registrar) : Registrar :=
  { st with processed_textures := [], image_descriptors := [] }

/-- The light counters of the registrar and its first-seen set. -/
def Registrar.light_counters (st : Registrar) : Nat × Nat × List Nat :=
  (st.gpu_light_counter, st.m_num_area_lights, st.processed_meshes)

/-- The frame of C5. -/
def c5_frame : Frame := c5_scene.update (RenderState.sample.setup 800 600 0)

/-- The frame of C7. -/
def c7_frame : Frame := c7_scene.update (RenderState.sample.setup 800 600 0)

/-- The frame of C9. -/
def c9_frame : Frame := c9_scene.update (RenderState.sample.setup 800 600 0)

/-- A sample IBL node with an image. -/
def Node.sample_ibl (name : String) (id : Nat) : Node :=
  Node.mk
    { NodeData.sample NodeType.NODE_IBL name id with
      m_image := some { id := 500, image_view := 501 } }
    []

/-- The first frame of C8: instances of mesh 7 and of mesh 9. -/
def c8_frame1 : Frame :=
  (Scene.sample
    (Node.sample_root
      [Node.sample_mesh "a" 1 (Mesh.sample 7 (Material.sample 70 false)) none,
       Node.sample_mesh "b" 2 (Mesh.sample 9 (Material.sample 90 false)) none])
    true).update (RenderState.sample.setup 800 600 0)

/-- The scene of C8 before its second frame: `set_mesh` has given the first
mesh node the mesh 9. -/
def c8_scene2 : Scene :=
  { c8_frame1.scene with
    m_root := c8_frame1.scene.m_root.edit_child
      (Node.map_data (fun d =>
        (MeshNode.set_mesh d (some (Mesh.sample 9 (Material.sample 90 false))) 77).1)) 0 }

/-- The second frame of C8. -/
def c8_frame2 : Frame :=
  c8_scene2.update (c8_frame1.render_state.setup 800 600 0)

/-- The first frame of C10: an emissive mesh instance and an IBL node. -/
def c10_frame1 : Frame :=
  (Scene.sample
    (Node.sample_root
      [Node.sample_mesh "lamp" 1 (Mesh.sample 7 (Material.sample 70 true)) none,
       Node.sample_ibl "sky" 2])
    true).update (RenderState.sample.setup 800 600 0)

/-- The scene of C10 before its second frame: `set_mesh` has replaced the
emissive mesh by the plain mesh 9 and `set_position` has moved the node. -/
def c10_scene2 : Scene :=
  { c10_frame1.scene with
    m_root := c10_frame1.scene.m_root.edit_child
      (fun n => TransformNode.set_position
        (n.map_data (fun d =>
          (MeshNode.set_mesh d (some (Mesh.sample 9 (Material.sample 90 false))) 77).1))
        { x := 1, y := 2, z := 3 }) 0 }

/-- The second frame of C10. -/
def c10_frame2 : Frame :=
  c10_scene2.update (c10_frame1.render_state.setup 800 600 0)

mutual
/-- The nodes of a subtree in depth-first pre-order, children in insertion
order, each with its own subtree. -/
def Node.subtrees : Node → List Node
  | .mk d cs => Node.mk d cs :: Node.subtrees_list cs
/-- The pre-order listing of the nodes below a list of siblings. -/
def Node.subtrees_list : List Node → List Node
  | [] => []
  | c :: cs => c.subtrees ++ Node.subtrees_list cs
end

/-- The proper descendants of a node in depth-first pre-order. -/
def Node.descendants (n : Node) : List Node := Node.subtrees_list n.m_children

/-- The node reached from a node by a path of child positions. -/
def Node.subtree_at : List Nat → Node → Option Node
  | [], n => some n
  | i :: p, n => (n.m_children[i]?).bind (Node.subtree_at p)

/-- A call `f` made on the node at a path below a node; `f` receives the
pointee of the `m_parent` of its receiver (`parent` is the one of the start of
the path).  Nothing happens when the path leads to no node. -/
def Node.edit_at (f : Option NodeData → Node → Node) :
    Option NodeData → List Nat → Node → Node
  | parent, [], n => f parent n
  | _, i :: p, n => Node.mk n.data (n.m_children.modify (Node.edit_at f (some n.data) p) i)

/-- The cached local matrices of a node are those of its current position,
orientation and scale. -/
def NodeData.cache_valid (d : NodeData) : Prop :=
  d.m_model_matrix
      = glm_translate d.m_position * mat4_cast d.m_orientation * glm_scale d.m_scale ∧
    d.m_model_matrix_without_scale = glm_translate d.m_position * mat4_cast d.m_orientation

/-- The cache invariant at one node: a transform node with a clear dirty flag
has valid cached matrices. -/
def NodeData.cache_ok (d : NodeData) : Prop :=
  d.is_transform_node = true → d.m_is_transform_dirty = false → d.cache_valid

/-- The cache invariant on a graph. -/
def Node.cache_ok (root : Node) : Prop :=
  ∀ (q : List Nat) (n : Node), root.subtree_at q = some n → n.data.cache_ok

/-- The method `TransformNode::update` called on the node at the top of a
subtree. -/
def TransformNode.update_node (rs : RenderState) (n : Node) : Node :=
  n.map_data (fun d => (TransformNode.update d rs).1)

/-- The id of the node a camera or IBL slot points to. -/
def slot_id (slot : Option NodePtr) : Option Nat := slot.map (fun p => p.node.m_id)

/-- The identity orientation `glm::quat(1, 0, 0, 0)`. -/
def Quat.identity : Quat := { w := 1, x := 0, y := 0, z := 0 }

/-- The sum of two `glm::vec3`. -/
def Vec3.add (a b : Vec3) : Vec3 := { x := a.x + b.x, y := a.y + b.y, z := a.z + b.z }

/-- A sample transform node without payload at a position (dirty flag clear,
caches still the identity). -/
def Node.sample_at (type : NodeType) (name : String) (id : Nat) (position : Vec3)
    (children : List Node) : Node :=
  Node.mk { NodeData.sample type name id with m_position := position } children

/-- Stand-ins for the glm functions, for calls of setters that do not use
them. -/
def GlmOps.unused : GlmOps :=
  { euler_quat := fun _ _ _ => Quat.identity,
    decompose := fun _ scale orientation translation => (scale, orientation, translation) }

/-- The child of C12: a mesh node moved to (0,5,0). -/
def c12_child : Node :=
  TransformNode.set_position (Node.mk (NodeData.sample NodeType.NODE_MESH "child" 1) [])
    { x := 0, y := 5, z := 0 }

/-- The parent of C12: a root holding the child, then moved to (10,0,0). -/
def c12_parent : Node :=
  TransformNode.set_position (Node.mk (NodeData.sample NodeType.NODE_ROOT "parent" 0) [c12_child])
    { x := 10, y := 0, z := 0 }

/-- The chain of C11: a root G moved to (1,0,0) by `set_position`, above a
mesh node P at (0,1,0), above a mesh node D at (0,0,1). -/
def c11_graph : Node :=
  TransformNode.set_position
    (Node.mk (NodeData.sample NodeType.NODE_ROOT "g" 0)
      [Node.sample_at NodeType.NODE_MESH "p" 1 { x := 0, y := 1, z := 0 }
        [Node.sample_at NodeType.NODE_MESH "d" 2 { x := 0, y := 0, z := 1 } []]])
    { x := 1, y := 0, z := 0 }

/-- The chain of C11 after one traversal. -/
def c11_updated : Node := (c11_graph.update none RenderState.sample).1

/-- The members of the node at a path, when the path leads to a node. -/
def Node.data_at (q : List Nat) (n : Node) : Option NodeData := (n.subtree_at q).map Node.data

/-- The translate-rotate matrix of the current components of a node. -/
def NodeData.translate_rotate (d : NodeData) : Mat4 :=
  glm_translate d.m_position * mat4_cast d.m_orientation

/-- The translate-rotate-scale matrix of the current components of a node. -/
def NodeData.translate_rotate_scale (d : NodeData) : Mat4 :=
  glm_translate d.m_position * mat4_cast d.m_orientation * glm_scale d.m_scale

/-- The graph of C13: a root G moved to (10,0,0) by `set_position`, above an
IBL node, above a mesh node X at (0,5,0). -/
def c13_graph : Node :=
  TransformNode.set_position
    (Node.mk (NodeData.sample NodeType.NODE_ROOT "g" 0)
      [Node.mk (NodeData.sample NodeType.NODE_IBL "env" 1)
        [Node.sample_at NodeType.NODE_MESH "x" 2 { x := 0, y := 5, z := 0 } []]])
    { x := 10, y := 0, z := 0 }

/-- The graph of C13 after one traversal. -/
def c13_updated : Node := (c13_graph.update none RenderState.sample).1

/-- The ids of the nodes of a subtree, in pre-order. -/
def Node.ids (n : Node) : List Nat := n.subtrees.map (fun x => x.data.m_id)

/-- The ids of the nodes below a list of siblings, in pre-order. -/
def Node.ids_list (cs : List Node) : List Nat :=
  (Node.subtrees_list cs).map (fun x => x.data.m_id)

/-- The call `remove_child(name)` made on the node at a path. -/
def Node.remove_child_at (name : String) (p : List Nat) (root : Node) : Node :=
  Node.edit_at (fun _ n => (n.remove_child name).1) none p root

/-- The graph of the counterexample of C18: a root with two mesh children that
are both named "x". -/
def c18_twins : Node :=
  Node.sample_root
    [Node.sample_mesh "x" 1 (Mesh.sample 7 (Material.sample 70 false)) none,
     Node.sample_mesh "x" 2 (Mesh.sample 9 (Material.sample 90 false)) none]

/-- A graph for C18: below the root a mesh node "keep" and a mesh node "gone"
that holds a point light and a camera. -/
def c18_graph : Node :=
  Node.sample_root
    [Node.sample_mesh "keep" 1 (Mesh.sample 7 (Material.sample 70 false)) none,
     Node.mk
       { NodeData.sample NodeType.NODE_MESH "gone" 2 with
         m_mesh := some (Mesh.sample 9 (Material.sample 90 false)) }
       [Node.mk (NodeData.sample NodeType.NODE_POINT_LIGHT "lamp" 3) [],
        Node.mk (NodeData.sample NodeType.NODE_CAMERA "eye" 4) []]]

/-- The graph of C19: the child "group" of the root is a mesh node with mesh 7
and override material 20; below it a mesh node with mesh 8 and override
material 21, and an IBL node with cubemap 500. -/
def c19_parent : Node :=
  Node.sample_root
    [Node.mk
       { NodeData.sample NodeType.NODE_MESH "group" 1 with
         m_mesh := some (Mesh.sample 7 (Material.sample 70 false)),
         m_material_override := some (Material.sample 20 false) }
       [Node.sample_mesh "leaf" 2 (Mesh.sample 8 (Material.sample 80 false))
          (some (Material.sample 21 false)),
        Node.sample_ibl "env" 3]]

/-- A sample renderer: device instance buffer 10, scratch buffer 11. -/
def Renderer.sample : Renderer :=
  { m_tlas_instance_buffer_device := 10, m_tlas_scratch_buffer := 11,
    sizeof_RTGeometryInstance := 64, MAX_SCENE_MESH_COUNT := 100000 }

/-- Acceleration-structure data before the first build: host instance buffer
12, no structure yet. -/
def TlasData.sample : TlasData := { tlas := none, instance_buffer_host := 12 }

/-- The scene of C27: mesh 7 with material 70, whose roughness texture and
metallic texture are the same texture 5 (image view 55), and mesh 9 with
material 90, whose albedo texture is texture 5 again and whose normal texture
is texture 6 (image view 66). -/
def c27_scene : Scene :=
  Scene.sample
    (Node.sample_root
      [Node.sample_mesh "a" 1
         (Mesh.sample 7
           { Material.sample 70 false with
             roughness_texture := some { id := 5, image_view := 55 },
             metallic_texture := some { id := 5, image_view := 55 },
             roughness_array_index := 1, metallic_array_index := 2 })
         none,
       Node.sample_mesh "b" 2
         (Mesh.sample 9
           { Material.sample 90 false with
             albedo_texture := some { id := 5, image_view := 55 },
             normal_texture := some { id := 6, image_view := 66 } })
         none])
    true

/-- The first frame of C27. -/
def c27_frame : Frame := c27_scene.update (RenderState.sample.setup 800 600 0)

/-- The scene of C29: an emissive mesh, a point light and an IBL node with an
image; the member `m_num_area_lights` is 0, as before the first frame. -/
def c29_scene : Scene :=
  Scene.sample
    (Node.sample_root
      [Node.sample_mesh "lamp" 1 (Mesh.sample 7 (Material.sample 70 true)) none,
       Node.mk (NodeData.sample NodeType.NODE_POINT_LIGHT "bulb" 2) [],
       Node.sample_ibl "env" 3])
    true

/-- The first frame of C29. -/
def c29_frame : Frame := c29_scene.update (RenderState.sample.setup 800 600 0)

/-- The camera of the scenario of C26: field of view 60, near plane 0.1, far
plane 100, identity transform. -/
def c26_camera : Node := Node.mk (NodeData.sample NodeType.NODE_CAMERA "camera" 1) []

/-- Whether a quaternion has norm one. -/
def Quat.is_unit (q : Quat) : Prop := q.w * q.w + q.x * q.x + q.y * q.y + q.z * q.z = 1

/-- The capacity macros of `scene.h`, which is not under `src/`: the
constructor `Scene::Scene` allocates the TLAS instance buffers and the
per-instance buffer for `MAX_SCENE_MESH_INSTANCE_COUNT` records, the light
buffer for `MAX_SCENE_LIGHT_COUNT` records, the material buffer for
`MAX_SCENE_MATERIAL_COUNT` records and the texture descriptor set for
`MAX_SCENE_MATERIAL_TEXTURE_COUNT` descriptors.  `create_gpu_resources` reads
none of them. -/
structure SceneLimits where
  MAX_SCENE_MESH_INSTANCE_COUNT : Nat
  MAX_SCENE_LIGHT_COUNT : Nat
  MAX_SCENE_MATERIAL_COUNT : Nat
  MAX_SCENE_MATERIAL_TEXTURE_COUNT : Nat

/-- Limits for the counterexample of C23: tables of two records each. -/
def c23_limits : SceneLimits :=
  { MAX_SCENE_MESH_INSTANCE_COUNT := 2, MAX_SCENE_LIGHT_COUNT := 2,
    MAX_SCENE_MATERIAL_COUNT := 2, MAX_SCENE_MATERIAL_TEXTURE_COUNT := 2 }

/-- A mapped buffer that was filled through a counter: the records below the
counter have been written, the others are as in the buffer `before`. -/
def Filled {α : Type} (before : Nat → Option α) (counter : Nat) (buffer : Nat → Option α) :
    Prop :=
  (∀ k, k < counter → (buffer k).isSome = true) ∧ (∀ k, counter ≤ k → buffer k = before k)

/-- The scene of the counterexample of C23: three mesh instances with three
emissive materials, each with an albedo texture of its own. -/
def c23_scene : Scene :=
  Scene.sample
    (Node.sample_root
      [Node.sample_mesh "a" 1
         (Mesh.sample 7
           { Material.sample 70 true with albedo_texture := some { id := 5, image_view := 55 } })
         none,
       Node.sample_mesh "b" 2
         (Mesh.sample 8
           { Material.sample 80 true with albedo_texture := some { id := 6, image_view := 66 } })
         none,
       Node.sample_mesh "c" 3
         (Mesh.sample 9
           { Material.sample 90 true with albedo_texture := some { id := 7, image_view := 77 } })
         none])
    true

/-- The first frame of the counterexample of C23. -/
def c23_frame : Frame := c23_scene.update (RenderState.sample.setup 800 600 0)

mutual
/-- Every child's parent reference names the node whose children list holds
it, throughout a subtree. -/
def Node.parents_ok : Node → Bool
  | .mk d cs => Node.parents_ok_list d.m_id cs
/-- The same for a list of children held by the node with id `holder`. -/
def Node.parents_ok_list (holder : Nat) : List Node → Bool
  | [] => true
  | c :: cs =>
    (c.data.m_parent == some holder) && c.parents_ok && Node.parents_ok_list holder cs
end

/-- The graph is a tree: no node (named by its id) is held twice, in one
children list or in two, and every parent reference names the holder. -/
def Node.is_tree (root : Node) : Prop := root.ids.Nodup ∧ root.parents_ok = true

/-- A call of `add_child` or of `remove_child` on the node at a path. -/
inductive GraphEdit where
  | add_child (p : List Nat) (child : Node)
  | remove_child (p : List Nat) (name : String)

/-- The graph after a call. -/
def GraphEdit.apply : GraphEdit → Node → Node
  | GraphEdit.add_child p child, root => Node.edit_at (fun _ n => n.add_child child) none p root
  | GraphEdit.remove_child p name, root => root.remove_child_at name p

/-- The argument of an `add_child` call is a detached subtree: a tree of its
own none of whose nodes is in the graph. -/
def GraphEdit.detached (root : Node) : GraphEdit → Prop
  | GraphEdit.add_child _ child => child.is_tree ∧ ∀ i ∈ child.ids, i ∉ root.ids
  | GraphEdit.remove_child _ _ => True

/-- The graph after a sequence of calls. -/
def run_edits (root : Node) (edits : List GraphEdit) : Node :=
  edits.foldl (fun g e => e.apply g) root

/-- Every `add_child` call of a sequence gets a subtree detached from the
graph as it is at that call. -/
def edits_detached : Node → List GraphEdit → Prop
  | _, [] => True
  | root, e :: edits => e.detached root ∧ edits_detached (e.apply root) edits

/-- A root with two children, for C24. -/
def c24_root : Node :=
  (Node.sample_root []).add_child (Node.mk (NodeData.sample NodeType.NODE_MESH "a" 1) [])
    |>.add_child (Node.mk (NodeData.sample NodeType.NODE_MESH "b" 2) [])

/-- A detached node, for C24. -/
def c24_child : Node := Node.mk (NodeData.sample NodeType.NODE_MESH "c" 3) []

/-- The material record at slot `k` is the one packed for the material
identity `id`: the slot is the one stored for the identity, and the record
there is a packing (`fill_material`) of a material of this identity. -/
def Registrar.packed_at (st : Registrar) (id k : Nat) : Prop :=
  st.global_material_indices.lookup id = some k ∧ k < st.gpu_material_counter ∧
  ∃ (st0 : Registrar) (m0 : Material),
    m0.id = id ∧ st.material_buffer k = some (st0.fill_material m0).1

/-- The light record `j` is the area light of an emissive submesh of an entry
of the mesh list: it names the index of the entry, the slot stored for the
effective material, and the primitive range of the submesh. -/
def Registrar.area_light_ok (meshes : List NodePtr) (st : Registrar) (j : Nat) : Prop :=
  ∃ (idx : Nat) (p : NodePtr) (mesh : Mesh) (sub : SubMesh mesh.materials.length) (k : Nat),
    meshes[idx]? = some p ∧ p.node.m_mesh = some mesh ∧ sub ∈ mesh.sub_meshes ∧
    (effective_material p mesh sub).is_emissive = true ∧
    st.light_buffer j
      = some (LightData.area idx k (sub.base_index / 3) (sub.index_count / 3)) ∧
    (effective_material p mesh sub).id ∈ st.processed_materials ∧
    st.global_material_indices.lookup (effective_material p mesh sub).id = some k

/-- What the registrar holds about materials and area lights while it goes
through the mesh list. -/
structure AreaInv (meshes : List NodePtr) (st : Registrar) : Prop where
  hmat : ∀ id ∈ st.processed_materials, ∃ k, st.packed_at id k
  hlight : ∀ j, j < st.gpu_light_counter → st.area_light_ok meshes j

/-- A later state of the registrar keeps what an earlier state recorded. -/
structure Registrar.Extends (st st2 : Registrar) : Prop where
  hproc : ∀ id ∈ st.processed_materials, id ∈ st2.processed_materials
  hlookup : ∀ id ∈ st.processed_materials, ∀ k,
    st.global_material_indices.lookup id = some k →
    st2.global_material_indices.lookup id = some k
  hcount : st.gpu_material_counter ≤ st2.gpu_material_counter
  hbuf : ∀ k, k < st.gpu_material_counter → st2.material_buffer k = st.material_buffer k
  hlcount : st.gpu_light_counter ≤ st2.gpu_light_counter
  hlbuf : ∀ j, j < st.gpu_light_counter → st2.light_buffer j = st.light_buffer j

/-! ## Traversal lemmas -/

mutual
theorem preorder_false_fst :
    ∀ (n : Node) (e : Bool × NodeData), e ∈ n.preorder false → e.1 = false
  | .mk d cs, e, h => by
    rw [Node.preorder] at h
    rcases List.mem_cons.mp h with h | h
    · rw [h]
    · exact preorder_list_false_fst cs e (by simpa using h)
theorem preorder_list_false_fst :
    ∀ (cs : List Node) (e : Bool × NodeData), e ∈ Node.preorder_list false cs → e.1 = false
  | [], e, h => by simp [Node.preorder_list] at h
  | c :: cs, e, h => by
    rw [Node.preorder_list] at h
    rcases List.mem_append.mp h with h | h
    · exact preorder_false_fst c e h
    · exact preorder_list_false_fst cs e h
end

/-- The embedded `update` is the enabled test around the own part of the
class followed by `update_children`. -/
theorem update_eq_update_children (parent : Option NodeData) (d : NodeData) (cs : List Node)
    (rs : RenderState) :
    (Node.mk d cs).update parent rs =
      if d.m_is_enabled then
        (Node.mk
          (Node.update_children (Node.update_self parent d rs).1 cs
            (Node.update_self parent d rs).2).1.1
          (Node.update_children (Node.update_self parent d rs).1 cs
            (Node.update_self parent d rs).2).1.2,
         (Node.update_children (Node.update_self parent d rs).1 cs
            (Node.update_self parent d rs).2).2)
      else (Node.mk d cs, rs) := by
  rw [Node.update]
  rfl

theorem visited_mk (d : NodeData) (cs : List Node) :
    (Node.mk d cs).visited = if d.m_is_enabled then d :: Node.visited_list cs else [] := by
  unfold Node.visited Node.visited_list
  rw [Node.preorder]
  cases h : d.m_is_enabled
  · have hnil : (Node.preorder_list false cs).filter (fun e => e.1 && e.2.m_is_enabled) = [] := by
      rw [List.filter_eq_nil_iff]
      intro e he
      simp [preorder_list_false_fst cs e he]
    simp [h, hnil]
  · simp [h]

theorem visited_list_nil : Node.visited_list [] = [] := by
  simp [Node.visited_list, Node.preorder_list]

theorem visited_list_cons (c : Node) (cs : List Node) :
    Node.visited_list (c :: cs) = c.visited ++ Node.visited_list cs := by
  simp [Node.visited_list, Node.visited, Node.preorder_list]

theorem TransformNode.update_snd (d : NodeData) (rs : RenderState) :
    (TransformNode.update d rs).2 =
      { rs with m_scene_state :=
          if d.m_is_transform_dirty then SceneState.SCENE_STATE_HIERARCHY_UPDATED
          else rs.m_scene_state } := by
  unfold TransformNode.update
  split <;> rfl

theorem TransformNode.update_fst_fields (d : NodeData) (rs : RenderState) :
    (TransformNode.update d rs).1.m_id = d.m_id ∧
    (TransformNode.update d rs).1.m_type = d.m_type ∧
    (TransformNode.update d rs).1.m_is_enabled = d.m_is_enabled ∧
    (TransformNode.update d rs).1.m_is_heirarchy_dirty = d.m_is_heirarchy_dirty ∧
    (TransformNode.update d rs).1.m_mesh = d.m_mesh ∧
    (TransformNode.update d rs).1.m_is_transform_dirty = false := by
  unfold TransformNode.update
  split <;> simp_all

theorem TransformNode.update_snd_lists (d : NodeData) (rs : RenderState) :
    (TransformNode.update d rs).2.m_meshes = rs.m_meshes ∧
    (TransformNode.update d rs).2.m_directional_lights = rs.m_directional_lights ∧
    (TransformNode.update d rs).2.m_spot_lights = rs.m_spot_lights ∧
    (TransformNode.update d rs).2.m_point_lights = rs.m_point_lights ∧
    (TransformNode.update d rs).2.m_camera = rs.m_camera ∧
    (TransformNode.update d rs).2.m_ibl_environment_map = rs.m_ibl_environment_map := by
  rw [TransformNode.update_snd]
  simp

theorem update_self_ids (parent : Option NodeData) (d : NodeData) (rs : RenderState)
    (t : NodeType) :
    ((Node.update_self parent d rs).2.list_of t).map (fun p => p.node.m_id) =
      (rs.list_of t).map (fun p => p.node.m_id)
        ++ (if decide (d.m_type = t) && d.listed then [d.m_id] else []) := by
  obtain ⟨h1, _, _, _, h5, _⟩ := TransformNode.update_fst_fields d rs
  obtain ⟨g1, g2, g3, g4, g5, g6⟩ := TransformNode.update_snd_lists d rs
  unfold Node.update_self NodeData.listed
  cases hty : d.m_type <;> cases t <;>
    simp only [h5, RenderState.list_of] <;>
    (try split) <;> simp_all

theorem update_self_state (parent : Option NodeData) (d : NodeData) (rs : RenderState) :
    (Node.update_self parent d rs).2.m_scene_state =
      if d.is_transform_node && d.m_is_transform_dirty then
        SceneState.SCENE_STATE_HIERARCHY_UPDATED
      else rs.m_scene_state := by
  have h2 := TransformNode.update_snd d rs
  unfold Node.update_self NodeData.is_transform_node
  cases hty : d.m_type <;> simp only [] <;> (try split) <;> simp_all

theorem update_self_fields (parent : Option NodeData) (d : NodeData) (rs : RenderState) :
    (Node.update_self parent d rs).1.m_is_enabled = d.m_is_enabled ∧
    (Node.update_self parent d rs).1.m_is_heirarchy_dirty = d.m_is_heirarchy_dirty ∧
    (Node.update_self parent d rs).1.m_type = d.m_type ∧
    ((Node.update_self parent d rs).1.is_transform_node
      && (Node.update_self parent d rs).1.m_is_transform_dirty) = false := by
  obtain ⟨_, h2, h3, h4, _, h6⟩ := TransformNode.update_fst_fields d rs
  unfold Node.update_self NodeData.is_transform_node
  cases hty : d.m_type <;> simp only [] <;> (try split) <;> simp_all

theorem update_children_flag_fields (d : NodeData) (rs : RenderState) :
    (Node.update_children_flag d rs).1 = { d with m_is_heirarchy_dirty := false } ∧
    (Node.update_children_flag d rs).2 =
      { rs with m_scene_state :=
          if d.m_is_heirarchy_dirty then SceneState.SCENE_STATE_HIERARCHY_UPDATED
          else rs.m_scene_state } := by
  unfold Node.update_children_flag
  cases h : d.m_is_heirarchy_dirty
  · simp only [Bool.false_eq_true, if_false]
    constructor
    · cases d; simp_all
    · trivial
  · simp

theorem update_children_flag_list_of (d : NodeData) (rs : RenderState) (t : NodeType) :
    (Node.update_children_flag d rs).2.list_of t = rs.list_of t := by
  rw [(update_children_flag_fields d rs).2]
  cases t <;> rfl

mutual
theorem update_ids (t : NodeType) :
    ∀ (n : Node) (parent : Option NodeData) (rs : RenderState),
      ((n.update parent rs).2.list_of t).map (fun p => p.node.m_id) =
        (rs.list_of t).map (fun p => p.node.m_id)
          ++ (n.visited.filter (fun d => decide (d.m_type = t) && d.listed)).map
              (fun d => d.m_id)
  | .mk d cs, parent, rs => by
    rw [Node.update, visited_mk]
    cases h : d.m_is_enabled
    · simp
    · simp only [if_true]
      rw [update_list_ids t cs, update_children_flag_list_of, update_self_ids]
      by_cases hp : (decide (d.m_type = t) && d.listed) = true
      · simp [hp, List.filter_cons]
      · simp [hp, List.filter_cons]
theorem update_list_ids (t : NodeType) :
    ∀ (cs : List Node) (parent : Option NodeData) (rs : RenderState),
      ((Node.update_list parent cs rs).2.list_of t).map (fun p => p.node.m_id) =
        (rs.list_of t).map (fun p => p.node.m_id)
          ++ ((Node.visited_list cs).filter (fun d => decide (d.m_type = t) && d.listed)).map
              (fun d => d.m_id)
  | [], parent, rs => by simp [Node.update_list, visited_list_nil]
  | c :: cs, parent, rs => by
    rw [Node.update_list, visited_list_cons]
    simp only
    rw [update_list_ids t cs, update_ids t c]
    simp
end

mutual
theorem update_state :
    ∀ (n : Node) (parent : Option NodeData) (rs : RenderState),
      (n.update parent rs).2.m_scene_state =
        if n.visited.any NodeData.needs_update then SceneState.SCENE_STATE_HIERARCHY_UPDATED
        else rs.m_scene_state
  | .mk d cs, parent, rs => by
    rw [Node.update, visited_mk]
    cases h : d.m_is_enabled
    · simp
    · simp only [if_true]
      rw [update_list_state cs, (update_children_flag_fields _ _).2]
      simp only [update_self_state, (update_self_fields parent d rs).2.1, List.any_cons,
        NodeData.needs_update]
      by_cases h1 : (d.is_transform_node && d.m_is_transform_dirty) = true <;>
        by_cases h2 : d.m_is_heirarchy_dirty = true <;>
        by_cases h3 : (Node.visited_list cs).any NodeData.needs_update = true <;>
        simp only [h1, h2, h3, if_true, if_false, Bool.or_true, Bool.true_or, Bool.or_false,
          Bool.false_or, Bool.or_self] <;> simp_all
theorem update_list_state :
    ∀ (cs : List Node) (parent : Option NodeData) (rs : RenderState),
      (Node.update_list parent cs rs).2.m_scene_state =
        if (Node.visited_list cs).any NodeData.needs_update then
          SceneState.SCENE_STATE_HIERARCHY_UPDATED
        else rs.m_scene_state
  | [], parent, rs => by simp [Node.update_list, visited_list_nil]
  | c :: cs, parent, rs => by
    rw [Node.update_list, visited_list_cons]
    simp only
    rw [update_list_state cs, update_state c, List.any_append]
    by_cases h1 : c.visited.any NodeData.needs_update = true <;>
      by_cases h3 : (Node.visited_list cs).any NodeData.needs_update = true <;>
      simp only [h1, h3, if_true, if_false, Bool.or_true, Bool.true_or, Bool.or_false,
        Bool.false_or, Bool.or_self] <;> simp_all
end

mutual
theorem update_settled :
    ∀ (n : Node) (parent : Option NodeData) (rs : RenderState),
      (n.update parent rs).1.visited.any NodeData.needs_update = false
  | .mk d cs, parent, rs => by
    rw [Node.update]
    cases h : d.m_is_enabled
    · simp [visited_mk, h]
    · simp only [if_true]
      rw [visited_mk]
      obtain ⟨h1, h2, h3, h4⟩ := update_self_fields parent d rs
      have h5 := (update_children_flag_fields (Node.update_self parent d rs).1
        (Node.update_self parent d rs).2).1
      have ih := update_list_settled cs
        (some (Node.update_children_flag (Node.update_self parent d rs).1
          (Node.update_self parent d rs).2).1)
        (Node.update_children_flag (Node.update_self parent d rs).1
          (Node.update_self parent d rs).2).2
      have e1 : (Node.update_children_flag (Node.update_self parent d rs).1
          (Node.update_self parent d rs).2).1.m_is_enabled = true := by
        rw [h5]; simpa [h] using h1
      have e2 : (Node.update_children_flag (Node.update_self parent d rs).1
          (Node.update_self parent d rs).2).1.needs_update = false := by
        rw [h5]
        simpa [NodeData.needs_update, NodeData.is_transform_node] using h4
      simp only [e1, if_true, List.any_cons, e2, ih, Bool.or_self]
theorem update_list_settled :
    ∀ (cs : List Node) (parent : Option NodeData) (rs : RenderState),
      (Node.visited_list (Node.update_list parent cs rs).1).any NodeData.needs_update = false
  | [], parent, rs => by simp [Node.update_list, visited_list_nil]
  | c :: cs, parent, rs => by
    rw [Node.update_list]
    simp only
    rw [visited_list_cons, List.any_append, update_settled c, update_list_settled cs]
    rfl
end

theorem update_self_meshes (parent : Option NodeData) (d : NodeData) (rs : RenderState) :
    ∀ p ∈ (Node.update_self parent d rs).2.m_meshes,
      p ∈ rs.m_meshes ∨ p.node.m_mesh.isSome = true := by
  obtain ⟨g1, _, _, _, _, _⟩ := TransformNode.update_snd_lists d rs
  intro p hp
  unfold Node.update_self at hp
  cases hty : d.m_type <;> simp only [hty] at hp
  · split at hp
    · rename_i hm
      simp only [g1, List.mem_append, List.mem_singleton] at hp
      rcases hp with hp | hp
      · exact Or.inl hp
      · rw [hp]; exact Or.inr hm
    · rw [g1] at hp; exact Or.inl hp
  · split at hp <;> (simp only [g1] at hp; exact Or.inl hp)
  · simp only [g1] at hp; exact Or.inl hp
  · simp only [g1] at hp; exact Or.inl hp
  · simp only [g1] at hp; exact Or.inl hp
  · split at hp <;> exact Or.inl hp
  · rw [g1] at hp; exact Or.inl hp

mutual
theorem update_meshes_have_mesh :
    ∀ (n : Node) (parent : Option NodeData) (rs : RenderState),
      ∀ p ∈ (n.update parent rs).2.m_meshes, p ∈ rs.m_meshes ∨ p.node.m_mesh.isSome = true
  | .mk d cs, parent, rs => by
    rw [Node.update]
    cases h : d.m_is_enabled
    · intro p hp
      exact Or.inl hp
    · simp only [if_true]
      intro p hp
      rcases update_list_meshes_have_mesh cs _ _ p hp with hp | hp
      · rw [(update_children_flag_fields _ _).2] at hp
        exact update_self_meshes parent d rs p hp
      · exact Or.inr hp
theorem update_list_meshes_have_mesh :
    ∀ (cs : List Node) (parent : Option NodeData) (rs : RenderState),
      ∀ p ∈ (Node.update_list parent cs rs).2.m_meshes,
        p ∈ rs.m_meshes ∨ p.node.m_mesh.isSome = true
  | [], _, _ => fun p hp => Or.inl hp
  | c :: cs, parent, rs => by
    rw [Node.update_list]
    intro p hp
    rcases update_list_meshes_have_mesh cs parent _ p hp with hp | hp
    · exact update_meshes_have_mesh c parent rs p hp
    · exact Or.inr hp
end

/-- Every entry of the mesh list of a frame started on a reset RenderState has
a mesh: the registrar never meets an entry without one. -/
theorem frame_meshes_have_mesh (s : Scene) (rs : RenderState) (width height cmd_buffer : Nat) :
    ∀ p ∈ (s.update (rs.setup width height cmd_buffer)).render_state.m_meshes,
      p.node.m_mesh.isSome = true := by
  intro p hp
  have e : (s.update (rs.setup width height cmd_buffer)).render_state.m_meshes
      = (s.m_root.update none
          (s.bind_descriptor_sets (rs.setup width height cmd_buffer))).2.m_meshes := by
    unfold Scene.update Scene.count_lights
    simp only []
    split <;> split <;> (try split) <;> rfl
  rw [e] at hp
  rcases update_meshes_have_mesh _ _ _ p hp with hp | hp
  · simp [Scene.bind_descriptor_sets, RenderState.setup, RenderState.clear] at hp
  · exact hp

theorem visited_filter_map (n : Node) (P : NodeData → Bool) :
    (n.visited.filter P).map (fun d => d.m_id) =
      ((n.preorder true).filter (fun e => e.1 && e.2.m_is_enabled && P e.2)).map
        (fun e => e.2.m_id) := by
  unfold Node.visited
  rw [List.filter_map, List.map_map, List.filter_filter]
  congr 1
  apply List.filter_congr
  intro e _
  simp [Bool.and_comm]

theorem setup_fields (rs : RenderState) (width height cmd_buffer : Nat) (t : NodeType) :
    (rs.setup width height cmd_buffer).list_of t = [] ∧
    (rs.setup width height cmd_buffer).m_scene_state = SceneState.SCENE_STATE_READY := by
  cases t <;> simp [RenderState.setup, RenderState.clear, RenderState.list_of]

/-! ## C1 -/

/-- C1: after the update of the root on a freshly reset RenderState, the mesh
list holds, in depth-first pre-order with children in insertion order, exactly
the enabled mesh nodes with a mesh attached all of whose ancestors are
enabled, and each light list is the same pre-order filter over the light nodes
of its kind (nodes are named by their ids). -/
theorem C1_lists_are_preorder_filters (root : Node) (rs : RenderState)
    (width height cmd_buffer : Nat) :
    ((root.update none (rs.setup width height cmd_buffer)).2.m_meshes.map (fun p => p.node.m_id) =
      ((root.preorder true).filter (fun e => e.1 && e.2.m_is_enabled
          && (decide (e.2.m_type = NodeType.NODE_MESH) && e.2.m_mesh.isSome))).map
        (fun e => e.2.m_id)) ∧
    ((root.update none (rs.setup width height cmd_buffer)).2.m_directional_lights.map
        (fun p => p.node.m_id) =
      ((root.preorder true).filter (fun e => e.1 && e.2.m_is_enabled
          && decide (e.2.m_type = NodeType.NODE_DIRECTIONAL_LIGHT))).map (fun e => e.2.m_id)) ∧
    ((root.update none (rs.setup width height cmd_buffer)).2.m_spot_lights.map
        (fun p => p.node.m_id) =
      ((root.preorder true).filter (fun e => e.1 && e.2.m_is_enabled
          && decide (e.2.m_type = NodeType.NODE_SPOT_LIGHT))).map (fun e => e.2.m_id)) ∧
    ((root.update none (rs.setup width height cmd_buffer)).2.m_point_lights.map
        (fun p => p.node.m_id) =
      ((root.preorder true).filter (fun e => e.1 && e.2.m_is_enabled
          && decide (e.2.m_type = NodeType.NODE_POINT_LIGHT))).map (fun e => e.2.m_id)) := by
  have key : ∀ t : NodeType,
      ((root.update none (rs.setup width height cmd_buffer)).2.list_of t).map
          (fun p => p.node.m_id) =
        ((root.preorder true).filter (fun e => e.1 && e.2.m_is_enabled
          && (decide (e.2.m_type = t) && e.2.listed))).map (fun e => e.2.m_id) := by
    intro t
    rw [update_ids, (setup_fields rs width height cmd_buffer t).1, visited_filter_map]
    simp
  refine ⟨?_, ?_, ?_, ?_⟩
  · have h := key NodeType.NODE_MESH
    rw [RenderState.list_of] at h
    rw [h]
    congr 1
    apply List.filter_congr
    intro e _
    by_cases ht : e.2.m_type = NodeType.NODE_MESH <;> simp [ht, NodeData.listed]
  · have h := key NodeType.NODE_DIRECTIONAL_LIGHT
    rw [RenderState.list_of] at h
    rw [h]
    congr 1
    apply List.filter_congr
    intro e _
    by_cases ht : e.2.m_type = NodeType.NODE_DIRECTIONAL_LIGHT <;> simp [ht, NodeData.listed]
  · have h := key NodeType.NODE_SPOT_LIGHT
    rw [RenderState.list_of] at h
    rw [h]
    congr 1
    apply List.filter_congr
    intro e _
    by_cases ht : e.2.m_type = NodeType.NODE_SPOT_LIGHT <;> simp [ht, NodeData.listed]
  · have h := key NodeType.NODE_POINT_LIGHT
    rw [RenderState.list_of] at h
    rw [h]
    congr 1
    apply List.filter_congr
    intro e _
    by_cases ht : e.2.m_type = NodeType.NODE_POINT_LIGHT <;> simp [ht, NodeData.listed]

/-! ## Lemmas on `Scene::update` -/

theorem create_gpu_resources_ready (s : Scene) (rs : RenderState)
    (h : rs.m_scene_state = SceneState.SCENE_STATE_READY) :
    s.create_gpu_resources rs =
      { scene := s, registrar := none, descriptor_writes := [], light_records_written := 0 } := by
  unfold Scene.create_gpu_resources
  simp [h]

theorem create_gpu_resources_graph (s : Scene) (rs : RenderState) :
    (s.create_gpu_resources rs).scene.m_root = s.m_root ∧
    (s.create_gpu_resources rs).scene.m_force_update = s.m_force_update := by
  unfold Scene.create_gpu_resources
  by_cases h : rs.m_scene_state = SceneState.SCENE_STATE_READY
  · simp [h]
  · by_cases h2 : rs.m_scene_state = SceneState.SCENE_STATE_HIERARCHY_UPDATED <;> simp [h, h2]

theorem count_lights_fst (s : Scene) (rs : RenderState) :
    (s.count_lights rs).1 =
      { rs with
        m_num_lights :=
          s.m_num_area_lights + rs.m_directional_lights.length + rs.m_spot_lights.length
            + rs.m_point_lights.length
            + (if rs.has_ibl_image || decide (rs.m_directional_lights.length > 0) then 1 else 0) } := by
  unfold Scene.count_lights
  simp only []
  have hh : ∀ n : Nat, ({ rs with m_num_lights := n } : RenderState).has_ibl_image
      = rs.has_ibl_image := fun _ => rfl
  rw [hh]
  cases hi : rs.has_ibl_image
  · cases hd : rs.m_directional_lights with
    | nil => simp
    | cons l ls => simp
  · simp

theorem scene_update_render_state (s : Scene) (rs : RenderState) :
    (s.update rs).render_state =
      { (s.m_root.update none (s.bind_descriptor_sets rs)).2 with
        m_num_lights :=
          s.m_num_area_lights
            + (s.m_root.update none (s.bind_descriptor_sets rs)).2.m_directional_lights.length
            + (s.m_root.update none (s.bind_descriptor_sets rs)).2.m_spot_lights.length
            + (s.m_root.update none (s.bind_descriptor_sets rs)).2.m_point_lights.length
            + (if (s.m_root.update none (s.bind_descriptor_sets rs)).2.has_ibl_image
                  || decide ((s.m_root.update none
                      (s.bind_descriptor_sets rs)).2.m_directional_lights.length > 0)
               then 1 else 0),
        m_scene_state :=
          if s.m_force_update then SceneState.SCENE_STATE_HIERARCHY_UPDATED
          else (s.m_root.update none (s.bind_descriptor_sets rs)).2.m_scene_state } := by
  unfold Scene.update
  simp only [count_lights_fst]
  cases s.m_force_update <;> rfl

theorem scene_update_state (s : Scene) (rs : RenderState) :
    (s.update rs).render_state.m_scene_state =
      if s.m_force_update || s.m_root.visited.any NodeData.needs_update then
        SceneState.SCENE_STATE_HIERARCHY_UPDATED
      else rs.m_scene_state := by
  have h := update_state s.m_root none (s.bind_descriptor_sets rs)
  have hb : (s.bind_descriptor_sets rs).m_scene_state = rs.m_scene_state := rfl
  rw [hb] at h
  rw [scene_update_render_state]
  simp only [h]
  cases hf : s.m_force_update <;> simp

theorem scene_update_graph (s : Scene) (rs : RenderState) :
    (s.update rs).scene.m_root = (s.m_root.update none (s.bind_descriptor_sets rs)).1 ∧
    (s.update rs).scene.m_force_update = false := by
  unfold Scene.update Frame.scene
  simp only []
  constructor
  · rw [(create_gpu_resources_graph _ _).1]
  · rw [(create_gpu_resources_graph _ _).2]

/-! ## C2 -/

/-- C2, as stated, fails: a clean graph whose root then receives
`set_position`, with no `add_child`, no `remove_child` and no force flag, ends
its frame with the tag hierarchy-updated, not `ready`. -/
theorem C2_transform_edit_not_ready :
    c2_scene.m_force_update = false ∧
    ((c2_scene.m_root.preorder true).all (fun e => !e.2.m_is_heirarchy_dirty)) = true ∧
    (c2_scene.update (RenderState.sample.setup 800 600 0)).render_state.m_scene_state
      = SceneState.SCENE_STATE_HIERARCHY_UPDATED ∧
    (c2_scene.update (RenderState.sample.setup 800 600 0)).render_state.m_scene_state
      ≠ SceneState.SCENE_STATE_READY := by
  decide

/-- C2, amended: a frame started on a freshly reset RenderState ends with the
tag hierarchy-updated exactly when the force flag of the scene is set or some
visited node (enabled, below enabled ancestors only) is a transform node with a
dirty transform or has a pending hierarchy change; otherwise it ends with the
tag `ready`. -/
theorem C2_scene_state_tag (s : Scene) (rs : RenderState) (width height cmd_buffer : Nat) :
    (s.update (rs.setup width height cmd_buffer)).render_state.m_scene_state =
      if s.m_force_update
          || ((s.m_root.preorder true).filter (fun e => e.1 && e.2.m_is_enabled)).any
              (fun e => (e.2.is_transform_node && e.2.m_is_transform_dirty)
                || e.2.m_is_heirarchy_dirty) then
        SceneState.SCENE_STATE_HIERARCHY_UPDATED
      else SceneState.SCENE_STATE_READY := by
  rw [scene_update_state, (setup_fields rs width height cmd_buffer NodeType.NODE_ROOT).2]
  have h : s.m_root.visited.any NodeData.needs_update =
      ((s.m_root.preorder true).filter (fun e => e.1 && e.2.m_is_enabled)).any
        (fun e => (e.2.is_transform_node && e.2.m_is_transform_dirty)
          || e.2.m_is_heirarchy_dirty) := by
    unfold Node.visited
    induction (s.m_root.preorder true).filter (fun e => e.1 && e.2.m_is_enabled) with
    | nil => rfl
    | cons e l ih => simp only [List.map_cons, List.any_cons, ih, NodeData.needs_update]
  rw [h]

/-! ## C3 -/

theorem visited_list_mem (d : NodeData) (c : Node) :
    ∀ cs : List Node, c ∈ cs → d ∈ c.visited → d ∈ Node.visited_list cs
  | [], h, _ => by simp at h
  | x :: cs, h, hd => by
    rw [visited_list_cons]
    rcases List.mem_cons.mp h with h | h
    · subst h
      exact List.mem_append_left _ hd
    · exact List.mem_append_right _ (visited_list_mem d c cs h hd)

theorem reaches_visited {root p : Node} (h : Reaches root p) :
    ∀ d : NodeData, d ∈ p.visited → d ∈ root.visited := by
  induction h with
  | here n => exact fun d hd => hd
  | step d cs c p hen hc _ ih =>
    intro x hx
    rw [visited_mk, hen]
    exact List.mem_cons_of_mem _ (visited_list_mem x c cs hc (ih x hx))

/-- C3: `add_child(c)` on `p` appends `c`, with its parent reference set to
`p`, after the existing children, and marks `p` hierarchy-changed; a traversal
from any root that reaches the enabled `p` ends with the tag
hierarchy-updated, and the visit of `p` clears its hierarchy flag. -/
theorem C3_add_child (p c root : Node) (parent parent_p : Option NodeData)
    (rs rs_p : RenderState)
    (henabled : p.data.m_is_enabled = true) (hreach : Reaches root (p.add_child c)) :
    (p.add_child c).m_children
      = p.m_children ++ [c.map_data (fun d => { d with m_parent := some p.data.m_id })] ∧
    (p.add_child c).data = { p.data with m_is_heirarchy_dirty := true } ∧
    (root.update parent rs).2.m_scene_state = SceneState.SCENE_STATE_HIERARCHY_UPDATED ∧
    ((p.add_child c).update parent_p rs_p).1.data.m_is_heirarchy_dirty = false := by
  obtain ⟨d, cs⟩ := p
  obtain ⟨dc, ccs⟩ := c
  simp only [Node.data] at henabled
  refine ⟨rfl, rfl, ?_, ?_⟩
  · rw [update_state]
    have hmem : ({ d with m_is_heirarchy_dirty := true } : NodeData)
        ∈ (Node.add_child (Node.mk d cs) (Node.mk dc ccs)).visited := by
      simp [Node.add_child, visited_mk, henabled]
    have hroot := reaches_visited hreach _ hmem
    have hany : root.visited.any NodeData.needs_update = true := by
      rw [List.any_eq_true]
      exact ⟨_, hroot, by simp [NodeData.needs_update]⟩
    simp [hany]
  · simp only [Node.add_child]
    rw [Node.update]
    simp only [henabled, if_true, Node.data]
    rw [(update_children_flag_fields _ _).1]

/-- C3 at a concrete graph: the child is added to the root itself. -/
theorem C3_add_child_witness :
    c3_parent.data.m_is_enabled = true ∧
    Reaches (c3_parent.add_child c3_child) (c3_parent.add_child c3_child) ∧
    ((c3_parent.add_child c3_child).update none (RenderState.sample.setup 800 600 0)).2.m_scene_state
      = SceneState.SCENE_STATE_HIERARCHY_UPDATED :=
  ⟨rfl, Reaches.here _,
    (C3_add_child c3_parent c3_child (c3_parent.add_child c3_child) none none
      (RenderState.sample.setup 800 600 0) (RenderState.sample.setup 800 600 0) rfl
      (Reaches.here _)).2.2.1⟩

/-! ## C4 -/

/-- C4: when `Scene::update` runs a second time on the graph as the first run
left it, with the RenderState reset in between, the second run ends with the
tag `ready`, passes no descriptor write to `vkUpdateDescriptorSets`, and leaves
the material, light, per-instance and per-node material-index records as they
were after the first run. -/
theorem C4_second_update_is_idle (s : Scene) (rs rs2 : RenderState)
    (width height cmd_buffer : Nat) :
    ((s.update rs).scene.update (rs2.setup width height cmd_buffer)).render_state.m_scene_state
      = SceneState.SCENE_STATE_READY ∧
    ((s.update rs).scene.update (rs2.setup width height cmd_buffer)).pass.descriptor_writes = [] ∧
    ((s.update rs).scene.update (rs2.setup width height cmd_buffer)).scene.m_material_data_buffer
      = (s.update rs).scene.m_material_data_buffer ∧
    ((s.update rs).scene.update (rs2.setup width height cmd_buffer)).scene.m_light_data_buffer
      = (s.update rs).scene.m_light_data_buffer ∧
    ((s.update rs).scene.update (rs2.setup width height cmd_buffer)).scene.m_instance_data_buffer
      = (s.update rs).scene.m_instance_data_buffer ∧
    ((s.update rs).scene.update (rs2.setup width height cmd_buffer)).scene.material_indices_buffers
      = (s.update rs).scene.material_indices_buffers := by
  have hstate : ((s.update rs).scene.update (rs2.setup width height cmd_buffer)).render_state.m_scene_state
      = SceneState.SCENE_STATE_READY := by
    rw [scene_update_state, (scene_update_graph s rs).1, (scene_update_graph s rs).2,
      update_settled, (setup_fields rs2 width height cmd_buffer NodeType.NODE_ROOT).2]
    simp
  have hpass : ((s.update rs).scene.update (rs2.setup width height cmd_buffer)).pass =
      { scene := ((s.update rs).scene.update (rs2.setup width height cmd_buffer)).pass.scene,
        registrar := none, descriptor_writes := [], light_records_written := 0 } ∧
      ((s.update rs).scene.update (rs2.setup width height cmd_buffer)).pass.scene.m_material_data_buffer
        = (s.update rs).scene.m_material_data_buffer ∧
      ((s.update rs).scene.update (rs2.setup width height cmd_buffer)).pass.scene.m_light_data_buffer
        = (s.update rs).scene.m_light_data_buffer ∧
      ((s.update rs).scene.update (rs2.setup width height cmd_buffer)).pass.scene.m_instance_data_buffer
        = (s.update rs).scene.m_instance_data_buffer ∧
      ((s.update rs).scene.update (rs2.setup width height cmd_buffer)).pass.scene.material_indices_buffers
        = (s.update rs).scene.material_indices_buffers := by
    unfold Scene.update at hstate ⊢
    simp only [] at hstate ⊢
    rw [create_gpu_resources_ready _ _ hstate]
    simp
  obtain ⟨h0, h1, h2, h3, h4⟩ := hpass
  refine ⟨hstate, ?_, h1, h2, h3, h4⟩
  rw [h0]

/-! ## The mesh tables of the registrar -/

theorem add_texture_tables (st : Registrar) (texture : Texture) :
    (st.add_texture texture).2.tables = st.tables := by
  unfold Registrar.add_texture
  split <;> rfl

theorem fill_albedo_tables (st : Registrar) (material : Material) (md : MaterialData) :
    (st.fill_albedo material md).2.tables = st.tables := by
  unfold Registrar.fill_albedo
  split
  · exact add_texture_tables _ _
  · rfl

theorem fill_normal_tables (st : Registrar) (material : Material) (md : MaterialData) :
    (st.fill_normal material md).2.tables = st.tables := by
  unfold Registrar.fill_normal
  split
  · exact add_texture_tables _ _
  · rfl

theorem fill_roughness_tables (st : Registrar) (material : Material) (md : MaterialData) :
    (st.fill_roughness material md).2.tables = st.tables := by
  unfold Registrar.fill_roughness
  split
  · exact add_texture_tables _ _
  · rfl

theorem fill_metallic_tables (st : Registrar) (material : Material) (md : MaterialData) :
    (st.fill_metallic material md).2.tables = st.tables := by
  unfold Registrar.fill_metallic
  split
  · exact add_texture_tables _ _
  · rfl

theorem fill_emissive_tables (st : Registrar) (material : Material) (md : MaterialData) :
    (st.fill_emissive material md).2.tables = st.tables := by
  unfold Registrar.fill_emissive
  split
  · exact add_texture_tables _ _
  · rfl

theorem fill_material_tables (st : Registrar) (material : Material) :
    (st.fill_material material).2.tables = st.tables := by
  unfold Registrar.fill_material
  simp only [fill_emissive_tables, fill_metallic_tables, fill_roughness_tables,
    fill_normal_tables, fill_albedo_tables]

theorem add_material_tables (st : Registrar) (material : Material) :
    (st.add_material material).tables = st.tables := by
  unfold Registrar.add_material
  split
  · rfl
  · have h := fill_material_tables
      { st with
        processed_materials := material.id :: st.processed_materials,
        gpu_material_counter := st.gpu_material_counter + 1 } material
    simp only [Registrar.tables] at h ⊢
    exact h

theorem add_area_light_tables (st : Registrar) (mesh_node_idx : Nat) (material : Material)
    (base_index index_count : Nat) :
    (st.add_area_light mesh_node_idx material base_index index_count).tables = st.tables := by
  unfold Registrar.add_area_light
  split <;> rfl

theorem register_submesh_tables (mesh_node_idx : Nat) (mesh_node : NodePtr) (mesh : Mesh)
    (st : Registrar) (submesh : SubMesh mesh.materials.length) :
    (Registrar.register_submesh mesh_node_idx mesh_node mesh st submesh).tables = st.tables := by
  unfold Registrar.register_submesh
  rw [add_area_light_tables, add_material_tables]

theorem foldl_register_submesh_tables (mesh_node_idx : Nat) (mesh_node : NodePtr) (mesh : Mesh) :
    ∀ (subs : List (SubMesh mesh.materials.length)) (st : Registrar),
      (subs.foldl (Registrar.register_submesh mesh_node_idx mesh_node mesh) st).tables = st.tables
  | [], st => rfl
  | sub :: subs, st => by
    rw [List.foldl_cons, foldl_register_submesh_tables mesh_node_idx mesh_node mesh subs,
      register_submesh_tables]

theorem register_mesh_tables (st : Registrar) (mesh_node_idx : Nat) (mesh_node : NodePtr)
    (mesh : Mesh) :
    (st.register_mesh mesh_node_idx mesh_node mesh).tables = st.tables.add mesh := by
  unfold Registrar.register_mesh MeshTables.add
  by_cases h : st.processed_meshes.contains mesh.id = true
  · have h2 : st.tables.processed_meshes.contains mesh.id = true := h
    rw [if_pos h, if_pos h2]
  · have h2 : ¬ st.tables.processed_meshes.contains mesh.id = true := h
    rw [if_neg h, if_neg h2, foldl_register_submesh_tables]
    rfl

theorem process_mesh_node_tables (st : Registrar) (mesh_node_idx : Nat) (mesh_node : NodePtr) :
    (st.process_mesh_node mesh_node_idx mesh_node).tables =
      match mesh_node.node.m_mesh with
      | none => st.tables
      | some mesh => st.tables.add mesh := by
  unfold Registrar.process_mesh_node
  cases h : mesh_node.node.m_mesh with
  | none => rfl
  | some mesh =>
    simp only []
    rw [← register_mesh_tables st mesh_node_idx mesh_node mesh]
    rfl

theorem process_mesh_nodes_tables :
    ∀ (meshes : List NodePtr) (mesh_node_idx : Nat) (st : Registrar),
      (Registrar.process_mesh_nodes mesh_node_idx meshes st).tables =
        (mesh_list meshes).foldl MeshTables.add st.tables
  | [], _, st => rfl
  | p :: rest, idx, st => by
    rw [Registrar.process_mesh_nodes, process_mesh_nodes_tables rest, process_mesh_node_tables]
    unfold mesh_list
    cases h : p.node.m_mesh with
    | none => simp [List.filterMap_cons, h]
    | some mesh => simp [List.filterMap_cons, h]

theorem first_slot_append_mem (l l2 : List Nat) (x : Nat) (h : x ∈ l) :
    first_slot (l ++ l2) x = first_slot l x := by
  unfold first_slot
  rw [List.indexOf_append_of_mem h,
    List.take_append_of_le_length (List.indexOf_le_length)]

theorem first_slot_append_new (l : List Nat) (y : Nat) (h : y ∉ l) :
    first_slot (l ++ [y]) y = (l.toFinset).card := by
  unfold first_slot
  rw [List.indexOf_append_of_not_mem h, List.indexOf_cons_self, Nat.add_zero, List.take_left]

theorem card_append_mem (l : List Nat) (y : Nat) (h : y ∈ l) :
    ((l ++ [y]).toFinset).card = (l.toFinset).card := by
  congr 1
  ext z
  simp only [List.mem_toFinset, List.mem_append, List.mem_singleton]
  constructor
  · rintro (hz | hz)
    · exact hz
    · rw [hz]; exact h
  · exact fun hz => Or.inl hz

theorem card_append_new (l : List Nat) (y : Nat) (h : y ∉ l) :
    ((l ++ [y]).toFinset).card = (l.toFinset).card + 1 := by
  have e : (l ++ [y]).toFinset = insert y l.toFinset := by
    ext z
    simp only [List.mem_toFinset, List.mem_append, List.mem_singleton, Finset.mem_insert]
    exact Or.comm
  rw [e, Finset.card_insert_of_not_mem (by simpa using h)]

theorem some_or_eq {α : Type} (a : α) (o : Option α) : (some a).or o = some a := rfl

theorem find_id_some (ms : List Mesh) (x : Nat) (h : x ∈ ms.map (fun m => m.id)) :
    ∃ m, ms.find? (fun m => m.id == x) = some m := by
  obtain ⟨m, hm, hx⟩ := List.mem_map.mp h
  have : (ms.find? (fun m => m.id == x)).isSome = true := by
    rw [List.find?_isSome]
    exact ⟨m, hm, by simp [hx]⟩
  exact Option.isSome_iff_exists.mp this

theorem find_id_none (ms : List Mesh) (x : Nat) (h : x ∉ ms.map (fun m => m.id)) :
    ms.find? (fun m => m.id == x) = none := by
  rw [List.find?_eq_none]
  intro m hm
  have : m.id ≠ x := fun e => h (List.mem_map.mpr ⟨m, hm, e⟩)
  simpa using this

theorem tables_inv_nil (t : MeshTables) (h1 : t.processed_meshes = [])
    (h2 : t.mesh_index_counter = 0) (h3 : t.vbo_descriptors = []) (h4 : t.ibo_descriptors = []) :
    TablesInv [] t where
  hproc := by simp [h1]
  hcount := by simp [h2]
  hvbo := by simp [h2, h3]
  hibo := by simp [h2, h4]
  hslot := by simp
  hlt := by simp
  hsurj := by simp [h2]
  hvbo_at := by simp
  hibo_at := by simp

theorem tables_inv_step (ms : List Mesh) (t : MeshTables) (m : Mesh) (inv : TablesInv ms t) :
    TablesInv (ms ++ [m]) (t.add m) := by
  have hids : (ms ++ [m]).map (fun m => m.id) = ms.map (fun m => m.id) ++ [m.id] := by simp
  by_cases hmem : m.id ∈ ms.map (fun m => m.id)
  · have hadd : t.add m = t := by
      unfold MeshTables.add
      rw [if_pos (by simpa using (inv.hproc m.id).mpr hmem)]
    have hsub : ∀ x, x ∈ ms.map (fun m => m.id) ++ [m.id] → x ∈ ms.map (fun m => m.id) := by
      intro x hx
      rcases List.mem_append.mp hx with hx | hx
      · exact hx
      · rw [List.mem_singleton.mp hx]; exact hmem
    rw [hadd]
    refine ⟨?_, ?_, inv.hvbo, inv.hibo, ?_, ?_, ?_, ?_, ?_⟩
    · intro x
      rw [hids, inv.hproc x]
      exact ⟨fun hx => List.mem_append_left _ hx, hsub x⟩
    · rw [hids, card_append_mem _ _ hmem]; exact inv.hcount
    · intro x hx
      rw [hids] at hx ⊢
      rw [first_slot_append_mem _ _ _ (hsub x hx)]
      exact inv.hslot x (hsub x hx)
    · intro x hx
      rw [hids] at hx ⊢
      rw [first_slot_append_mem _ _ _ (hsub x hx)]
      exact inv.hlt x (hsub x hx)
    · intro k hk
      obtain ⟨x, hx, hk2⟩ := inv.hsurj k hk
      refine ⟨x, ?_, ?_⟩
      · rw [hids]; exact List.mem_append_left _ hx
      · rw [hids, first_slot_append_mem _ _ _ hx]; exact hk2
    · intro x hx
      rw [hids] at hx ⊢
      obtain ⟨m2, hm2⟩ := find_id_some ms x (hsub x hx)
      rw [first_slot_append_mem _ _ _ (hsub x hx), List.find?_append, hm2, some_or_eq,
        inv.hvbo_at x (hsub x hx), hm2]
    · intro x hx
      rw [hids] at hx ⊢
      obtain ⟨m2, hm2⟩ := find_id_some ms x (hsub x hx)
      rw [first_slot_append_mem _ _ _ (hsub x hx), List.find?_append, hm2, some_or_eq,
        inv.hibo_at x (hsub x hx), hm2]
  · have hnot : ¬ (t.processed_meshes.contains m.id = true) := by
      simpa using fun h => hmem ((inv.hproc m.id).mp h)
    have hcases : ∀ x, x ∈ ms.map (fun m => m.id) ++ [m.id] →
        (x ∈ ms.map (fun m => m.id) ∧ x ≠ m.id) ∨ x = m.id := by
      intro x hx
      rcases List.mem_append.mp hx with hx | hx
      · exact Or.inl ⟨hx, fun e => hmem (e ▸ hx)⟩
      · exact Or.inr (List.mem_singleton.mp hx)
    unfold MeshTables.add
    rw [if_neg hnot]
    refine ⟨?_, ?_, ?_, ?_, ?_, ?_, ?_, ?_, ?_⟩
    · intro x
      rw [hids, List.mem_cons, List.mem_append, List.mem_singleton, inv.hproc x]
      exact Or.comm
    · rw [hids, card_append_new _ _ hmem, ← inv.hcount]
    · simp [inv.hvbo]
    · simp [inv.hibo]
    · intro x hx
      rw [hids] at hx ⊢
      rcases hcases x hx with ⟨hx1, hne⟩ | rfl
      · rw [first_slot_append_mem _ _ _ hx1, IndexMap.assign, List.lookup_cons]
        have : (x == m.id) = false := by simpa using hne
        rw [this]
        exact inv.hslot x hx1
      · rw [first_slot_append_new _ _ hmem, IndexMap.assign, List.lookup_cons_self, inv.hcount]
    · intro x hx
      rw [hids] at hx ⊢
      rcases hcases x hx with ⟨hx1, _⟩ | rfl
      · rw [first_slot_append_mem _ _ _ hx1]
        exact Nat.lt_succ_of_lt (inv.hlt x hx1)
      · rw [first_slot_append_new _ _ hmem, ← inv.hcount]
        exact Nat.lt_succ_self _
    · intro k hk
      rcases Nat.lt_succ_iff_lt_or_eq.mp hk with hk | hk
      · obtain ⟨x, hx, hk2⟩ := inv.hsurj k hk
        refine ⟨x, ?_, ?_⟩
        · rw [hids]; exact List.mem_append_left _ hx
        · rw [hids, first_slot_append_mem _ _ _ hx]; exact hk2
      · refine ⟨m.id, ?_, ?_⟩
        · rw [hids]; simp
        · rw [hids, first_slot_append_new _ _ hmem, hk, inv.hcount]
    · intro x hx
      rw [hids] at hx ⊢
      rcases hcases x hx with ⟨hx1, _⟩ | rfl
      · obtain ⟨m2, hm2⟩ := find_id_some ms x hx1
        rw [first_slot_append_mem _ _ _ hx1, List.find?_append, hm2, some_or_eq,
          List.getElem?_append_left (by rw [inv.hvbo]; exact inv.hlt x hx1),
          inv.hvbo_at x hx1, hm2]
      · rw [first_slot_append_new _ _ hmem, List.find?_append, find_id_none ms _ hmem,
          List.getElem?_append_right (by rw [inv.hvbo, inv.hcount]), inv.hvbo, inv.hcount]
        simp
    · intro x hx
      rw [hids] at hx ⊢
      rcases hcases x hx with ⟨hx1, _⟩ | rfl
      · obtain ⟨m2, hm2⟩ := find_id_some ms x hx1
        rw [first_slot_append_mem _ _ _ hx1, List.find?_append, hm2, some_or_eq,
          List.getElem?_append_left (by rw [inv.hibo]; exact inv.hlt x hx1),
          inv.hibo_at x hx1, hm2]
      · rw [first_slot_append_new _ _ hmem, List.find?_append, find_id_none ms _ hmem,
          List.getElem?_append_right (by rw [inv.hibo, inv.hcount]), inv.hibo, inv.hcount]
        simp

theorem tables_inv_foldl (t : MeshTables) (h1 : t.processed_meshes = [])
    (h2 : t.mesh_index_counter = 0) (h3 : t.vbo_descriptors = []) (h4 : t.ibo_descriptors = [])
    (ms : List Mesh) : TablesInv ms (ms.foldl MeshTables.add t) := by
  induction ms using List.reverseRecOn with
  | nil => exact tables_inv_nil t h1 h2 h3 h4
  | append_singleton ms m ih =>
    rw [List.foldl_append]
    exact tables_inv_step ms _ m ih

theorem mesh_list_ids (meshes : List NodePtr) :
    (mesh_list meshes).map (fun m => m.id) = mesh_ids meshes := by
  unfold mesh_list mesh_ids
  rw [List.map_filterMap]

theorem hierarchy_pass_inv (s : Scene) (meshes : List NodePtr) :
    TablesInv (mesh_list meshes) (hierarchy_pass s meshes).tables := by
  unfold hierarchy_pass
  rw [process_mesh_nodes_tables]
  exact tables_inv_foldl _ rfl rfl rfl rfl _

theorem create_gpu_resources_hierarchy (s : Scene) (rs : RenderState)
    (h : rs.m_scene_state = SceneState.SCENE_STATE_HIERARCHY_UPDATED) :
    (s.create_gpu_resources rs).registrar = some (hierarchy_pass s rs.m_meshes) ∧
    (s.create_gpu_resources rs).descriptor_writes
      = write_datas s rs (hierarchy_pass s rs.m_meshes) := by
  unfold Scene.create_gpu_resources
  simp [h]

/-! ## C5 -/

/-- C5: on a hierarchy-updated pass the vertex table and the index table each
receive exactly as many entries as there are distinct mesh identities in the
mesh list, whatever the number of instances; these are the lists passed on to
`vkUpdateDescriptorSets`. -/
theorem C5_mesh_tables_deduplicated (s : Scene) (rs : RenderState)
    (h : rs.m_scene_state = SceneState.SCENE_STATE_HIERARCHY_UPDATED) :
    ∃ st : Registrar,
      (s.create_gpu_resources rs).registrar = some st ∧
      (s.create_gpu_resources rs).descriptor_writes = write_datas s rs st ∧
      st.vbo_descriptors.length = ((mesh_ids rs.m_meshes).toFinset).card ∧
      st.ibo_descriptors.length = ((mesh_ids rs.m_meshes).toFinset).card := by
  obtain ⟨h1, h2⟩ := create_gpu_resources_hierarchy s rs h
  have inv := hierarchy_pass_inv s rs.m_meshes
  refine ⟨hierarchy_pass s rs.m_meshes, h1, h2, ?_, ?_⟩
  · have e := inv.hvbo
    rw [inv.hcount, mesh_list_ids] at e
    exact e
  · have e := inv.hibo
    rw [inv.hcount, mesh_list_ids] at e
    exact e

/-- C5 on the graph (mesh A, mesh A again, mesh B): both tables have size 2. -/
theorem C5_three_instances_two_entries :
    c5_frame.render_state.m_scene_state = SceneState.SCENE_STATE_HIERARCHY_UPDATED ∧
    mesh_ids c5_frame.render_state.m_meshes = [7, 7, 9] ∧
    ∃ st : Registrar,
      (c5_frame.scene.create_gpu_resources c5_frame.render_state).registrar = some st ∧
      st.vbo_descriptors.length = 2 ∧ st.ibo_descriptors.length = 2 := by
  have hs : c5_frame.render_state.m_scene_state = SceneState.SCENE_STATE_HIERARCHY_UPDATED := by
    decide
  have hids : mesh_ids c5_frame.render_state.m_meshes = [7, 7, 9] := by decide
  obtain ⟨st, h1, _, h3, h4⟩ := C5_mesh_tables_deduplicated c5_frame.scene c5_frame.render_state hs
  refine ⟨hs, hids, st, h1, ?_, ?_⟩
  · rw [h3, hids]; decide
  · rw [h4, hids]; decide

/-! ## C6 -/

/-- C6: on a hierarchy-updated pass the slot stored for a mesh of the mesh list
is the number of distinct identities that first occur before it; the slots are
below the number M of distinct identities and every number below M is the
slot of some mesh; the slot is the position of the buffers of the first
occurrence of that identity in the vertex and index tables; and a pass over
the same mesh list from any other scene state stores the same slot. -/
theorem C6_slots_follow_first_occurrence (s : Scene) (rs : RenderState) (p : NodePtr)
    (mesh : Mesh)
    (h : rs.m_scene_state = SceneState.SCENE_STATE_HIERARCHY_UPDATED)
    (hp : p ∈ rs.m_meshes) (hm : p.node.m_mesh = some mesh) :
    ∃ st : Registrar,
      (s.create_gpu_resources rs).registrar = some st ∧
      st.m_global_mesh_indices.lookup mesh.id
        = some (((mesh_ids rs.m_meshes).take ((mesh_ids rs.m_meshes).indexOf mesh.id)).toFinset).card ∧
      (((mesh_ids rs.m_meshes).take ((mesh_ids rs.m_meshes).indexOf mesh.id)).toFinset).card
        < ((mesh_ids rs.m_meshes).toFinset).card ∧
      (∀ k < ((mesh_ids rs.m_meshes).toFinset).card,
        ∃ x ∈ mesh_ids rs.m_meshes, st.m_global_mesh_indices.lookup x = some k) ∧
      st.vbo_descriptors[(((mesh_ids rs.m_meshes).take
          ((mesh_ids rs.m_meshes).indexOf mesh.id)).toFinset).card]?
        = ((mesh_list rs.m_meshes).find? (fun m => m.id == mesh.id)).map (fun m => m.vertex_buffer) ∧
      st.ibo_descriptors[(((mesh_ids rs.m_meshes).take
          ((mesh_ids rs.m_meshes).indexOf mesh.id)).toFinset).card]?
        = ((mesh_list rs.m_meshes).find? (fun m => m.id == mesh.id)).map (fun m => m.index_buffer) ∧
      ∀ s2 : Scene, ∃ st2 : Registrar,
        (s2.create_gpu_resources rs).registrar = some st2 ∧
        st2.m_global_mesh_indices.lookup mesh.id = st.m_global_mesh_indices.lookup mesh.id := by
  have hmem : mesh.id ∈ mesh_ids rs.m_meshes := by
    unfold mesh_ids
    rw [List.mem_filterMap]
    exact ⟨p, hp, by simp [hm]⟩
  have inv := hierarchy_pass_inv s rs.m_meshes
  have hmem2 : mesh.id ∈ (mesh_list rs.m_meshes).map (fun m => m.id) := by
    rw [mesh_list_ids]; exact hmem
  have hslot := inv.hslot mesh.id hmem2
  have hlt := inv.hlt mesh.id hmem2
  have hv := inv.hvbo_at mesh.id hmem2
  have hi := inv.hibo_at mesh.id hmem2
  rw [mesh_list_ids] at hslot hlt hv hi
  rw [inv.hcount, mesh_list_ids] at hlt
  refine ⟨hierarchy_pass s rs.m_meshes, (create_gpu_resources_hierarchy s rs h).1,
    hslot, hlt, ?_, hv, hi, ?_⟩
  · intro k hk
    have hk2 : k < (hierarchy_pass s rs.m_meshes).tables.mesh_index_counter := by
      rw [inv.hcount, mesh_list_ids]; exact hk
    obtain ⟨x, hx, hxk⟩ := inv.hsurj k hk2
    refine ⟨x, by rw [← mesh_list_ids]; exact hx, ?_⟩
    have := inv.hslot x hx
    rw [hxk] at this
    exact this
  · intro s2
    have inv2 := hierarchy_pass_inv s2 rs.m_meshes
    have hslot2 := inv2.hslot mesh.id hmem2
    rw [mesh_list_ids] at hslot2
    refine ⟨hierarchy_pass s2 rs.m_meshes, (create_gpu_resources_hierarchy s2 rs h).1, ?_⟩
    exact hslot2.trans hslot.symm

/-- C6 on the graph (mesh A, mesh A again, mesh B): mesh B, third in the list,
gets slot 1. -/
theorem C6_third_instance_slot_one :
    c5_frame.render_state.m_scene_state = SceneState.SCENE_STATE_HIERARCHY_UPDATED ∧
    (∃ p mesh, p ∈ c5_frame.render_state.m_meshes ∧ p.node.m_mesh = some mesh ∧ mesh.id = 9) ∧
    ∃ st : Registrar,
      (c5_frame.scene.create_gpu_resources c5_frame.render_state).registrar = some st ∧
      st.m_global_mesh_indices.lookup 9 = some 1 := by
  have hs : c5_frame.render_state.m_scene_state = SceneState.SCENE_STATE_HIERARCHY_UPDATED := by
    decide
  have hids : mesh_ids c5_frame.render_state.m_meshes = [7, 7, 9] := by decide
  have hex : ∃ p, c5_frame.render_state.m_meshes[2]? = some p := by
    have : (c5_frame.render_state.m_meshes[2]?).isSome = true := by decide
    exact Option.isSome_iff_exists.mp this
  obtain ⟨p, hp⟩ := hex
  have hpm : p ∈ c5_frame.render_state.m_meshes := List.getElem?_mem hp
  have hmesh : (c5_frame.render_state.m_meshes[2]?).bind (fun q => q.node.m_mesh.map (fun m => m.id))
      = some 9 := by decide
  rw [hp] at hmesh
  simp only [Option.some_bind, Option.map_eq_some'] at hmesh
  obtain ⟨mesh, hm, hid⟩ := hmesh
  obtain ⟨st, h1, h2, _⟩ :=
    C6_slots_follow_first_occurrence c5_frame.scene c5_frame.render_state p mesh hs hpm hm
  refine ⟨hs, ⟨p, mesh, hpm, hm, hid⟩, st, h1, ?_⟩
  rw [hid, hids] at h2
  rw [h2]
  decide

/-! ## The instance loop -/

theorem index_fst (m : IndexMap) (k : Nat) : (m.index k).1 = (m.lookup k).getD 0 := by
  unfold IndexMap.index
  cases h : m.lookup k <;> rfl

theorem index_snd_lookup (m : IndexMap) (k k2 : Nat) :
    ((m.index k).2.lookup k2).getD 0 = (m.lookup k2).getD 0 := by
  unfold IndexMap.index
  cases h : m.lookup k with
  | some v => rfl
  | none =>
    simp only [List.lookup_cons]
    by_cases e : k2 = k
    · subst e
      simp [h]
    · have : (k2 == k) = false := by simpa using e
      rw [this]

theorem write_instance_lookup (u : Uploader) (idx : Nat) (p : NodePtr) (k : Nat) :
    ((u.write_instance idx p).m_global_mesh_indices.lookup k).getD 0
      = (u.m_global_mesh_indices.lookup k).getD 0 := by
  unfold Uploader.write_instance
  cases h : p.node.m_mesh with
  | none => rfl
  | some mesh => exact index_snd_lookup _ _ _

theorem write_instance_other (u : Uploader) (idx : Nat) (p : NodePtr) (k : Nat) (hk : k ≠ idx) :
    (u.write_instance idx p).instance_buffer k = u.instance_buffer k := by
  unfold Uploader.write_instance
  cases h : p.node.m_mesh with
  | none => rfl
  | some mesh => simp [write_at, hk]

theorem write_instance_at (u : Uploader) (idx : Nat) (p : NodePtr) (mesh : Mesh)
    (hm : p.node.m_mesh = some mesh) :
    (u.write_instance idx p).instance_buffer idx =
      some { model_matrix := TransformNode.global_transform p,
             normal_matrix := TransformNode.normal_matrix p,
             mesh_index := (u.m_global_mesh_indices.lookup mesh.id).getD 0 } := by
  unfold Uploader.write_instance
  simp [hm, write_at, index_fst]

theorem write_instances_below :
    ∀ (rest : List NodePtr) (idx : Nat) (u : Uploader) (k : Nat), k < idx →
      (Uploader.write_instances idx rest u).instance_buffer k = u.instance_buffer k
  | [], _, _, _, _ => rfl
  | p :: rest, idx, u, k, hk => by
    rw [Uploader.write_instances, write_instances_below rest (idx + 1) _ k (Nat.lt_succ_of_lt hk),
      write_instance_other u idx p k (Nat.ne_of_lt hk)]

theorem write_instances_lookup :
    ∀ (rest : List NodePtr) (idx : Nat) (u : Uploader) (k : Nat),
      ((Uploader.write_instances idx rest u).m_global_mesh_indices.lookup k).getD 0
        = (u.m_global_mesh_indices.lookup k).getD 0
  | [], _, _, _ => rfl
  | p :: rest, idx, u, k => by
    rw [Uploader.write_instances, write_instances_lookup rest, write_instance_lookup]

theorem write_instances_at :
    ∀ (rest : List NodePtr) (idx : Nat) (u : Uploader) (j : Nat) (p : NodePtr) (mesh : Mesh),
      rest[j]? = some p → p.node.m_mesh = some mesh →
      (Uploader.write_instances idx rest u).instance_buffer (idx + j) =
        some { model_matrix := TransformNode.global_transform p,
               normal_matrix := TransformNode.normal_matrix p,
               mesh_index := (u.m_global_mesh_indices.lookup mesh.id).getD 0 }
  | [], _, _, j, _, _, hj, _ => by simp at hj
  | q :: rest, idx, u, 0, p, mesh, hj, hm => by
    simp only [List.getElem?_cons_zero, Option.some.injEq] at hj
    subst hj
    show (Uploader.write_instances idx (q :: rest) u).instance_buffer idx = _
    rw [Uploader.write_instances,
      write_instances_below rest (idx + 1) _ idx (Nat.lt_succ_self idx),
      write_instance_at u idx q mesh hm]
  | q :: rest, idx, u, j + 1, p, mesh, hj, hm => by
    simp only [List.getElem?_cons_succ] at hj
    have ih := write_instances_at rest (idx + 1) (u.write_instance idx q) j p mesh hj hm
    rw [write_instance_lookup] at ih
    rw [Uploader.write_instances, ← ih]
    congr 1
    omega

theorem push_light_instance_buffer (u : Uploader) (record : LightData) :
    (u.push_light record).instance_buffer = u.instance_buffer := rfl

theorem foldl_push_light_instance_buffer (f : NodePtr → LightData) :
    ∀ (lights : List NodePtr) (u : Uploader),
      (lights.foldl (fun v light => v.push_light (f light)) u).instance_buffer = u.instance_buffer
  | [], _ => rfl
  | l :: lights, u => by
    rw [List.foldl_cons, foldl_push_light_instance_buffer f lights, push_light_instance_buffer]

theorem write_lights_instance_buffer (u : Uploader) (rs : RenderState) :
    (u.write_lights rs).instance_buffer = u.instance_buffer := by
  unfold Uploader.write_lights
  simp only [foldl_push_light_instance_buffer]
  split <;> rfl

theorem create_gpu_resources_instance_buffer (s : Scene) (rs : RenderState)
    (h : rs.m_scene_state = SceneState.SCENE_STATE_HIERARCHY_UPDATED) :
    (s.create_gpu_resources rs).scene.m_instance_data_buffer =
      (Uploader.write_instances 0 rs.m_meshes
        { gpu_light_counter := (hierarchy_pass s rs.m_meshes).gpu_light_counter,
          light_buffer := (hierarchy_pass s rs.m_meshes).light_buffer,
          instance_buffer := s.m_instance_data_buffer,
          geometry_instance_buffer := s.m_tlas_instance_buffer_host,
          m_global_mesh_indices := (hierarchy_pass s rs.m_meshes).m_global_mesh_indices }).instance_buffer := by
  unfold Scene.create_gpu_resources
  simp [h, write_lights_instance_buffer]

theorem scene_update_pass (s : Scene) (rs0 : RenderState) :
    ∃ s1 : Scene,
      (s.update rs0).pass = s1.create_gpu_resources (s.update rs0).render_state ∧
      s1.m_instance_data_buffer = s.m_instance_data_buffer := by
  unfold Scene.update
  exact ⟨_, rfl, rfl⟩

/-! ## C7 -/

/-- C7 at a failing input: two instances of mesh 7, the second with the
override material 20.  The pass packs one material record, that of material
70 at slot 0; material 20 is never packed, and the material-index buffer of
the second instance (handle 2) holds the pair (2, 0), naming slot 0. -/
theorem C7_override_of_later_instance_unregistered :
    c7_frame.render_state.m_scene_state = SceneState.SCENE_STATE_HIERARCHY_UPDATED ∧
    c7_frame.render_state.m_meshes.map
        (fun p => (p.node.m_mesh.map (fun m => m.id),
          p.node.m_material_override.map (fun m => m.id), p.node.m_material_indices_buffer))
      = [(some 7, none, 1), (some 7, some 20, 2)] ∧
    c7_frame.pass.registrar.map (fun st => st.processed_materials) = some [70] ∧
    c7_frame.pass.registrar.map (fun st => st.gpu_material_counter) = some 1 ∧
    (c7_frame.scene.m_material_data_buffer 1).isNone = true ∧
    c7_frame.scene.material_indices_buffers 1 = [(2, 0)] ∧
    c7_frame.scene.material_indices_buffers 2 = [(2, 0)] := by
  decide

/-! ## C8 -/

/-- C8, as stated, fails on a `ready` frame: after a first frame over
instances of mesh 7 (slot 0) and mesh 9 (slot 1), `set_mesh` gives the first
node the mesh 9; the next frame is `ready`, and record 0 still holds mesh slot
0 although the mesh now attached to node 0 has slot 1. -/
theorem C8_ready_frame_keeps_stale_record :
    c8_frame1.render_state.m_scene_state = SceneState.SCENE_STATE_HIERARCHY_UPDATED ∧
    c8_frame2.render_state.m_scene_state = SceneState.SCENE_STATE_READY ∧
    c8_frame2.render_state.m_meshes.map (fun p => p.node.m_mesh.map (fun m => m.id))
      = [some 9, some 9] ∧
    c8_frame2.scene.m_global_mesh_indices.lookup 9 = some 1 ∧
    (c8_frame2.scene.m_instance_data_buffer 0).map (fun r => r.mesh_index) = some 0 := by
  decide

/-- C8, amended: after a `Scene::update` call whose tag is hierarchy-updated,
record `i` of the per-instance buffer holds the global transform, the normal
transform and the mesh slot assigned in this pass of the mesh attached to the
`i`-th node of the mesh list; after a call whose tag is `ready` the
per-instance buffer is as it was before the call. -/
theorem C8_instance_records (s : Scene) (rs0 : RenderState) (i : Nat) (p : NodePtr)
    (mesh : Mesh)
    (hi : (s.update rs0).render_state.m_meshes[i]? = some p)
    (hm : p.node.m_mesh = some mesh) :
    ((s.update rs0).render_state.m_scene_state = SceneState.SCENE_STATE_READY →
      (s.update rs0).scene.m_instance_data_buffer = s.m_instance_data_buffer) ∧
    ((s.update rs0).render_state.m_scene_state = SceneState.SCENE_STATE_HIERARCHY_UPDATED →
      (s.update rs0).scene.m_instance_data_buffer i =
        some { model_matrix := TransformNode.global_transform p,
               normal_matrix := TransformNode.normal_matrix p,
               mesh_index :=
                 (((mesh_ids (s.update rs0).render_state.m_meshes).take
                   ((mesh_ids (s.update rs0).render_state.m_meshes).indexOf mesh.id)).toFinset).card }) := by
  obtain ⟨s1, hpass, hbuf⟩ := scene_update_pass s rs0
  constructor
  · intro h
    unfold Frame.scene
    rw [hpass, create_gpu_resources_ready _ _ h]
    exact hbuf
  · intro h
    unfold Frame.scene
    rw [hpass, create_gpu_resources_instance_buffer _ _ h]
    have hw := write_instances_at (s.update rs0).render_state.m_meshes 0
      { gpu_light_counter := (hierarchy_pass s1 (s.update rs0).render_state.m_meshes).gpu_light_counter,
        light_buffer := (hierarchy_pass s1 (s.update rs0).render_state.m_meshes).light_buffer,
        instance_buffer := s1.m_instance_data_buffer,
        geometry_instance_buffer := s1.m_tlas_instance_buffer_host,
        m_global_mesh_indices :=
          (hierarchy_pass s1 (s.update rs0).render_state.m_meshes).m_global_mesh_indices }
      i p mesh hi hm
    rw [Nat.zero_add] at hw
    rw [hw]
    have inv := hierarchy_pass_inv s1 (s.update rs0).render_state.m_meshes
    have hmem : mesh.id ∈ (mesh_list (s.update rs0).render_state.m_meshes).map (fun m => m.id) := by
      rw [mesh_list_ids]
      unfold mesh_ids
      rw [List.mem_filterMap]
      exact ⟨p, List.getElem?_mem hi, by simp [hm]⟩
    have hslot := inv.hslot mesh.id hmem
    rw [mesh_list_ids] at hslot
    have hslot2 : (hierarchy_pass s1 (s.update rs0).render_state.m_meshes).m_global_mesh_indices.lookup
        mesh.id = some (first_slot (mesh_ids (s.update rs0).render_state.m_meshes) mesh.id) := hslot
    simp only [hslot2, Option.getD_some]
    rfl

/-- C8 at the first frame of its example: record 1, of the instance of mesh 9,
holds mesh slot 1. -/
theorem C8_instance_records_witness :
    c8_frame1.render_state.m_scene_state = SceneState.SCENE_STATE_HIERARCHY_UPDATED ∧
    ∃ p mesh, c8_frame1.render_state.m_meshes[1]? = some p ∧ p.node.m_mesh = some mesh ∧
      mesh.id = 9 ∧
      c8_frame1.scene.m_instance_data_buffer 1 =
        some { model_matrix := TransformNode.global_transform p,
               normal_matrix := TransformNode.normal_matrix p,
               mesh_index := 1 } := by
  have hs : c8_frame1.render_state.m_scene_state = SceneState.SCENE_STATE_HIERARCHY_UPDATED := by
    decide
  have hids : mesh_ids c8_frame1.render_state.m_meshes = [7, 9] := by decide
  have hex : ∃ p, c8_frame1.render_state.m_meshes[1]? = some p := by
    have : (c8_frame1.render_state.m_meshes[1]?).isSome = true := by decide
    exact Option.isSome_iff_exists.mp this
  obtain ⟨p, hp⟩ := hex
  have hmesh : (c8_frame1.render_state.m_meshes[1]?).bind
      (fun q => q.node.m_mesh.map (fun m => m.id)) = some 9 := by decide
  rw [hp] at hmesh
  simp only [Option.some_bind, Option.map_eq_some'] at hmesh
  obtain ⟨mesh, hm, hid⟩ := hmesh
  have h := (C8_instance_records
    (Scene.sample
      (Node.sample_root
        [Node.sample_mesh "a" 1 (Mesh.sample 7 (Material.sample 70 false)) none,
         Node.sample_mesh "b" 2 (Mesh.sample 9 (Material.sample 90 false)) none])
      true)
    (RenderState.sample.setup 800 600 0) 1 p mesh hp hm).2 hs
  refine ⟨hs, p, mesh, hp, hm, hid, ?_⟩
  have e : (((mesh_ids c8_frame1.render_state.m_meshes).take
      ((mesh_ids c8_frame1.render_state.m_meshes).indexOf mesh.id)).toFinset).card = 1 := by
    rw [hid, hids]; decide
  unfold c8_frame1 at e ⊢
  rw [h, e]

/-! ## C9 -/

/-- C9 at a failing input: two instances of one mesh whose only submesh has an
emissive material.  There are two (instance, submesh) pairs with an emissive
effective material, yet the pass synthesizes one area-light record, the one
of the first instance. -/
theorem C9_shared_mesh_one_area_light :
    c9_frame.render_state.m_scene_state = SceneState.SCENE_STATE_HIERARCHY_UPDATED ∧
    mesh_ids c9_frame.render_state.m_meshes = [7, 7] ∧
    emissive_pairs c9_frame.render_state.m_meshes = 2 ∧
    c9_frame.scene.m_num_area_lights = 1 ∧
    c9_frame.pass.light_records_written = 1 ∧
    c9_frame.scene.m_light_data_buffer 0 = some (LightData.area 0 0 2 12) ∧
    c9_frame.scene.m_light_data_buffer 1 = none := by
  decide

/-! ## C10 -/

/-- C10 at a failing input: the second frame of a scene whose emissive mesh
was replaced by a plain mesh (`set_mesh`) and moved (`set_position`) after
the first frame.  The graph holds no emissive material and no light node, the
IBL node is enabled and has an image, the frame is hierarchy-updated and
writes one light record, the environment entry at index 0; the light count it
reports is 2, the area light counted in the first frame included. -/
theorem C10_stale_area_light_count :
    c10_frame2.render_state.m_scene_state = SceneState.SCENE_STATE_HIERARCHY_UPDATED ∧
    (c10_scene2.m_root.preorder true).all
        (fun e =>
          (match e.2.m_mesh with
           | some mesh => mesh.materials.all (fun m => !m.is_emissive)
           | none => true)
          && (match e.2.m_material_override with
              | some m => !m.is_emissive
              | none => true)
          && !(decide (e.2.m_type = NodeType.NODE_DIRECTIONAL_LIGHT))
          && !(decide (e.2.m_type = NodeType.NODE_SPOT_LIGHT))
          && !(decide (e.2.m_type = NodeType.NODE_POINT_LIGHT))) = true ∧
    c10_frame2.render_state.has_ibl_image = true ∧
    c10_frame2.pass.light_records_written = 1 ∧
    c10_frame2.scene.m_light_data_buffer 0 = some LightData.environment_map ∧
    c10_frame2.scene.m_num_area_lights = 0 ∧
    c10_frame2.render_state.m_num_lights = 2 := by
  decide

/-! ## The area lights of the registrar -/

theorem add_texture_without_textures (st : Registrar) (texture : Texture) :
    (st.add_texture texture).2.without_textures = st.without_textures := by
  unfold Registrar.add_texture
  split <;> rfl

theorem fill_material_without_textures (st : Registrar) (material : Material) :
    (st.fill_material material).2.without_textures = st.without_textures := by
  have ha : ∀ (t : Registrar) (md : MaterialData),
      (t.fill_albedo material md).2.without_textures = t.without_textures := by
    intro t md
    unfold Registrar.fill_albedo
    split
    · exact add_texture_without_textures _ _
    · rfl
  have hn : ∀ (t : Registrar) (md : MaterialData),
      (t.fill_normal material md).2.without_textures = t.without_textures := by
    intro t md
    unfold Registrar.fill_normal
    split
    · exact add_texture_without_textures _ _
    · rfl
  have hr : ∀ (t : Registrar) (md : MaterialData),
      (t.fill_roughness material md).2.without_textures = t.without_textures := by
    intro t md
    unfold Registrar.fill_roughness
    split
    · exact add_texture_without_textures _ _
    · rfl
  have hm : ∀ (t : Registrar) (md : MaterialData),
      (t.fill_metallic material md).2.without_textures = t.without_textures := by
    intro t md
    unfold Registrar.fill_metallic
    split
    · exact add_texture_without_textures _ _
    · rfl
  have he : ∀ (t : Registrar) (md : MaterialData),
      (t.fill_emissive material md).2.without_textures = t.without_textures := by
    intro t md
    unfold Registrar.fill_emissive
    split
    · exact add_texture_without_textures _ _
    · rfl
  unfold Registrar.fill_material
  simp only [ha, hn, hr, hm, he]

theorem add_material_light_counters (st : Registrar) (material : Material) :
    (st.add_material material).light_counters = st.light_counters := by
  unfold Registrar.add_material
  split
  · rfl
  · have h := fill_material_without_textures
      { st with
        processed_materials := material.id :: st.processed_materials,
        gpu_material_counter := st.gpu_material_counter + 1 } material
    have h2 := congrArg Registrar.light_counters h
    exact h2

theorem register_submesh_light_counters (mesh_node_idx : Nat) (mesh_node : NodePtr) (mesh : Mesh)
    (st : Registrar) (submesh : SubMesh mesh.materials.length) :
    (Registrar.register_submesh mesh_node_idx mesh_node mesh st submesh).light_counters =
      (st.gpu_light_counter
          + (if (effective_material mesh_node mesh submesh).is_emissive then 1 else 0),
        st.m_num_area_lights
          + (if (effective_material mesh_node mesh submesh).is_emissive then 1 else 0),
        st.processed_meshes) := by
  have h := add_material_light_counters st (effective_material mesh_node mesh submesh)
  unfold Registrar.light_counters at h
  simp only [Prod.mk.injEq] at h
  obtain ⟨h1, h2, h3⟩ := h
  unfold Registrar.register_submesh Registrar.add_area_light Registrar.light_counters
  by_cases he : (effective_material mesh_node mesh submesh).is_emissive = true
  · simp [he, h1, h2, h3]
  · simp [he, h1, h2, h3]

theorem foldl_register_submesh_light_counters (mesh_node_idx : Nat) (mesh_node : NodePtr)
    (mesh : Mesh) :
    ∀ (subs : List (SubMesh mesh.materials.length)) (st : Registrar),
      (subs.foldl (Registrar.register_submesh mesh_node_idx mesh_node mesh) st).light_counters =
        (st.gpu_light_counter
            + (subs.filter (fun sub => (effective_material mesh_node mesh sub).is_emissive)).length,
          st.m_num_area_lights
            + (subs.filter (fun sub => (effective_material mesh_node mesh sub).is_emissive)).length,
          st.processed_meshes)
  | [], st => rfl
  | sub :: subs, st => by
    rw [List.foldl_cons, foldl_register_submesh_light_counters mesh_node_idx mesh_node mesh subs]
    have h := register_submesh_light_counters mesh_node_idx mesh_node mesh st sub
    unfold Registrar.light_counters at h
    simp only [Prod.mk.injEq] at h
    obtain ⟨h1, h2, h3⟩ := h
    rw [h1, h2, h3]
    by_cases he : (effective_material mesh_node mesh sub).is_emissive = true
    · simp [List.filter_cons, he]; omega
    · simp [List.filter_cons, he]

theorem process_mesh_node_light_counters (st : Registrar) (mesh_node_idx : Nat)
    (mesh_node : NodePtr) :
    (st.process_mesh_node mesh_node_idx mesh_node).light_counters =
      match mesh_node.node.m_mesh with
      | none => st.light_counters
      | some mesh =>
        if st.processed_meshes.contains mesh.id then st.light_counters
        else
          (st.gpu_light_counter + emissive_submeshes mesh_node,
            st.m_num_area_lights + emissive_submeshes mesh_node,
            mesh.id :: st.processed_meshes) := by
  unfold Registrar.process_mesh_node
  cases h : mesh_node.node.m_mesh with
  | none => rfl
  | some mesh =>
    simp only []
    show (st.register_mesh mesh_node_idx mesh_node mesh).light_counters = _
    unfold Registrar.register_mesh
    by_cases hc : st.processed_meshes.contains mesh.id = true
    · rw [if_pos hc, if_pos hc]
    · rw [if_neg hc, if_neg hc, foldl_register_submesh_light_counters]
      simp only [emissive_submeshes, h]

theorem first_seen_emissive_cons (seen : List Nat) (p : NodePtr) (rest : List NodePtr) :
    first_seen_emissive seen (p :: rest) =
      match p.node.m_mesh with
      | none => first_seen_emissive seen rest
      | some mesh =>
        if seen.contains mesh.id then first_seen_emissive seen rest
        else emissive_submeshes p + first_seen_emissive (mesh.id :: seen) rest := by
  rw [first_seen_emissive]

theorem process_mesh_nodes_light_counters :
    ∀ (meshes : List NodePtr) (mesh_node_idx : Nat) (st : Registrar),
      (Registrar.process_mesh_nodes mesh_node_idx meshes st).gpu_light_counter
          = st.gpu_light_counter + first_seen_emissive st.processed_meshes meshes ∧
      (Registrar.process_mesh_nodes mesh_node_idx meshes st).m_num_area_lights
          = st.m_num_area_lights + first_seen_emissive st.processed_meshes meshes
  | [], _, st => ⟨rfl, rfl⟩
  | p :: rest, idx, st => by
    rw [Registrar.process_mesh_nodes]
    obtain ⟨ih1, ih2⟩ := process_mesh_nodes_light_counters rest (idx + 1)
      (st.process_mesh_node idx p)
    have h := process_mesh_node_light_counters st idx p
    rw [ih1, ih2, first_seen_emissive_cons]
    cases hm : p.node.m_mesh with
    | none =>
      simp only [hm] at h
      unfold Registrar.light_counters at h
      simp only [Prod.mk.injEq] at h
      obtain ⟨h1, h2, h3⟩ := h
      rw [h1, h2, h3]
      exact ⟨rfl, rfl⟩
    | some mesh =>
      simp only [hm] at h
      by_cases hc : st.processed_meshes.contains mesh.id = true
      · rw [if_pos hc] at h
        unfold Registrar.light_counters at h
        simp only [Prod.mk.injEq] at h
        obtain ⟨h1, h2, h3⟩ := h
        simp only [hc, if_true]
        rw [h1, h2, h3]
        exact ⟨rfl, rfl⟩
      · rw [if_neg hc] at h
        unfold Registrar.light_counters at h
        simp only [Prod.mk.injEq] at h
        obtain ⟨h1, h2, h3⟩ := h
        simp only [hc]
        rw [h1, h2, h3]
        constructor <;> simp <;> omega

/-- The area lights of a hierarchy-updated pass: one record for each emissive
submesh of the first entry of each mesh identity, and none for later entries
of an identity. -/
theorem hierarchy_pass_area_lights (s : Scene) (meshes : List NodePtr) :
    (hierarchy_pass s meshes).gpu_light_counter = first_seen_emissive [] meshes ∧
    (hierarchy_pass s meshes).m_num_area_lights = first_seen_emissive [] meshes := by
  obtain ⟨h1, h2⟩ := process_mesh_nodes_light_counters meshes 0 (Registrar.init s)
  unfold hierarchy_pass
  rw [h1, h2]
  simp [Registrar.init]

/-! ## Light count and light records of a frame -/

theorem write_instance_lights (u : Uploader) (idx : Nat) (p : NodePtr) :
    (u.write_instance idx p).gpu_light_counter = u.gpu_light_counter ∧
    (u.write_instance idx p).light_buffer = u.light_buffer := by
  unfold Uploader.write_instance
  cases h : p.node.m_mesh <;> exact ⟨rfl, rfl⟩

theorem write_instances_lights :
    ∀ (rest : List NodePtr) (idx : Nat) (u : Uploader),
      (Uploader.write_instances idx rest u).gpu_light_counter = u.gpu_light_counter ∧
      (Uploader.write_instances idx rest u).light_buffer = u.light_buffer
  | [], _, _ => ⟨rfl, rfl⟩
  | p :: rest, idx, u => by
    rw [Uploader.write_instances]
    obtain ⟨h1, h2⟩ := write_instances_lights rest (idx + 1) (u.write_instance idx p)
    obtain ⟨g1, g2⟩ := write_instance_lights u idx p
    exact ⟨h1.trans g1, h2.trans g2⟩

theorem foldl_push_light_counter (f : NodePtr → LightData) :
    ∀ (lights : List NodePtr) (u : Uploader),
      (lights.foldl (fun v light => v.push_light (f light)) u).gpu_light_counter
        = u.gpu_light_counter + lights.length
  | [], _ => rfl
  | l :: lights, u => by
    rw [List.foldl_cons, foldl_push_light_counter f lights]
    simp only [Uploader.push_light, List.length_cons]
    omega

theorem write_lights_counter (u : Uploader) (rs : RenderState) :
    (u.write_lights rs).gpu_light_counter =
      u.gpu_light_counter
        + (if rs.has_ibl_image || decide (rs.m_directional_lights.length > 0) then 1 else 0)
        + rs.m_directional_lights.length + rs.m_point_lights.length
        + rs.m_spot_lights.length := by
  unfold Uploader.write_lights
  simp only [foldl_push_light_counter]
  split <;> simp [Uploader.push_light]

/-- The number of light records a hierarchy-updated `create_gpu_resources`
writes: the area lights of this pass, the environment entry when there is an
IBL image or a directional light, and the directional, point and spot
lights. -/
theorem create_gpu_resources_light_records (s : Scene) (rs : RenderState)
    (h : rs.m_scene_state = SceneState.SCENE_STATE_HIERARCHY_UPDATED) :
    (s.create_gpu_resources rs).light_records_written =
      first_seen_emissive [] rs.m_meshes
        + (if rs.has_ibl_image || decide (rs.m_directional_lights.length > 0) then 1 else 0)
        + rs.m_directional_lights.length + rs.m_point_lights.length
        + rs.m_spot_lights.length := by
  unfold Scene.create_gpu_resources
  simp only [h, ne_eq, reduceCtorEq, not_false_eq_true, if_true]
  rw [write_lights_counter, (write_instances_lights _ _ _).1, (hierarchy_pass_area_lights s _).1]

/-- The light count `Scene::update` stores: the area lights counted by the
previous pass (the member `m_num_area_lights` on entry), the light nodes, and
one for the environment when there is an IBL image or a directional light. -/
theorem scene_update_num_lights (s : Scene) (rs0 : RenderState) :
    (s.update rs0).render_state.m_num_lights =
      s.m_num_area_lights + (s.update rs0).render_state.m_directional_lights.length
        + (s.update rs0).render_state.m_spot_lights.length
        + (s.update rs0).render_state.m_point_lights.length
        + (if (s.update rs0).render_state.has_ibl_image
              || decide ((s.update rs0).render_state.m_directional_lights.length > 0)
           then 1 else 0) := by
  rw [scene_update_render_state]
  rfl

theorem first_seen_emissive_le :
    ∀ (meshes : List NodePtr) (seen : List Nat),
      first_seen_emissive seen meshes ≤ emissive_pairs meshes
  | [], _ => Nat.le_refl _
  | p :: rest, seen => by
    rw [first_seen_emissive_cons]
    have e : emissive_pairs (p :: rest) = emissive_submeshes p + emissive_pairs rest := by
      simp [emissive_pairs]
    rw [e]
    cases hm : p.node.m_mesh with
    | none =>
      simp only []
      exact Nat.le_trans (first_seen_emissive_le rest seen) (Nat.le_add_left _ _)
    | some mesh =>
      simp only []
      split
      · exact Nat.le_trans (first_seen_emissive_le rest seen) (Nat.le_add_left _ _)
      · exact Nat.add_le_add_left (first_seen_emissive_le rest _) _

/-- A hierarchy-updated frame over a graph without light nodes and without
emissive effective material, whose IBL node has an image: exactly one light
record is written, the environment entry at index 0, and the light count
stored in the RenderState is one more than the area lights counted by the
previous pass. -/
theorem environment_entry_only (s : Scene) (rs0 : RenderState)
    (h : (s.update rs0).render_state.m_scene_state = SceneState.SCENE_STATE_HIERARCHY_UPDATED)
    (hd : (s.update rs0).render_state.m_directional_lights = [])
    (hs : (s.update rs0).render_state.m_spot_lights = [])
    (hp : (s.update rs0).render_state.m_point_lights = [])
    (hibl : (s.update rs0).render_state.has_ibl_image = true)
    (he : emissive_pairs (s.update rs0).render_state.m_meshes = 0) :
    (s.update rs0).pass.light_records_written = 1 ∧
    (s.update rs0).scene.m_light_data_buffer 0 = some LightData.environment_map ∧
    (s.update rs0).render_state.m_num_lights = s.m_num_area_lights + 1 := by
  have hz : first_seen_emissive [] (s.update rs0).render_state.m_meshes = 0 :=
    Nat.le_zero.mp (he ▸ first_seen_emissive_le _ _)
  obtain ⟨s1, hpass, _⟩ := scene_update_pass s rs0
  refine ⟨?_, ?_, ?_⟩
  · rw [hpass, create_gpu_resources_light_records _ _ h, hz, hd, hs, hp, hibl]
    rfl
  · unfold Frame.scene
    rw [hpass]
    unfold Scene.create_gpu_resources
    simp only [h, ne_eq, reduceCtorEq, not_false_eq_true, if_true]
    unfold Uploader.write_lights
    simp only [hd, hs, hp, hibl, List.foldl_nil, Bool.true_or, if_true]
    simp only [Uploader.push_light, (write_instances_lights _ _ _).1,
      (write_instances_lights _ _ _).2, (hierarchy_pass_area_lights s1 _).1, hz, write_at,
      if_true]
  · rw [scene_update_num_lights, hd, hs, hp, hibl]
    rfl

/-! ## Search -/

mutual
theorem find_child_eq_find (name : String) :
    ∀ n : Node, n.find_child name = n.descendants.find? (fun x => x.data.m_name == name)
  | .mk d cs => by
    rw [Node.find_child]
    exact find_child_list_eq_find name cs
theorem find_child_list_eq_find (name : String) :
    ∀ cs : List Node,
      Node.find_child_list name cs
        = (Node.subtrees_list cs).find? (fun x => x.data.m_name == name)
  | [] => by simp [Node.find_child_list, Node.subtrees_list]
  | .mk d ds :: cs => by
    have ih1 := find_child_eq_find name (Node.mk d ds)
    have ih2 := find_child_list_eq_find name cs
    have e : (Node.mk d ds).data = d := rfl
    rw [Node.find_child_list, Node.subtrees_list, Node.subtrees, ih1, ih2]
    simp only [Node.descendants, Node.m_children, e, List.cons_append, List.find?_cons,
      List.find?_append]
    cases hname : (d.m_name == name)
    · cases hfound : List.find? (fun x => x.data.m_name == name) (Node.subtrees_list ds) <;> simp
    · simp
end

mutual
theorem find_child_of_type_eq_find (type : NodeType) :
    ∀ n : Node,
      n.find_child_of_type type = n.descendants.find? (fun x => x.data.m_type == type)
  | .mk d cs => by
    rw [Node.find_child_of_type]
    exact find_child_of_type_list_eq_find type cs
theorem find_child_of_type_list_eq_find (type : NodeType) :
    ∀ cs : List Node,
      Node.find_child_of_type_list type cs
        = (Node.subtrees_list cs).find? (fun x => x.data.m_type == type)
  | [] => by simp [Node.find_child_of_type_list, Node.subtrees_list]
  | .mk d ds :: cs => by
    have ih1 := find_child_of_type_eq_find type (Node.mk d ds)
    have ih2 := find_child_of_type_list_eq_find type cs
    have e : (Node.mk d ds).data = d := rfl
    rw [Node.find_child_of_type_list, Node.subtrees_list, Node.subtrees, ih1, ih2]
    simp only [Node.descendants, Node.m_children, e, List.cons_append, List.find?_cons,
      List.find?_append]
    cases htype : (d.m_type == type)
    · cases hfound : List.find? (fun x => x.data.m_type == type) (Node.subtrees_list ds) <;> simp
    · simp
end

theorem subtrees_eq (n : Node) : n.subtrees = n :: n.descendants := by
  cases n with
  | mk d cs => rw [Node.subtrees]; rfl

/-! ## C17 -/

/-- C17: `update` on a disabled node of any kind returns the node with its
whole subtree and the RenderState unchanged (no list grows; camera slot, IBL
slot and scene-state tag keep their values; flags and cached matrices of the
node and of its descendants keep their values), and no node of the subtree is
visited. -/
theorem C17_disabled_node_is_skipped (parent : Option NodeData) (d : NodeData) (cs : List Node)
    (rs : RenderState) (h : d.m_is_enabled = false) :
    (Node.mk d cs).update parent rs = (Node.mk d cs, rs) ∧ (Node.mk d cs).visited = [] := by
  constructor
  · rw [Node.update]
    simp [h]
  · rw [visited_mk]
    simp [h]

/-- C17 at a disabled mesh node with mesh 7 and a dirty transform, above a
dirty child. -/
theorem C17_disabled_node_is_skipped_witness :
    (Node.mk { NodeData.sample NodeType.NODE_MESH "m" 1 with
          m_is_enabled := false, m_is_transform_dirty := true,
          m_mesh := some (Mesh.sample 7 (Material.sample 70 false)) }
        [TransformNode.set_position c3_child { x := 1, y := 2, z := 3 }]).update none
        RenderState.sample
      = (Node.mk { NodeData.sample NodeType.NODE_MESH "m" 1 with
          m_is_enabled := false, m_is_transform_dirty := true,
          m_mesh := some (Mesh.sample 7 (Material.sample 70 false)) }
        [TransformNode.set_position c3_child { x := 1, y := 2, z := 3 }], RenderState.sample) ∧
    (Node.mk { NodeData.sample NodeType.NODE_MESH "m" 1 with
          m_is_enabled := false, m_is_transform_dirty := true,
          m_mesh := some (Mesh.sample 7 (Material.sample 70 false)) }
        [TransformNode.set_position c3_child { x := 1, y := 2, z := 3 }]).visited = [] :=
  C17_disabled_node_is_skipped none _ _ RenderState.sample rfl

/-! ## C20 -/

/-- C20: `find_child(name)` returns the first node, in depth-first pre-order
over the proper descendants of the receiver, whose name equals the argument,
and null exactly when no proper descendant has that name; `find_child(kind)`
does the same for the node kind; `Scene::find_node(name)` returns the root
when the root has that name and otherwise the root's `find_child(name)`, which
is the first node with the name in the pre-order of the whole graph. -/
theorem C20_find_child_first_in_preorder (n : Node) (s : Scene) (name : String)
    (type : NodeType) :
    n.find_child name = n.descendants.find? (fun x => x.data.m_name == name) ∧
    (n.find_child name = none ↔ ∀ x ∈ n.descendants, x.data.m_name ≠ name) ∧
    n.find_child_of_type type = n.descendants.find? (fun x => x.data.m_type == type) ∧
    (n.find_child_of_type type = none ↔ ∀ x ∈ n.descendants, x.data.m_type ≠ type) ∧
    s.find_node name
      = (if s.m_root.data.m_name = name then some s.m_root else s.m_root.find_child name) ∧
    s.find_node name = s.m_root.subtrees.find? (fun x => x.data.m_name == name) := by
  refine ⟨find_child_eq_find name n, ?_, find_child_of_type_eq_find type n, ?_, ?_, ?_⟩
  · rw [find_child_eq_find, List.find?_eq_none]
    simp
  · rw [find_child_of_type_eq_find, List.find?_eq_none]
    simp
  · unfold Scene.find_node
    by_cases h : s.m_root.data.m_name = name <;> simp [h]
  · unfold Scene.find_node
    rw [subtrees_eq, List.find?_cons, find_child_eq_find]
    cases h : (s.m_root.data.m_name == name) <;> simp

/-! ## The camera slot and the IBL slot -/

theorem update_self_camera (parent : Option NodeData) (d : NodeData) (rs : RenderState) :
    slot_id (Node.update_self parent d rs).2.m_camera =
      (slot_id rs.m_camera).or
        (if d.m_type = NodeType.NODE_CAMERA then some d.m_id else none) := by
  obtain ⟨h1, _, _, _, _, _⟩ := TransformNode.update_fst_fields d rs
  obtain ⟨_, _, _, _, g5, _⟩ := TransformNode.update_snd_lists d rs
  unfold Node.update_self slot_id
  cases hty : d.m_type <;> simp only []
  case NODE_CAMERA =>
    rw [← g5]
    cases hc : (TransformNode.update d rs).2.m_camera <;> simp [h1, hc]
  all_goals ((try split) <;> simp_all)

theorem update_self_ibl (parent : Option NodeData) (d : NodeData) (rs : RenderState) :
    slot_id (Node.update_self parent d rs).2.m_ibl_environment_map =
      (slot_id rs.m_ibl_environment_map).or
        (if d.m_type = NodeType.NODE_IBL then some d.m_id else none) := by
  obtain ⟨_, _, _, _, _, g6⟩ := TransformNode.update_snd_lists d rs
  unfold Node.update_self slot_id
  cases hty : d.m_type <;> simp only [] <;> (try split) <;> simp_all

theorem or_or_first (a : Option Nat) (p : Bool) (x : Nat) (b : Option Nat) :
    ((a.or (if p then some x else none)).or b) = a.or (if p then some x else b) := by
  cases a <;> cases p <;> simp

mutual
theorem update_camera :
    ∀ (n : Node) (parent : Option NodeData) (rs : RenderState),
      slot_id (n.update parent rs).2.m_camera =
        (slot_id rs.m_camera).or
          ((n.visited.find? (fun d => d.m_type == NodeType.NODE_CAMERA)).map (fun d => d.m_id))
  | .mk d cs, parent, rs => by
    rw [Node.update, visited_mk]
    cases h : d.m_is_enabled
    · simp
    · simp only [if_true]
      rw [update_list_camera cs, (update_children_flag_fields _ _).2]
      have e := update_self_camera parent d rs
      simp only [] at e ⊢
      rw [e, List.find?_cons]
      by_cases ht : d.m_type = NodeType.NODE_CAMERA
      · have hb : (d.m_type == NodeType.NODE_CAMERA) = true := by simp [ht]
        cases hs : slot_id rs.m_camera <;> simp [ht, hb]
      · have hb : (d.m_type == NodeType.NODE_CAMERA) = false := by simpa using ht
        cases hs : slot_id rs.m_camera <;> simp [ht, hb]
theorem update_list_camera :
    ∀ (cs : List Node) (parent : Option NodeData) (rs : RenderState),
      slot_id (Node.update_list parent cs rs).2.m_camera =
        (slot_id rs.m_camera).or
          (((Node.visited_list cs).find? (fun d => d.m_type == NodeType.NODE_CAMERA)).map
            (fun d => d.m_id))
  | [], parent, rs => by simp [Node.update_list, visited_list_nil]
  | c :: cs, parent, rs => by
    rw [Node.update_list, visited_list_cons]
    simp only
    rw [update_list_camera cs, update_camera c, List.find?_append]
    cases slot_id rs.m_camera <;>
      cases List.find? (fun d => d.m_type == NodeType.NODE_CAMERA) c.visited <;> simp
end

mutual
theorem update_ibl :
    ∀ (n : Node) (parent : Option NodeData) (rs : RenderState),
      slot_id (n.update parent rs).2.m_ibl_environment_map =
        (slot_id rs.m_ibl_environment_map).or
          ((n.visited.find? (fun d => d.m_type == NodeType.NODE_IBL)).map (fun d => d.m_id))
  | .mk d cs, parent, rs => by
    rw [Node.update, visited_mk]
    cases h : d.m_is_enabled
    · simp
    · simp only [if_true]
      rw [update_list_ibl cs, (update_children_flag_fields _ _).2]
      have e := update_self_ibl parent d rs
      simp only [] at e ⊢
      rw [e, List.find?_cons]
      by_cases ht : d.m_type = NodeType.NODE_IBL
      · have hb : (d.m_type == NodeType.NODE_IBL) = true := by simp [ht]
        cases hs : slot_id rs.m_ibl_environment_map <;> simp [ht, hb]
      · have hb : (d.m_type == NodeType.NODE_IBL) = false := by simpa using ht
        cases hs : slot_id rs.m_ibl_environment_map <;> simp [ht, hb]
theorem update_list_ibl :
    ∀ (cs : List Node) (parent : Option NodeData) (rs : RenderState),
      slot_id (Node.update_list parent cs rs).2.m_ibl_environment_map =
        (slot_id rs.m_ibl_environment_map).or
          (((Node.visited_list cs).find? (fun d => d.m_type == NodeType.NODE_IBL)).map
            (fun d => d.m_id))
  | [], parent, rs => by simp [Node.update_list, visited_list_nil]
  | c :: cs, parent, rs => by
    rw [Node.update_list, visited_list_cons]
    simp only
    rw [update_list_ibl cs, update_ibl c, List.find?_append]
    cases slot_id rs.m_ibl_environment_map <;>
      cases List.find? (fun d => d.m_type == NodeType.NODE_IBL) c.visited <;> simp
end

theorem visited_find_map (n : Node) (P : NodeData → Bool) :
    (n.visited.find? P).map (fun d => d.m_id) =
      ((n.preorder true).find? (fun e => e.1 && e.2.m_is_enabled && P e.2)).map
        (fun e => e.2.m_id) := by
  unfold Node.visited
  rw [List.find?_map, List.find?_filter, Option.map_map]
  have hp : ∀ a : Bool × NodeData,
      decide ((a.1 && a.2.m_is_enabled) = true ∧ (P ∘ fun e : Bool × NodeData => e.2) a = true)
        = (a.1 && a.2.m_is_enabled && P a.2) := by
    intro a
    simp
  simp only [hp]
  rfl

/-! ## C16 -/

/-- C16: after a traversal from a freshly reset RenderState the camera slot
points to the first camera node in depth-first pre-order that is enabled and
has only enabled ancestors (null when there is none), and the IBL slot to the
first such IBL node; later cameras and IBL nodes never replace a slot but are
traversed like any node: every list of the RenderState is the pre-order filter
over all such nodes, whatever lies above them, and no visited node is left
with a pending flag. -/
theorem C16_first_camera_and_first_ibl (root : Node) (rs : RenderState)
    (width height cmd_buffer : Nat) (t : NodeType) :
    slot_id (root.update none (rs.setup width height cmd_buffer)).2.m_camera =
      ((root.preorder true).find? (fun e => e.1 && e.2.m_is_enabled
          && (e.2.m_type == NodeType.NODE_CAMERA))).map (fun e => e.2.m_id) ∧
    slot_id (root.update none (rs.setup width height cmd_buffer)).2.m_ibl_environment_map =
      ((root.preorder true).find? (fun e => e.1 && e.2.m_is_enabled
          && (e.2.m_type == NodeType.NODE_IBL))).map (fun e => e.2.m_id) ∧
    ((root.update none (rs.setup width height cmd_buffer)).2.list_of t).map
        (fun p => p.node.m_id) =
      ((root.preorder true).filter (fun e => e.1 && e.2.m_is_enabled
          && (decide (e.2.m_type = t) && e.2.listed))).map (fun e => e.2.m_id) ∧
    (root.update none (rs.setup width height cmd_buffer)).1.visited.any NodeData.needs_update
      = false := by
  refine ⟨?_, ?_, ?_, update_settled root none _⟩
  · rw [update_camera, visited_find_map]
    simp [slot_id, RenderState.setup, RenderState.clear]
  · rw [update_ibl, visited_find_map]
    simp [slot_id, RenderState.setup, RenderState.clear]
  · rw [update_ids, (setup_fields rs width height cmd_buffer t).1, visited_filter_map]
    simp

/-! ## Paths and edits below a node -/

theorem subtree_at_cons (i : Nat) (p : List Nat) (d : NodeData) (cs : List Node) :
    (Node.mk d cs).subtree_at (i :: p) = (cs[i]?).bind (Node.subtree_at p) := by
  rw [Node.subtree_at]
  rfl

theorem subtree_at_append :
    ∀ (p r : List Nat) (n : Node),
      n.subtree_at (p ++ r) = (n.subtree_at p).bind (Node.subtree_at r)
  | [], r, n => by simp [Node.subtree_at]
  | i :: p, r, .mk d cs => by
    rw [List.cons_append, subtree_at_cons, subtree_at_cons]
    cases h : cs[i]? with
    | none => rfl
    | some c => simpa using subtree_at_append p r c

theorem edit_at_cons (f : Option NodeData → Node → Node) (parent : Option NodeData) (i : Nat)
    (p : List Nat) (d : NodeData) (cs : List Node) :
    Node.edit_at f parent (i :: p) (Node.mk d cs)
      = Node.mk d (cs.modify (Node.edit_at f (some d) p) i) := by
  rw [Node.edit_at]
  rfl

/-- Below the path of an edit, the graph is the result of the call. -/
theorem edit_at_prefix (f : Option NodeData → Node → Node) :
    ∀ (p : List Nat) (root : Node) (parent : Option NodeData),
      ∃ parent1 : Option NodeData, ∀ r : List Nat,
        (Node.edit_at f parent p root).subtree_at (p ++ r)
          = (root.subtree_at p).bind (fun sub => (f parent1 sub).subtree_at r)
  | [], root, parent => ⟨parent, fun r => by simp [Node.edit_at, Node.subtree_at]⟩
  | i :: p, .mk d cs, parent => by
    cases h : cs[i]? with
    | none =>
      refine ⟨none, fun r => ?_⟩
      rw [edit_at_cons, List.cons_append, subtree_at_cons, subtree_at_cons,
        List.getElem?_modify, h]
      rfl
    | some c =>
      obtain ⟨parent1, ih⟩ := edit_at_prefix f p c (some d)
      refine ⟨parent1, fun r => ?_⟩
      rw [edit_at_cons, List.cons_append, subtree_at_cons, subtree_at_cons,
        List.getElem?_modify, h]
      simpa using ih r

/-- Off the path of an edit, every node keeps its members. -/
theorem edit_at_other (f : Option NodeData → Node → Node) :
    ∀ (p : List Nat) (root : Node) (parent : Option NodeData) (q : List Nat), ¬ p <+: q →
      ((Node.edit_at f parent p root).subtree_at q).map Node.data
        = (root.subtree_at q).map Node.data
  | [], _, _, q, h => absurd (List.nil_prefix) h
  | i :: p, .mk d cs, parent, [], _ => by
    rw [edit_at_cons]
    rfl
  | i :: p, .mk d cs, parent, j :: q, h => by
    rw [edit_at_cons, subtree_at_cons, subtree_at_cons, List.getElem?_modify]
    cases hc : cs[j]? with
    | none => rfl
    | some c =>
      by_cases hij : i = j
      · have hq : ¬ p <+: q := by
          intro hpq
          apply h
          rw [hij]
          exact (List.prefix_cons_inj j).mpr hpq
        simpa [hij] using edit_at_other f p c (some d) q hq
      · simp [hij]

theorem mark_list_eq_map :
    ∀ cs : List Node,
      Node.mark_transforms_as_dirty_list cs = cs.map Node.mark_transforms_as_dirty
  | [] => by simp [Node.mark_transforms_as_dirty_list]
  | c :: cs => by
    rw [Node.mark_transforms_as_dirty_list, mark_list_eq_map cs]
    rfl

theorem mark_data (n : Node) :
    n.mark_transforms_as_dirty.data = { n.data with m_is_transform_dirty := true } := by
  cases n with
  | mk d cs => rw [Node.mark_transforms_as_dirty]; rfl

theorem subtree_at_mark :
    ∀ (q : List Nat) (n : Node),
      n.mark_transforms_as_dirty.subtree_at q
        = (n.subtree_at q).map Node.mark_transforms_as_dirty
  | [], n => by simp [Node.subtree_at]
  | i :: q, .mk d cs => by
    rw [Node.mark_transforms_as_dirty, subtree_at_cons, subtree_at_cons, mark_list_eq_map,
      List.getElem?_map]
    cases h : cs[i]? with
    | none => rfl
    | some c => simpa using subtree_at_mark q c

/-- A setter is `mark_transforms_as_dirty` followed by assignments to members
of the receiver other than its flags and its kind. -/
theorem mutator_apply_eq (ops : GlmOps) (parent : Option NodeData) (m : Mutator) :
    ∃ f : NodeData → NodeData,
      (∀ d, (f d).m_is_transform_dirty = d.m_is_transform_dirty) ∧
      ∀ n, m.apply ops parent n = n.mark_transforms_as_dirty.map_data f := by
  cases m <;> refine ⟨_, ?_, fun _ => rfl⟩ <;> intro d <;> rfl

/-- After a setter every node of the receiver's subtree has its flag set, and
the subtree has the same shape. -/
theorem mutator_subtree_dirty (ops : GlmOps) (parent : Option NodeData) (m : Mutator)
    (q : List Nat) (n : Node) :
    ((m.apply ops parent n).subtree_at q).map (fun x => x.data.m_is_transform_dirty)
      = (n.subtree_at q).map (fun _ => true) := by
  obtain ⟨f, hf, he⟩ := mutator_apply_eq ops parent m
  rw [he]
  cases q with
  | nil =>
    cases n with
    | mk d cs =>
      simp only [Node.subtree_at, Option.map_some', Option.some.injEq]
      rw [Node.mark_transforms_as_dirty, Node.map_data]
      exact hf _
  | cons i q =>
    have e : (n.mark_transforms_as_dirty.map_data f).subtree_at (i :: q)
        = n.mark_transforms_as_dirty.subtree_at (i :: q) := by
      cases hn : n.mark_transforms_as_dirty with
      | mk d cs => rfl
    rw [e, subtree_at_mark, Option.map_map]
    cases h : n.subtree_at (i :: q) with
    | none => rfl
    | some c => simp [mark_data]

/-! ## C14 -/

/-- C14: a call of any of the ten transform mutators on the node at path `p`
of a graph leaves the transform-dirty flag set on every node at or below `p`
(the receiver and its descendants at any depth, whatever their kinds and
enabled flags) and leaves the flag of every other node as it was; the graph
keeps its shape. -/
theorem C14_mutator_marks_exactly_the_subtree (ops : GlmOps) (m : Mutator) (root : Node)
    (parent : Option NodeData) (p q : List Nat) :
    ((Node.edit_at (m.apply ops) parent p root).subtree_at q).map
        (fun n => n.data.m_is_transform_dirty)
      = if p <+: q then (root.subtree_at q).map (fun _ => true)
        else (root.subtree_at q).map (fun n => n.data.m_is_transform_dirty) := by
  by_cases hp : p <+: q
  · rw [if_pos hp]
    obtain ⟨r, rfl⟩ := hp
    obtain ⟨parent1, e⟩ := edit_at_prefix (m.apply ops) p root parent
    rw [e r, subtree_at_append]
    cases hsub : root.subtree_at p with
    | none => rfl
    | some sub => exact mutator_subtree_dirty ops parent1 m r sub
  · rw [if_neg hp]
    have e := edit_at_other (m.apply ops) p root parent q hp
    have e2 := congrArg (Option.map (fun d : NodeData => d.m_is_transform_dirty)) e
    simpa [Option.map_map, Function.comp] using e2

/-! ## The cache invariant -/

theorem transform_update_cache_ok (d : NodeData) (rs : RenderState) (h : d.cache_ok) :
    (TransformNode.update d rs).1.cache_ok := by
  unfold TransformNode.update
  by_cases hd : d.m_is_transform_dirty = true
  · rw [if_pos hd]
    intro _ _
    exact ⟨rfl, rfl⟩
  · rw [if_neg hd]
    exact h

theorem cache_ok_of_dirty (d : NodeData) (h : d.m_is_transform_dirty = true) : d.cache_ok := by
  intro _ hclean
  rw [h] at hclean
  exact absurd hclean (by decide)

theorem map_data_subtree_at_cons (f : NodeData → NodeData) (n : Node) (i : Nat) (q : List Nat) :
    (n.map_data f).subtree_at (i :: q) = n.subtree_at (i :: q) := by
  cases n with
  | mk d cs => rfl

theorem map_data_data (f : NodeData → NodeData) (n : Node) : (n.map_data f).data = f n.data := by
  cases n with
  | mk d cs => rfl

/-- The invariant survives an edit at a path when the call keeps it on the
subtree of its receiver. -/
theorem edit_at_cache_ok (f : Option NodeData → Node → Node) (root : Node)
    (parent : Option NodeData) (p : List Nat) (h : root.cache_ok)
    (hf : ∀ (parent1 : Option NodeData) (sub : Node) (r : List Nat) (n : Node),
      root.subtree_at p = some sub → (f parent1 sub).subtree_at r = some n → n.data.cache_ok) :
    (Node.edit_at f parent p root).cache_ok := by
  intro q n hq
  by_cases hp : p <+: q
  · obtain ⟨r, rfl⟩ := hp
    obtain ⟨parent1, e⟩ := edit_at_prefix f p root parent
    rw [e r] at hq
    cases hsub : root.subtree_at p with
    | none => rw [hsub] at hq; exact absurd hq (by simp)
    | some sub =>
      rw [hsub] at hq
      exact hf parent1 sub r n hsub hq
  · have e := edit_at_other f p root parent q hp
    rw [hq] at e
    cases hn : root.subtree_at q with
    | none => rw [hn] at e; exact absurd e (by simp)
    | some n0 =>
      rw [hn] at e
      have e2 : n.data = n0.data := by simpa using e
      rw [e2]
      exact h q n0 hn

theorem sample_cache_valid (type : NodeType) (name : String) (id : Nat) :
    (NodeData.sample type name id).cache_valid := by
  constructor
  · show (1 : Mat4) = _
    ext i j
    fin_cases i <;> fin_cases j <;>
      simp [NodeData.sample, glm_translate, mat4_cast, glm_scale, Matrix.mul_apply,
        Fin.sum_univ_four] <;> rfl
  · show (1 : Mat4) = _
    ext i j
    fin_cases i <;> fin_cases j <;>
      simp [NodeData.sample, glm_translate, mat4_cast, Matrix.mul_apply, Fin.sum_univ_four] <;>
      rfl

theorem c2_root_cache_ok : c2_root.cache_ok := by
  intro q n hq _ _
  have hn : n.data = NodeData.sample NodeType.NODE_ROOT "root" 0
      ∨ n.data = NodeData.sample NodeType.NODE_MESH "child" 1 := by
    match q, hq with
    | [], hq =>
      left
      have e : c2_root = n := by simpa [Node.subtree_at] using hq
      rw [← e]
      rfl
    | 0 :: [], hq =>
      right
      have e : Node.mk (NodeData.sample NodeType.NODE_MESH "child" 1) [] = n := by
        simpa [Node.subtree_at, c2_root, Node.m_children] using hq
      rw [← e]
      rfl
    | 0 :: _ :: _, hq => simp [Node.subtree_at, c2_root, Node.m_children] at hq
    | (_ + 1) :: _, hq => simp [Node.subtree_at, c2_root, Node.m_children] at hq
  rcases hn with hn | hn <;> rw [hn] <;> exact sample_cache_valid _ _ _

/-! ## C15 -/

/-- C15: if every transform node of a graph whose dirty flag is clear has its
cached local-with-scale matrix equal to T*R*S and its cached
local-without-scale matrix equal to T*R of its current position, orientation
and scale, then the same holds after a call of any transform mutator on the
node at any path, and after `TransformNode::update` on the node at any path;
after that update the flag of the updated node is clear. -/
theorem C15_cache_invariant_preserved (ops : GlmOps) (m : Mutator) (root : Node)
    (parent : Option NodeData) (p : List Nat) (rs : RenderState) (h : root.cache_ok) :
    (Node.edit_at (m.apply ops) parent p root).cache_ok ∧
    (Node.edit_at (fun _ => TransformNode.update_node rs) parent p root).cache_ok ∧
    ((Node.edit_at (fun _ => TransformNode.update_node rs) parent p root).subtree_at p).map
        (fun n => n.data.m_is_transform_dirty)
      = (root.subtree_at p).map (fun _ => false) := by
  refine ⟨?_, ?_, ?_⟩
  · apply edit_at_cache_ok _ root parent p h
    intro parent1 sub r n _ hn
    apply cache_ok_of_dirty
    have e := mutator_subtree_dirty ops parent1 m r sub
    rw [hn] at e
    cases hs : sub.subtree_at r with
    | none => rw [hs] at e; exact absurd e (by simp)
    | some n0 => rw [hs] at e; simpa using e
  · apply edit_at_cache_ok _ root parent p h
    intro parent1 sub r n hsub hn
    cases r with
    | nil =>
      have e : TransformNode.update_node rs sub = n := by simpa [Node.subtree_at] using hn
      rw [← e, TransformNode.update_node, map_data_data]
      exact transform_update_cache_ok _ rs (h p sub hsub)
    | cons i r =>
      rw [TransformNode.update_node, map_data_subtree_at_cons] at hn
      apply h (p ++ i :: r) n
      rw [subtree_at_append, hsub]
      exact hn
  · obtain ⟨parent1, e⟩ := edit_at_prefix (fun _ => TransformNode.update_node rs) p root parent
    have e0 := e []
    rw [List.append_nil] at e0
    rw [e0]
    cases hsub : root.subtree_at p with
    | none => rfl
    | some sub =>
      simp only [Option.some_bind, Node.subtree_at, Option.map_some', Option.some.injEq,
        TransformNode.update_node, map_data_data]
      exact (TransformNode.update_fst_fields sub.data rs).2.2.2.2.2

/-- C15 on a clean root with a clean mesh child, for `set_position` and for
`TransformNode::update` on the child. -/
theorem C15_cache_invariant_preserved_witness :
    c2_root.cache_ok ∧
    (Node.edit_at ((Mutator.set_position { x := 1, y := 2, z := 3 }).apply GlmOps.unused)
      none [0] c2_root).cache_ok ∧
    (Node.edit_at (fun _ => TransformNode.update_node RenderState.sample) none [0]
      c2_root).cache_ok ∧
    ((Node.edit_at (fun _ => TransformNode.update_node RenderState.sample) none [0]
        c2_root).subtree_at [0]).map (fun n => n.data.m_is_transform_dirty)
      = (c2_root.subtree_at [0]).map (fun _ => false) :=
  ⟨c2_root_cache_ok,
   C15_cache_invariant_preserved GlmOps.unused (Mutator.set_position { x := 1, y := 2, z := 3 })
     c2_root none [0] RenderState.sample c2_root_cache_ok⟩

/-! ## Cached matrices after a traversal -/

theorem transform_update_components (d : NodeData) (rs : RenderState) :
    (TransformNode.update d rs).1.m_position = d.m_position ∧
    (TransformNode.update d rs).1.m_orientation = d.m_orientation ∧
    (TransformNode.update d rs).1.m_scale = d.m_scale := by
  unfold TransformNode.update
  split <;> simp

theorem transform_update_valid (d : NodeData) (rs : RenderState)
    (h : d.m_is_transform_dirty = false → d.cache_valid) :
    (TransformNode.update d rs).1.cache_valid := by
  unfold TransformNode.update
  by_cases hd : d.m_is_transform_dirty = true
  · rw [if_pos hd]
    exact ⟨rfl, rfl⟩
  · rw [if_neg hd]
    exact h (by simpa using hd)

/-- The own part of `update` leaves position, orientation and scale alone,
and on a transform node the cached local matrices are those that
`TransformNode::update` leaves. -/
theorem update_self_transform (parent : Option NodeData) (d : NodeData) (rs : RenderState) :
    (Node.update_self parent d rs).1.m_position = d.m_position ∧
    (Node.update_self parent d rs).1.m_orientation = d.m_orientation ∧
    (Node.update_self parent d rs).1.m_scale = d.m_scale ∧
    (d.is_transform_node = true →
      (Node.update_self parent d rs).1.m_model_matrix = (TransformNode.update d rs).1.m_model_matrix ∧
      (Node.update_self parent d rs).1.m_model_matrix_without_scale
        = (TransformNode.update d rs).1.m_model_matrix_without_scale) := by
  obtain ⟨h1, h2, h3⟩ := transform_update_components d rs
  unfold Node.update_self NodeData.is_transform_node
  cases hty : d.m_type <;> simp only [] <;> (try split) <;> simp_all

theorem update_data (parent : Option NodeData) (d : NodeData) (cs : List Node) (rs : RenderState)
    (hen : d.m_is_enabled = true) :
    ((Node.mk d cs).update parent rs).1.data
      = { (Node.update_self parent d rs).1 with m_is_heirarchy_dirty := false } := by
  rw [Node.update, if_pos hen]
  exact (update_children_flag_fields _ _).1

theorem update_children_eq (parent : Option NodeData) (d : NodeData) (cs : List Node)
    (rs : RenderState) (hen : d.m_is_enabled = true) :
    ∃ rs1 : RenderState,
      ((Node.mk d cs).update parent rs).1.m_children
        = (Node.update_list (some ((Node.mk d cs).update parent rs).1.data) cs rs1).1 := by
  rw [Node.update, if_pos hen]
  exact ⟨_, rfl⟩

theorem update_components :
    ∀ (n : Node) (parent : Option NodeData) (rs : RenderState),
      (n.update parent rs).1.data.m_position = n.data.m_position ∧
      (n.update parent rs).1.data.m_orientation = n.data.m_orientation ∧
      (n.update parent rs).1.data.m_scale = n.data.m_scale
  | .mk d cs, parent, rs => by
    by_cases hen : d.m_is_enabled = true
    · rw [update_data parent d cs rs hen]
      obtain ⟨h1, h2, h3, _⟩ := update_self_transform parent d rs
      exact ⟨h1, h2, h3⟩
    · rw [Node.update, if_neg hen]
      exact ⟨rfl, rfl, rfl⟩

/-- The loop of `update_children` calls `update` on each child in place. -/
theorem update_list_getElem (parent : Option NodeData) :
    ∀ (cs : List Node) (rs : RenderState) (i : Nat) (c : Node), cs[i]? = some c →
      ∃ rs1 : RenderState, (Node.update_list parent cs rs).1[i]? = some (c.update parent rs1).1
  | [], _, _, _, h => by simp at h
  | c0 :: cs, rs, 0, c, h => by
    rw [Node.update_list]
    have e : c0 = c := by simpa using h
    exact ⟨rs, by simp [e]⟩
  | c0 :: cs, rs, i + 1, c, h => by
    rw [Node.update_list]
    obtain ⟨rs1, ih⟩ := update_list_getElem parent cs (c0.update parent rs).2 i c (by simpa using h)
    exact ⟨rs1, by simpa using ih⟩

theorem mul_point_translate (p c : Vec3) :
    mul_point (glm_translate p * mat4_cast Quat.identity) c
      = { x := p.x + c.x, y := p.y + c.y, z := p.z + c.z } := by
  simp [mul_point, glm_translate, mat4_cast, Quat.identity, Matrix.mul_apply, Fin.sum_univ_four]
  refine ⟨?_, ?_, ?_⟩ <;> simp [Matrix.vecHead, Matrix.vecTail] <;> ring

/-- After a traversal, an enabled transform node that was dirty or had valid
caches has valid caches. -/
theorem update_data_valid (parent : Option NodeData) (d : NodeData) (cs : List Node)
    (rs : RenderState) (hen : d.m_is_enabled = true) (htr : d.is_transform_node = true)
    (hok : d.cache_ok) :
    ((Node.mk d cs).update parent rs).1.data.cache_valid := by
  obtain ⟨h1, h2, h3, h4⟩ := update_self_transform parent d rs
  obtain ⟨h5, h6⟩ := h4 htr
  obtain ⟨g1, g2, g3⟩ := transform_update_components d rs
  obtain ⟨v1, v2⟩ := transform_update_valid d rs (hok htr)
  rw [update_data parent d cs rs hen]
  constructor
  · show (Node.update_self parent d rs).1.m_model_matrix = _
    rw [h5, v1, g1, g2, g3]
    show _ = glm_translate (Node.update_self parent d rs).1.m_position
      * mat4_cast (Node.update_self parent d rs).1.m_orientation
      * glm_scale (Node.update_self parent d rs).1.m_scale
    rw [h1, h2, h3]
  · show (Node.update_self parent d rs).1.m_model_matrix_without_scale = _
    rw [h6, v2, g1, g2]
    show _ = glm_translate (Node.update_self parent d rs).1.m_position
      * mat4_cast (Node.update_self parent d rs).1.m_orientation
    rw [h1, h2]

/-! ## C12 -/

/-- C12: let a transform node at position p with identity orientation be
enabled, and dirty or with valid caches.  After one traversal, for every child
at position c, `global_position` of the child is p + c, whatever the child's
orientation and whatever lies above the parent; the traversal leaves the
positions as they were. -/
theorem C12_child_global_position (n : Node) (parent : Option NodeData) (rs : RenderState)
    (i : Nat) (c : Node)
    (hen : n.data.m_is_enabled = true) (htr : n.data.is_transform_node = true)
    (hor : n.data.m_orientation = Quat.identity) (hok : n.data.cache_ok)
    (hc : n.m_children[i]? = some c) :
    ∃ c1 : Node, (n.update parent rs).1.m_children[i]? = some c1 ∧
      c1.data.m_position = c.data.m_position ∧
      (n.update parent rs).1.data.m_position = n.data.m_position ∧
      TransformNode.global_position { node := c1.data, parent := some (n.update parent rs).1.data }
        = { x := n.data.m_position.x + c.data.m_position.x,
            y := n.data.m_position.y + c.data.m_position.y,
            z := n.data.m_position.z + c.data.m_position.z } := by
  cases n with
  | mk d cs =>
    obtain ⟨rs1, hch⟩ := update_children_eq parent d cs rs hen
    obtain ⟨rs2, hget⟩ := update_list_getElem
      (some ((Node.mk d cs).update parent rs).1.data) cs rs1 i c hc
    obtain ⟨p1, p2, _⟩ := update_components (Node.mk d cs) parent rs
    obtain ⟨_, v2⟩ := update_data_valid parent d cs rs hen htr hok
    have htr2 : ((Node.mk d cs).update parent rs).1.data.is_transform_node = true := by
      rw [update_data parent d cs rs hen]
      have ht := (update_self_fields parent d rs).2.2.1
      simpa [NodeData.is_transform_node, ht] using htr
    refine ⟨(c.update (some ((Node.mk d cs).update parent rs).1.data) rs2).1, ?_,
      (update_components c _ rs2).1, p1, ?_⟩
    · rw [hch]
      exact hget
    · unfold TransformNode.global_position NodePtr.parent_transform
      simp only [Option.filter, htr2, if_true]
      rw [v2, p1, p2, (update_components c _ rs2).1]
      have hor2 : d.m_orientation = Quat.identity := hor
      rw [show (Node.mk d cs).data = d from rfl, hor2]
      exact mul_point_translate _ _

/-- C12 on the scenario of the specification: parent translated by (10,0,0),
child by (0,5,0); after one traversal the child's global position is
(10,5,0). -/
theorem C12_child_global_position_witness :
    ∃ c1 : Node, (c12_parent.update none RenderState.sample).1.m_children[0]? = some c1 ∧
      c1.data.m_position = { x := 0, y := 5, z := 0 } ∧
      (c12_parent.update none RenderState.sample).1.data.m_position
        = { x := 10, y := 0, z := 0 } ∧
      TransformNode.global_position
          { node := c1.data, parent := some (c12_parent.update none RenderState.sample).1.data }
        = { x := 10, y := 5, z := 0 } := by
  obtain ⟨c1, h1, h2, h3, h4⟩ :=
    C12_child_global_position c12_parent none RenderState.sample 0
      c12_child.mark_transforms_as_dirty rfl (by decide) rfl (cache_ok_of_dirty _ rfl) rfl
  refine ⟨c1, h1, ?_, ?_, ?_⟩
  · rw [h2]; rfl
  · rw [h3]; rfl
  · rw [h4]
    show ({ x := (10 : Scalar) + 0, y := 0 + 5, z := 0 + 0 } : Vec3) = _
    norm_num

/-! ## What the global queries compose -/

/-- After a traversal, the global queries on a child of an enabled transform
node compose the translate-rotate matrix of that parent alone with the local
matrices of the child. -/
theorem update_global_transform (n : Node) (parent : Option NodeData) (rs : RenderState)
    (i : Nat) (c : Node)
    (hen : n.data.m_is_enabled = true) (htr : n.data.is_transform_node = true)
    (hok : n.data.cache_ok) (hc : n.m_children[i]? = some c)
    (hcen : c.data.m_is_enabled = true) (hctr : c.data.is_transform_node = true)
    (hcok : c.data.cache_ok) :
    ∃ c1 : Node, (n.update parent rs).1.m_children[i]? = some c1 ∧
      TransformNode.global_transform
          { node := c1.data, parent := some (n.update parent rs).1.data }
        = n.data.translate_rotate * c.data.translate_rotate_scale ∧
      TransformNode.global_transform_without_scale
          { node := c1.data, parent := some (n.update parent rs).1.data }
        = n.data.translate_rotate * c.data.translate_rotate := by
  cases n with
  | mk d cs =>
    cases c with
    | mk cd ccs =>
      obtain ⟨rs1, hch⟩ := update_children_eq parent d cs rs hen
      obtain ⟨rs2, hget⟩ := update_list_getElem
        (some ((Node.mk d cs).update parent rs).1.data) cs rs1 i (Node.mk cd ccs) hc
      obtain ⟨p1, p2, _⟩ := update_components (Node.mk d cs) parent rs
      obtain ⟨_, v2⟩ := update_data_valid parent d cs rs hen htr hok
      obtain ⟨q1, q2, q3⟩ := update_components (Node.mk cd ccs)
        (some ((Node.mk d cs).update parent rs).1.data) rs2
      obtain ⟨w1, w2⟩ := update_data_valid (some ((Node.mk d cs).update parent rs).1.data)
        cd ccs rs2 hcen hctr hcok
      have htr2 : ((Node.mk d cs).update parent rs).1.data.is_transform_node = true := by
        rw [update_data parent d cs rs hen]
        have ht := (update_self_fields parent d rs).2.2.1
        simpa [NodeData.is_transform_node, ht] using htr
      refine ⟨((Node.mk cd ccs).update (some ((Node.mk d cs).update parent rs).1.data) rs2).1,
        ?_, ?_, ?_⟩
      · rw [hch]
        exact hget
      · unfold TransformNode.global_transform NodePtr.parent_transform
        simp only [Option.filter, htr2, if_true]
        rw [v2, w1, p1, p2, q1, q2, q3]
        rfl
      · unfold TransformNode.global_transform_without_scale NodePtr.parent_transform
        simp only [Option.filter, htr2, if_true]
        rw [v2, w2, p1, p2, q1, q2]
        rfl

/-- Below a parent that is not a `TransformNode` the global queries return the
local values. -/
theorem global_queries_below_non_transform (x e : NodeData)
    (h : e.is_transform_node = false) :
    TransformNode.global_position { node := x, parent := some e } = x.m_position ∧
    TransformNode.global_transform { node := x, parent := some e } = x.m_model_matrix ∧
    TransformNode.global_transform_without_scale { node := x, parent := some e }
      = x.m_model_matrix_without_scale := by
  simp [TransformNode.global_position, TransformNode.global_transform,
    TransformNode.global_transform_without_scale, NodePtr.parent_transform, Option.filter, h]

/-! ## C11 -/

/-- C11 fails on a chain of three transform nodes: G moved to (1,0,0) by
`set_position`, its child P at (0,1,0), the child D of P at (0,0,1).  After one
traversal `global_transform` of D has x-translation 0, while the product, root
first, of the translate-rotate matrices of G and P with the
translate-rotate-scale matrix of D has x-translation 1: the contribution of G
is missing. -/
theorem C11_grandparent_contribution_missing :
    ∃ g p d : NodeData, c11_updated.data_at [] = some g ∧ c11_updated.data_at [0] = some p ∧
      c11_updated.data_at [0, 0] = some d ∧
      TransformNode.global_transform { node := d, parent := some p } 0 3 = 0 ∧
      (g.translate_rotate * p.translate_rotate * d.translate_rotate_scale) 0 3 = 1 := by
  refine ⟨_, _, _, rfl, rfl, rfl, ?_, ?_⟩
  · show ((glm_translate { x := 0, y := 1, z := 0 } * mat4_cast { w := 1, x := 0, y := 0, z := 0 })
      * (glm_translate { x := 0, y := 0, z := 1 } * mat4_cast { w := 1, x := 0, y := 0, z := 0 }
        * glm_scale { x := 1, y := 1, z := 1 })) 0 3 = 0
    simp [Matrix.mul_apply, Fin.sum_univ_four, glm_translate, mat4_cast, glm_scale]
  · show ((glm_translate { x := 1, y := 0, z := 0 } * mat4_cast { w := 1, x := 0, y := 0, z := 0 })
      * (glm_translate { x := 0, y := 1, z := 0 } * mat4_cast { w := 1, x := 0, y := 0, z := 0 })
      * (glm_translate { x := 0, y := 0, z := 1 } * mat4_cast { w := 1, x := 0, y := 0, z := 0 }
        * glm_scale { x := 1, y := 1, z := 1 })) 0 3 = 1
    simp [Matrix.mul_apply, Fin.sum_univ_four, glm_translate, mat4_cast, glm_scale]
    rfl

/-! ## C13 -/

/-- C13 fails below an IBL node: G moved to (10,0,0) by `set_position`, its
child an IBL node, the child X of the IBL node a mesh node at (0,5,0).  After
one traversal the global queries on X return its local values (position
(0,5,0), x-translation 0), while X as a direct child of G would get position
(10,5,0) and x-translation 10. -/
theorem C13_ibl_parent_hides_transform_ancestor :
    ∃ g e x : NodeData, c13_updated.data_at [] = some g ∧ c13_updated.data_at [0] = some e ∧
      c13_updated.data_at [0, 0] = some x ∧
      TransformNode.global_position { node := x, parent := some e } = { x := 0, y := 5, z := 0 } ∧
      TransformNode.global_position { node := x, parent := some g } = { x := 10, y := 5, z := 0 } ∧
      TransformNode.global_transform { node := x, parent := some e } 0 3 = 0 ∧
      TransformNode.global_transform { node := x, parent := some g } 0 3 = 10 ∧
      TransformNode.global_transform_without_scale { node := x, parent := some e } 0 3 = 0 ∧
      TransformNode.global_transform_without_scale { node := x, parent := some g } 0 3 = 10 := by
  refine ⟨_, _, _, rfl, rfl, rfl, rfl, ?_, ?_, ?_, ?_, ?_⟩
  · show mul_point (glm_translate { x := 10, y := 0, z := 0 } * mat4_cast Quat.identity)
      { x := 0, y := 5, z := 0 } = _
    rw [mul_point_translate]
    norm_num
  · show (glm_translate { x := 0, y := 5, z := 0 } * mat4_cast { w := 1, x := 0, y := 0, z := 0 }
        * glm_scale { x := 1, y := 1, z := 1 }) 0 3 = 0
    simp [Matrix.mul_apply, Fin.sum_univ_four, glm_translate, mat4_cast, glm_scale]
  · show ((glm_translate { x := 10, y := 0, z := 0 } * mat4_cast { w := 1, x := 0, y := 0, z := 0 })
      * (glm_translate { x := 0, y := 5, z := 0 } * mat4_cast { w := 1, x := 0, y := 0, z := 0 }
        * glm_scale { x := 1, y := 1, z := 1 })) 0 3 = 10
    simp [Matrix.mul_apply, Fin.sum_univ_four, glm_translate, mat4_cast, glm_scale]
  · show (glm_translate { x := 0, y := 5, z := 0 }
        * mat4_cast { w := 1, x := 0, y := 0, z := 0 }) 0 3 = 0
    simp [Matrix.mul_apply, Fin.sum_univ_four, glm_translate, mat4_cast]
  · show ((glm_translate { x := 10, y := 0, z := 0 } * mat4_cast { w := 1, x := 0, y := 0, z := 0 })
      * (glm_translate { x := 0, y := 5, z := 0 }
        * mat4_cast { w := 1, x := 0, y := 0, z := 0 })) 0 3 = 10
    simp [Matrix.mul_apply, Fin.sum_univ_four, glm_translate, mat4_cast]

/-! ## The ids of a graph under an edit -/

theorem subtrees_list_append :
    ∀ a b : List Node,
      Node.subtrees_list (a ++ b) = Node.subtrees_list a ++ Node.subtrees_list b
  | [], b => by simp [Node.subtrees_list]
  | c :: a, b => by
    rw [List.cons_append, Node.subtrees_list, Node.subtrees_list, subtrees_list_append a b,
      List.append_assoc]

theorem ids_mk (d : NodeData) (cs : List Node) :
    (Node.mk d cs).ids = d.m_id :: Node.ids_list cs := by
  unfold Node.ids Node.ids_list
  rw [Node.subtrees]
  rfl

theorem ids_list_split (pre post : List Node) (c : Node) :
    Node.ids_list (pre ++ c :: post) = Node.ids_list pre ++ c.ids ++ Node.ids_list post := by
  unfold Node.ids_list Node.ids
  rw [subtrees_list_append, Node.subtrees_list]
  simp

theorem ids_list_append (pre post : List Node) :
    Node.ids_list (pre ++ post) = Node.ids_list pre ++ Node.ids_list post := by
  unfold Node.ids_list
  rw [subtrees_list_append]
  simp

theorem split_at_child (cs : List Node) (i : Nat) (c : Node) (h : cs[i]? = some c) :
    cs = cs.take i ++ c :: cs.drop (i + 1) ∧
    (∀ g : Node → Node, cs.modify g i = cs.take i ++ g c :: cs.drop (i + 1)) ∧
    cs.eraseIdx i = cs.take i ++ cs.drop (i + 1) := by
  obtain ⟨hi, hget⟩ := List.getElem?_eq_some.mp h
  refine ⟨?_, ?_, List.eraseIdx_eq_take_drop_succ cs i⟩
  · rw [← hget, List.getElem_cons_drop, List.take_append_drop]
  · intro g
    rw [List.modify_eq_take_cons_drop hi, hget]

/-- An edit at a path replaces, in the pre-order list of ids, the block of the
receiver by the block of the result. -/
theorem edit_at_ids (f : Option NodeData → Node → Node) :
    ∀ (p : List Nat) (root : Node) (parent : Option NodeData) (par : Node),
      root.subtree_at p = some par →
      ∃ (A B : List Nat) (parent1 : Option NodeData),
        root.ids = A ++ par.ids ++ B ∧
        (Node.edit_at f parent p root).ids = A ++ (f parent1 par).ids ++ B
  | [], root, parent, par, h => by
    have e : root = par := by simpa [Node.subtree_at] using h
    exact ⟨[], [], parent, by simp [e], by simp [Node.edit_at, e]⟩
  | i :: p, .mk d cs, parent, par, h => by
    rw [subtree_at_cons] at h
    cases hc : cs[i]? with
    | none => rw [hc] at h; exact absurd h (by simp)
    | some c0 =>
      rw [hc] at h
      obtain ⟨A, B, parent1, e1, e2⟩ := edit_at_ids f p c0 (some d) par (by simpa using h)
      obtain ⟨s1, s2, _⟩ := split_at_child cs i c0 hc
      refine ⟨d.m_id :: Node.ids_list (cs.take i) ++ A, B ++ Node.ids_list (cs.drop (i + 1)),
        parent1, ?_, ?_⟩
      · rw [ids_mk]
        nth_rewrite 1 [s1]
        rw [ids_list_split, e1]
        simp
      · rw [edit_at_cons, ids_mk, s2, ids_list_split, e2]
        simp

/-! ## Removal -/

theorem child_to_remove_spec (name : String) :
    ∀ (cs : List Node) (c : Node),
      cs.find? (fun x => x.data.m_name == name) = some c →
      ∃ i : Nat, Node.child_to_remove name cs = some i ∧ cs[i]? = some c
  | [], _, h => by simp at h
  | c0 :: cs, c, h => by
    rw [Node.child_to_remove]
    rw [List.find?_cons] at h
    cases hn : (c0.data.m_name == name) with
    | true =>
      rw [hn] at h
      exact ⟨0, by simp, by simpa using h⟩
    | false =>
      rw [hn] at h
      obtain ⟨i, h1, h2⟩ := child_to_remove_spec name cs c h
      exact ⟨i + 1, by simp [h1], by simpa using h2⟩

/-- The call `remove_child(name)` takes the block of the first child with the
name out of the pre-order list of ids. -/
theorem remove_child_ids (name : String) (par c : Node)
    (h : par.m_children.find? (fun x => x.data.m_name == name) = some c) :
    ∃ L1 L2 : List Nat,
      par.ids = par.data.m_id :: L1 ++ c.ids ++ L2 ∧
      (par.remove_child name).1.ids = par.data.m_id :: L1 ++ L2 := by
  cases par with
  | mk d cs =>
    obtain ⟨i, h1, h2⟩ := child_to_remove_spec name cs c h
    obtain ⟨s1, _, s3⟩ := split_at_child cs i c h2
    refine ⟨Node.ids_list (cs.take i), Node.ids_list (cs.drop (i + 1)), ?_, ?_⟩
    · rw [ids_mk]
      nth_rewrite 1 [s1]
      rw [ids_list_split]
      simp [Node.data]
    · rw [Node.remove_child, h1]
      simp only []
      rw [ids_mk, s3, ids_list_append]
      simp [Node.data]

mutual
theorem preorder_snd :
    ∀ (n : Node) (b : Bool), (n.preorder b).map (fun e => e.2.m_id) = n.ids
  | .mk d cs, b => by
    rw [Node.preorder, ids_mk, List.map_cons, preorder_list_snd cs]
theorem preorder_list_snd :
    ∀ (cs : List Node) (b : Bool),
      (Node.preorder_list b cs).map (fun e => e.2.m_id) = Node.ids_list cs
  | [], b => by simp [Node.preorder_list, Node.ids_list, Node.subtrees_list]
  | c :: cs, b => by
    rw [Node.preorder_list, List.map_append, preorder_snd c, preorder_list_snd cs]
    unfold Node.ids_list Node.ids
    rw [Node.subtrees_list, List.map_append]
end

theorem visited_ids_subset (n : Node) (d : NodeData) (h : d ∈ n.visited) : d.m_id ∈ n.ids := by
  unfold Node.visited at h
  obtain ⟨e, he, rfl⟩ := List.mem_map.mp h
  rw [← preorder_snd n true]
  exact List.mem_map.mpr ⟨e, (List.mem_filter.mp he).1, rfl⟩

theorem nodup_block (A L1 Y L2 B : List Nat) (a y : Nat)
    (h : (A ++ (a :: L1 ++ Y ++ L2) ++ B).Nodup) (hy : y ∈ Y) :
    y ∉ A ++ (a :: L1 ++ L2) ++ B := by
  have hperm : List.Perm (A ++ (a :: L1 ++ Y ++ L2) ++ B) (Y ++ (A ++ (a :: L1 ++ L2) ++ B)) := by
    have e1 : A ++ (a :: L1 ++ Y ++ L2) ++ B = (A ++ (a :: L1)) ++ (Y ++ (L2 ++ B)) := by simp
    have e2 : Y ++ (A ++ (a :: L1 ++ L2) ++ B) = Y ++ ((A ++ (a :: L1)) ++ (L2 ++ B)) := by simp
    rw [e1, e2]
    exact List.perm_append_comm_assoc _ _ _
  have h2 := (List.Perm.nodup_iff hperm).mp h
  exact fun hmem => (List.disjoint_of_nodup_append h2) hy hmem

/-! ## C18 -/

/-- C18 as stated fails when two children carry the name: the root has the
mesh children 1 and 2, both named "x"; after `remove_child("x")` on the root,
node 2, a node with that name whose parent received the call, is in the mesh
list of the next traversal. -/
theorem C18_second_child_of_the_name_stays :
    c18_twins.m_children.map (fun c => (c.data.m_name, c.data.m_id)) = [("x", 1), ("x", 2)] ∧
    ((c18_twins.remove_child_at "x" []).update none
        (RenderState.sample.setup 800 600 0)).2.m_meshes.map (fun q => q.node.m_id) = [2] := by
  decide

/-- C18, amended: let the ids of the nodes of the graph be pairwise distinct,
and let `remove_child(name)` be called between frames on a node `par` of the
graph.  Let `c` be the first direct child of `par` with that name and `x` any
node of the subtree of `c`.  Then `x` is no longer in the graph, and after the
traversal of the next frame, started on a freshly reset RenderState, `x` is in
no list of the RenderState and in neither the camera nor the IBL slot. -/
theorem C18_first_child_of_the_name_absent (root par c x : Node) (p : List Nat) (name : String)
    (rs : RenderState) (width height cmd_buffer : Nat) (t : NodeType)
    (hnodup : root.ids.Nodup) (hpar : root.subtree_at p = some par)
    (hc : par.m_children.find? (fun y => y.data.m_name == name) = some c)
    (hx : x ∈ c.subtrees) :
    x.data.m_id ∉ (root.remove_child_at name p).ids ∧
    x.data.m_id ∉
      (((root.remove_child_at name p).update none
        (rs.setup width height cmd_buffer)).2.list_of t).map (fun q => q.node.m_id) ∧
    slot_id ((root.remove_child_at name p).update none
        (rs.setup width height cmd_buffer)).2.m_camera ≠ some x.data.m_id ∧
    slot_id ((root.remove_child_at name p).update none
        (rs.setup width height cmd_buffer)).2.m_ibl_environment_map ≠ some x.data.m_id := by
  have key : x.data.m_id ∉ (root.remove_child_at name p).ids := by
    obtain ⟨A, B, parent1, e1, e2⟩ :=
      edit_at_ids (fun _ n => (n.remove_child name).1) p root none par hpar
    obtain ⟨L1, L2, r1, r2⟩ := remove_child_ids name par c hc
    rw [e1, r1] at hnodup
    unfold Node.remove_child_at
    rw [e2, r2]
    exact nodup_block A L1 c.ids L2 B par.data.m_id x.data.m_id hnodup
      (List.mem_map.mpr ⟨x, hx, rfl⟩)
  have hv : ∀ d ∈ (root.remove_child_at name p).visited, d.m_id ≠ x.data.m_id := by
    intro d hd heq
    apply key
    rw [← heq]
    exact visited_ids_subset _ d hd
  refine ⟨key, ?_, ?_, ?_⟩
  · rw [update_ids, (setup_fields rs width height cmd_buffer t).1]
    intro hmem
    simp only [List.map_nil, List.nil_append] at hmem
    obtain ⟨d, hd, heq⟩ := List.mem_map.mp hmem
    exact hv d (List.mem_filter.mp hd).1 heq
  · rw [update_camera]
    intro hs
    have h0 : slot_id (rs.setup width height cmd_buffer).m_camera = none := rfl
    rw [h0, Option.none_or] at hs
    obtain ⟨d, hd, heq⟩ := Option.map_eq_some'.mp hs
    exact hv d (List.mem_of_find?_eq_some hd) heq
  · rw [update_ibl]
    intro hs
    have h0 : slot_id (rs.setup width height cmd_buffer).m_ibl_environment_map = none := rfl
    rw [h0, Option.none_or] at hs
    obtain ⟨d, hd, heq⟩ := Option.map_eq_some'.mp hs
    exact hv d (List.mem_of_find?_eq_some hd) heq

/-- C18, amended, on a root with the mesh children "keep" and "gone", where
"gone" holds the point light 3 and the camera 4: after `remove_child("gone")`
the point light 3 is gone from the graph, from the point light list and from
both slots. -/
theorem C18_first_child_of_the_name_absent_witness :
    c18_graph.ids.Nodup ∧
    3 ∉ (c18_graph.remove_child_at "gone" []).ids ∧
    3 ∉
      (((c18_graph.remove_child_at "gone" []).update none
        (RenderState.sample.setup 800 600 0)).2.list_of NodeType.NODE_POINT_LIGHT).map
          (fun q => q.node.m_id) ∧
    slot_id ((c18_graph.remove_child_at "gone" []).update none
        (RenderState.sample.setup 800 600 0)).2.m_camera ≠ some 3 ∧
    slot_id ((c18_graph.remove_child_at "gone" []).update none
        (RenderState.sample.setup 800 600 0)).2.m_ibl_environment_map ≠ some 3 :=
  ⟨by decide,
   C18_first_child_of_the_name_absent c18_graph _ _
     (Node.mk (NodeData.sample NodeType.NODE_POINT_LIGHT "lamp" 3) []) [] "gone"
     RenderState.sample 800 600 0 NodeType.NODE_POINT_LIGHT (by decide) rfl rfl
     (List.Mem.tail _ (List.Mem.head _))⟩

/-! ## C19 -/

/-- C19 fails for the descendants of the removed child: `remove_child("group")`
erases the child "group" with its whole subtree, and queues the mesh 7 and the
override material 20 of "group" itself, but neither the mesh 8 and the
override material 21 of the mesh node below it nor the cubemap 500 of the IBL
node below it. -/
theorem C19_descendant_payload_not_queued :
    (c19_parent.remove_child "group").1.m_children.length = 0 ∧
    (c19_parent.remove_child "group").2 = [QueuedObject.mesh 7, QueuedObject.material 20] ∧
    (c19_parent.descendants.map (fun n => Node.mid_frame_cleanup n.data))
      = [[QueuedObject.mesh 7, QueuedObject.material 20],
         [QueuedObject.mesh 8, QueuedObject.material 21],
         [QueuedObject.texture_cube 500]] ∧
    QueuedObject.mesh 8 ∉ (c19_parent.remove_child "group").2 ∧
    QueuedObject.material 21 ∉ (c19_parent.remove_child "group").2 ∧
    QueuedObject.texture_cube 500 ∉ (c19_parent.remove_child "group").2 := by
  decide

/-- The call `remove_child(name)` runs the cleanup hook of the erased child and
of no other node. -/
theorem remove_child_queue (name : String) (par c : Node)
    (h : par.m_children.find? (fun x => x.data.m_name == name) = some c) :
    (par.remove_child name).2 = Node.mid_frame_cleanup c.data := by
  cases par with
  | mk d cs =>
    obtain ⟨i, h1, h2⟩ := child_to_remove_spec name cs c h
    rw [Node.remove_child, h1]
    simp only []
    rw [h2]

/-! ## C30 -/

theorem remove_child_children (name : String) :
    ∀ cs : List Node,
      (match Node.child_to_remove name cs with
       | some i => cs.eraseIdx i
       | none => cs) = cs.eraseP (fun c => c.data.m_name == name)
  | [] => rfl
  | c0 :: cs => by
    have ih := remove_child_children name cs
    rw [Node.child_to_remove, List.eraseP_cons]
    cases hn : (c0.data.m_name == name) with
    | true => simp
    | false =>
      simp only [Bool.false_eq_true, if_false, cond_false]
      cases hc : Node.child_to_remove name cs with
      | none =>
        rw [hc] at ih
        simp only [Option.map_none']
        rw [← ih]
      | some i =>
        rw [hc] at ih
        simp only [Option.map_some', List.eraseIdx_cons_succ]
        rw [← ih]

theorem remove_child_hook (name : String) :
    ∀ cs : List Node,
      (match Node.child_to_remove name cs with
       | some i =>
         (match cs[i]? with
          | some c => Node.mid_frame_cleanup c.data
          | none => [])
       | none => [])
        = (match cs.find? (fun c => c.data.m_name == name) with
           | some c => Node.mid_frame_cleanup c.data
           | none => [])
  | [] => rfl
  | c0 :: cs => by
    have ih := remove_child_hook name cs
    rw [Node.child_to_remove, List.find?_cons]
    cases hn : (c0.data.m_name == name) with
    | true => simp
    | false =>
      simp only [Bool.false_eq_true, if_false]
      cases hc : Node.child_to_remove name cs with
      | none =>
        rw [hc] at ih
        simp only [Option.map_none']
        exact ih
      | some i =>
        rw [hc] at ih
        simp only [Option.map_some', List.getElem?_cons_succ]
        exact ih

/-- C30: `remove_child(name)` erases the first direct child whose name equals
the argument and keeps all other children, with their subtrees, in their
order; the children list is unchanged when no direct child has the name,
whatever the names of deeper descendants.  The cleanup hook runs on the erased
child, and not at all when there is none.  The node is marked
hierarchy-changed in both cases and nothing else of it changes. -/
theorem C30_remove_child_erases_first_match (name : String) (d : NodeData) (cs : List Node) :
    ((Node.mk d cs).remove_child name).1.m_children
      = cs.eraseP (fun c => c.data.m_name == name) ∧
    ((Node.mk d cs).remove_child name).1.data = { d with m_is_heirarchy_dirty := true } ∧
    ((Node.mk d cs).remove_child name).2
      = (match cs.find? (fun c => c.data.m_name == name) with
         | some c => Node.mid_frame_cleanup c.data
         | none => []) := by
  have h1 := remove_child_children name cs
  have h2 := remove_child_hook name cs
  rw [Node.remove_child]
  cases hc : Node.child_to_remove name cs with
  | none =>
    rw [hc] at h1 h2
    exact ⟨h1, rfl, h2⟩
  | some i =>
    rw [hc] at h1 h2
    exact ⟨h1, rfl, h2⟩

/-! ## C25 -/

theorem construct_nodes_ids :
    ∀ (n c : Nat), c + n ≤ 2 ^ 32 → (construct_nodes n c).1 = List.range' c n
  | 0, _, _ => rfl
  | 1, c, _ => rfl
  | n + 2, c, h => by
    have hc : (c + 1) % 2 ^ 32 = c + 1 := Nat.mod_eq_of_lt (by omega)
    rw [construct_nodes]
    simp only [Node.construct, hc]
    rw [construct_nodes_ids (n + 1) (c + 1) (by omega)]
    rfl

/-- C25: in a run of at most 2^32 node constructions, started with the
counter at its initial value 0, the ids are 0, 1, 2, ... in construction
order: a node constructed later has a strictly larger id than every node
constructed earlier, and no two nodes share an id. -/
theorem C25_ids_strictly_increase (n : Nat) (h : n ≤ 2 ^ 32) :
    (construct_nodes n 0).1 = List.range n ∧
    (construct_nodes n 0).1.Pairwise (fun a b => a < b) ∧
    (construct_nodes n 0).1.Nodup := by
  have e : (construct_nodes n 0).1 = List.range n := by
    rw [construct_nodes_ids n 0 (by omega), List.range_eq_range']
  rw [e]
  exact ⟨rfl, List.pairwise_lt_range n, List.nodup_range n⟩

/-- C25 for three constructions: the ids are 0, 1, 2. -/
theorem C25_ids_strictly_increase_witness :
    3 ≤ 2 ^ 32 ∧
    (construct_nodes 3 0).1 = List.range 3 ∧
    (construct_nodes 3 0).1.Pairwise (fun a b => a < b) ∧
    (construct_nodes 3 0).1.Nodup :=
  ⟨by norm_num, C25_ids_strictly_increase 3 (by norm_num)⟩

/-! ## C21 -/

/-- C21: when `Renderer::render` runs with the tag hierarchy-updated it
appends to the command buffer, in this order, the copy of
`sizeof(RTGeometryInstance) * meshes.size()` bytes from the host instance
buffer of the scene to the device instance buffer, a memory barrier from
transfer-write (transfer stage) to acceleration-structure-write (build stage),
one build command, and a second barrier on the build stage.  The build command
is an update in place, with the existing structure as source, exactly when a
top-level structure existed before the call, and a fresh build without source
otherwise; a structure exists after the call, the one that existed or a new
one that allows updates. -/
theorem C21_render_hierarchy_updated (r : Renderer) (new_tlas : Nat) (cmd_buffer : List Command)
    (tlas_data : TlasData) (render_state : RenderState)
    (h : render_state.m_scene_state = SceneState.SCENE_STATE_HIERARCHY_UPDATED) :
    ∃ tlas : AccelerationStructure,
      (r.render new_tlas cmd_buffer tlas_data render_state).2.tlas = some tlas ∧
      (tlas_data.tlas = some tlas ∨
        (tlas_data.tlas = none ∧ tlas.handle = new_tlas ∧ tlas.allow_update = true
          ∧ tlas.top_level = true ∧ tlas.instance_count = r.MAX_SCENE_MESH_COUNT)) ∧
      (r.render new_tlas cmd_buffer tlas_data render_state).2.instance_buffer_host
        = tlas_data.instance_buffer_host ∧
      (r.render new_tlas cmd_buffer tlas_data render_state).1 =
        cmd_buffer ++
          [Command.copy_buffer tlas_data.instance_buffer_host r.m_tlas_instance_buffer_device 0
             (r.sizeof_RTGeometryInstance * render_state.m_meshes.length),
           Command.pipeline_barrier PipelineStage.VK_PIPELINE_STAGE_TRANSFER_BIT
             PipelineStage.VK_PIPELINE_STAGE_ACCELERATION_STRUCTURE_BUILD_BIT
             [AccessFlag.VK_ACCESS_TRANSFER_WRITE_BIT]
             [AccessFlag.VK_ACCESS_ACCELERATION_STRUCTURE_WRITE_BIT_NV],
           Command.build_acceleration_structure r.m_tlas_instance_buffer_device 0
             tlas_data.tlas.isSome tlas.handle
             (if tlas_data.tlas.isSome then some tlas.handle else none)
             r.m_tlas_scratch_buffer 0,
           Command.pipeline_barrier
             PipelineStage.VK_PIPELINE_STAGE_ACCELERATION_STRUCTURE_BUILD_BIT
             PipelineStage.VK_PIPELINE_STAGE_ACCELERATION_STRUCTURE_BUILD_BIT
             [AccessFlag.VK_ACCESS_ACCELERATION_STRUCTURE_WRITE_BIT_NV,
              AccessFlag.VK_ACCESS_ACCELERATION_STRUCTURE_READ_BIT_NV]
             [AccessFlag.VK_ACCESS_ACCELERATION_STRUCTURE_WRITE_BIT_NV,
              AccessFlag.VK_ACCESS_ACCELERATION_STRUCTURE_READ_BIT_NV]] := by
  unfold Renderer.render
  rw [if_pos h]
  cases ht : tlas_data.tlas with
  | none => exact ⟨_, rfl, Or.inr ⟨rfl, rfl, rfl, rfl, rfl⟩, rfl, rfl⟩
  | some tlas => exact ⟨tlas, rfl, Or.inl rfl, rfl, rfl⟩

/-- C21 on the first frame over three mesh instances, with no structure yet:
the build is a fresh build of the new structure 20. -/
theorem C21_render_hierarchy_updated_witness :
    c5_frame.render_state.m_scene_state = SceneState.SCENE_STATE_HIERARCHY_UPDATED ∧
    ∃ tlas : AccelerationStructure,
      (Renderer.sample.render 20 [] TlasData.sample c5_frame.render_state).2.tlas = some tlas ∧
      (TlasData.sample.tlas = some tlas ∨
        (TlasData.sample.tlas = none ∧ tlas.handle = 20 ∧ tlas.allow_update = true
          ∧ tlas.top_level = true ∧ tlas.instance_count = Renderer.sample.MAX_SCENE_MESH_COUNT)) ∧
      (Renderer.sample.render 20 [] TlasData.sample c5_frame.render_state).2.instance_buffer_host
        = TlasData.sample.instance_buffer_host ∧
      (Renderer.sample.render 20 [] TlasData.sample c5_frame.render_state).1 =
        [] ++
          [Command.copy_buffer TlasData.sample.instance_buffer_host
             Renderer.sample.m_tlas_instance_buffer_device 0
             (Renderer.sample.sizeof_RTGeometryInstance * c5_frame.render_state.m_meshes.length),
           Command.pipeline_barrier PipelineStage.VK_PIPELINE_STAGE_TRANSFER_BIT
             PipelineStage.VK_PIPELINE_STAGE_ACCELERATION_STRUCTURE_BUILD_BIT
             [AccessFlag.VK_ACCESS_TRANSFER_WRITE_BIT]
             [AccessFlag.VK_ACCESS_ACCELERATION_STRUCTURE_WRITE_BIT_NV],
           Command.build_acceleration_structure Renderer.sample.m_tlas_instance_buffer_device 0
             TlasData.sample.tlas.isSome tlas.handle
             (if TlasData.sample.tlas.isSome then some tlas.handle else none)
             Renderer.sample.m_tlas_scratch_buffer 0,
           Command.pipeline_barrier
             PipelineStage.VK_PIPELINE_STAGE_ACCELERATION_STRUCTURE_BUILD_BIT
             PipelineStage.VK_PIPELINE_STAGE_ACCELERATION_STRUCTURE_BUILD_BIT
             [AccessFlag.VK_ACCESS_ACCELERATION_STRUCTURE_WRITE_BIT_NV,
              AccessFlag.VK_ACCESS_ACCELERATION_STRUCTURE_READ_BIT_NV]
             [AccessFlag.VK_ACCESS_ACCELERATION_STRUCTURE_WRITE_BIT_NV,
              AccessFlag.VK_ACCESS_ACCELERATION_STRUCTURE_READ_BIT_NV]] :=
  ⟨by decide,
   C21_render_hierarchy_updated Renderer.sample 20 [] TlasData.sample c5_frame.render_state
     (by decide)⟩

/-- The two frames of one structure: the first render builds the new structure
20, a second hierarchy-updated render updates it in place, with itself as
source. -/
theorem render_build_then_update :
    (Renderer.sample.render 20 [] TlasData.sample c5_frame.render_state).1.get? 2
      = some (Command.build_acceleration_structure 10 0 false 20 none 11 0) ∧
    (Renderer.sample.render 21 []
        (Renderer.sample.render 20 [] TlasData.sample c5_frame.render_state).2
        c5_frame.render_state).1.get? 2
      = some (Command.build_acceleration_structure 10 0 true 20 (some 20) 11 0) ∧
    (Renderer.sample.render 20 [] TlasData.sample c5_frame.render_state).1.get? 0
      = some (Command.copy_buffer 12 10 0 192) := by
  decide

/-! ## C22 -/

/-- C22: when the tag is `ready`, `Renderer::render` appends no command (no
copy, no barrier, no build), creates no acceleration structure and leaves the
acceleration-structure data of the scene as it was. -/
theorem C22_render_ready (r : Renderer) (new_tlas : Nat) (cmd_buffer : List Command)
    (tlas_data : TlasData) (render_state : RenderState)
    (h : render_state.m_scene_state = SceneState.SCENE_STATE_READY) :
    r.render new_tlas cmd_buffer tlas_data render_state = (cmd_buffer, tlas_data) := by
  unfold Renderer.render
  rw [if_neg (by rw [h]; decide)]

/-- C22 on the `ready` frame of C8, before any structure exists. -/
theorem C22_render_ready_witness :
    c8_frame2.render_state.m_scene_state = SceneState.SCENE_STATE_READY ∧
    Renderer.sample.render 20 [] TlasData.sample c8_frame2.render_state
      = ([], TlasData.sample) :=
  ⟨by decide,
   C22_render_ready Renderer.sample 20 [] TlasData.sample c8_frame2.render_state (by decide)⟩

/-! ## C27 -/

/-- C27 fails for a texture that is already in the table.  Material 70 uses
texture 5 for roughness and for metallic: its record (slot 0) gets roughness
index 0 and metallic index -1, without the authored metallic value.  Material
90 uses texture 5 for albedo and texture 6 for normals: its record (slot 1)
gets albedo index -1 with albedo zero, and normal index 1.  The table holds
each texture once: image views 55 and 66. -/
theorem C27_texture_seen_before_gets_no_index :
    c27_frame.render_state.m_scene_state = SceneState.SCENE_STATE_HIERARCHY_UPDATED ∧
    c27_frame.pass.registrar.map (fun st => st.image_descriptors) = some [55, 66] ∧
    (c27_frame.scene.m_material_data_buffer 0).map (fun md => md.texture_indices0)
      = some { x := -1, y := -1, z := 0, w := -1 } ∧
    (c27_frame.scene.m_material_data_buffer 0).map (fun md => md.texture_indices1)
      = some { x := -1, y := -1, z := 1, w := -1 } ∧
    (c27_frame.scene.m_material_data_buffer 1).map (fun md => md.texture_indices0)
      = some { x := -1, y := 1, z := -1, w := -1 } ∧
    (c27_frame.scene.m_material_data_buffer 1).map (fun md => md.albedo)
      = some PackedAlbedo.zero := by
  decide

/-! ## C29 -/

/-- On a hierarchy-updated frame the light count stored in the RenderState and
the number of light records written differ by the difference between the area
lights counted by the previous pass (the member `m_num_area_lights` on entry)
and the area lights of this pass. -/
theorem light_count_gap (s : Scene) (rs0 : RenderState)
    (h : (s.update rs0).render_state.m_scene_state = SceneState.SCENE_STATE_HIERARCHY_UPDATED) :
    (s.update rs0).render_state.m_num_lights
        + first_seen_emissive [] (s.update rs0).render_state.m_meshes
      = (s.update rs0).pass.light_records_written + s.m_num_area_lights := by
  obtain ⟨s1, hpass, _⟩ := scene_update_pass s rs0
  rw [scene_update_num_lights, hpass, create_gpu_resources_light_records _ _ h]
  omega

/-- C29 fails on the first frame of a scene with an emissive material, a point
light and an IBL image: the frame is hierarchy-updated and writes three light
records (area light, environment entry, point light), while the light count
stored in the RenderState is 2: the area light of this pass is not counted. -/
theorem C29_first_frame_misses_area_lights :
    c29_scene.m_num_area_lights = 0 ∧
    c29_frame.render_state.m_scene_state = SceneState.SCENE_STATE_HIERARCHY_UPDATED ∧
    c29_frame.pass.light_records_written = 3 ∧
    c29_frame.scene.m_light_data_buffer 0 = some (LightData.area 0 0 2 12) ∧
    c29_frame.scene.m_light_data_buffer 1 = some LightData.environment_map ∧
    (c29_frame.scene.m_light_data_buffer 2).isSome = true ∧
    c29_frame.scene.m_light_data_buffer 3 = none ∧
    c29_frame.render_state.m_num_lights = 2 := by
  decide

/-! ## The camera matrices -/

theorem glm_inverse_mul (M : Mat4) (h : M.det ≠ 0) : glm_inverse M * M = 1 := by
  unfold glm_inverse
  rw [Matrix.smul_mul, Matrix.adjugate_mul, smul_smul, inv_mul_cancel₀ h, one_smul]

theorem glm_inverse_one : glm_inverse 1 = 1 := by
  unfold glm_inverse
  simp

theorem translate_rotate_identity :
    glm_translate { x := 0, y := 0, z := 0 } * mat4_cast Quat.identity = 1 := by
  ext i j
  fin_cases i <;> fin_cases j <;>
    simp [glm_translate, mat4_cast, Quat.identity, Matrix.mul_apply, Fin.sum_univ_four] <;>
    rfl

/-- The own part of `CameraNode::update`: the matrices it assigns, and the
members it leaves as `TransformNode::update` left them. -/
theorem update_self_camera_matrices (parent : Option NodeData) (d : NodeData) (rs : RenderState)
    (hcam : d.m_type = NodeType.NODE_CAMERA) :
    (Node.update_self parent d rs).1.m_view_matrix
      = glm_inverse (TransformNode.global_transform_without_scale
          { node := (Node.update_self parent d rs).1, parent := parent }) ∧
    (Node.update_self parent d rs).1.m_projection_matrix
      = { fov_degrees := d.m_fov,
          aspect := (rs.m_viewport_width : Scalar) / (rs.m_viewport_height : Scalar),
          z_near := d.m_near_plane, z_far := d.m_far_plane } := by
  have h2 := TransformNode.update_snd d rs
  have hf : (TransformNode.update d rs).1.m_fov = d.m_fov
      ∧ (TransformNode.update d rs).1.m_near_plane = d.m_near_plane
      ∧ (TransformNode.update d rs).1.m_far_plane = d.m_far_plane := by
    unfold TransformNode.update
    split <;> exact ⟨rfl, rfl, rfl⟩
  obtain ⟨f1, f2, f3⟩ := hf
  unfold Node.update_self
  simp only [hcam]
  cases hc : (TransformNode.update d rs).2.m_camera with
  | none =>
    simp only []
    refine ⟨rfl, ?_⟩
    rw [f1, f2, f3, h2]
  | some c =>
    simp only []
    refine ⟨rfl, ?_⟩
    rw [f1, f2, f3, h2]

/-! ## C26 -/

/-- C26: after `CameraNode::update` on an enabled camera whose global
transform-without-scale G is invertible, the view matrix is `glm::inverse(G)`
and view times G is the identity; the projection matrix is
`glm::perspective(glm::radians(fov), width / height, near, far)` for the
camera's field of view and planes and the viewport of the RenderState.  For a
camera at the origin with identity orientation and no transform parent, dirty
or with valid caches, the view matrix is the identity. -/
theorem C26_camera_matrices (d : NodeData) (cs : List Node) (parent : Option NodeData)
    (rs : RenderState) (hcam : d.m_type = NodeType.NODE_CAMERA) (hen : d.m_is_enabled = true)
    (hdet : (TransformNode.global_transform_without_scale
      { node := ((Node.mk d cs).update parent rs).1.data, parent := parent }).det ≠ 0) :
    ((Node.mk d cs).update parent rs).1.data.m_view_matrix
      = glm_inverse (TransformNode.global_transform_without_scale
          { node := ((Node.mk d cs).update parent rs).1.data, parent := parent }) ∧
    ((Node.mk d cs).update parent rs).1.data.m_view_matrix
        * TransformNode.global_transform_without_scale
            { node := ((Node.mk d cs).update parent rs).1.data, parent := parent } = 1 ∧
    ((Node.mk d cs).update parent rs).1.data.m_projection_matrix
      = { fov_degrees := d.m_fov,
          aspect := (rs.m_viewport_width : Scalar) / (rs.m_viewport_height : Scalar),
          z_near := d.m_near_plane, z_far := d.m_far_plane } ∧
    (parent.filter NodeData.is_transform_node = none → d.cache_ok →
      d.m_position = { x := 0, y := 0, z := 0 } → d.m_orientation = Quat.identity →
      ((Node.mk d cs).update parent rs).1.data.m_view_matrix = 1) := by
  obtain ⟨m1, m2⟩ := update_self_camera_matrices parent d rs hcam
  have hd := update_data parent d cs rs hen
  have hv : ((Node.mk d cs).update parent rs).1.data.m_view_matrix
      = glm_inverse (TransformNode.global_transform_without_scale
          { node := ((Node.mk d cs).update parent rs).1.data, parent := parent }) := by
    rw [hd]
    exact m1
  refine ⟨hv, ?_, ?_, ?_⟩
  · rw [hv]
    exact glm_inverse_mul _ hdet
  · rw [hd]
    exact m2
  · intro hpar hok hpos hor
    have htr : d.is_transform_node = true := by simp [NodeData.is_transform_node, hcam]
    obtain ⟨_, v2⟩ := update_data_valid parent d cs rs hen htr hok
    obtain ⟨p1, p2, _⟩ := update_components (Node.mk d cs) parent rs
    rw [hv]
    unfold TransformNode.global_transform_without_scale NodePtr.parent_transform
    simp only [hpar]
    rw [v2, p1, p2]
    show glm_inverse (glm_translate d.m_position * mat4_cast d.m_orientation) = 1
    rw [hpos, hor, translate_rotate_identity, glm_inverse_one]

/-- C26 on the camera of the scenario (field of view 60, planes 0.1 and 100,
identity transform, no parent) with the viewport 800 x 600: the view matrix is
the identity and the projection is the perspective matrix of aspect
800 / 600. -/
theorem C26_camera_matrices_witness :
    (c26_camera.update none (RenderState.sample.setup 800 600 0)).1.data.m_view_matrix
        * TransformNode.global_transform_without_scale
            { node := (c26_camera.update none (RenderState.sample.setup 800 600 0)).1.data,
              parent := none } = 1 ∧
    (c26_camera.update none (RenderState.sample.setup 800 600 0)).1.data.m_projection_matrix
      = { fov_degrees := 60, aspect := (800 : Scalar) / 600, z_near := 1 / 10, z_far := 100 } ∧
    (c26_camera.update none (RenderState.sample.setup 800 600 0)).1.data.m_view_matrix = 1 := by
  have hdet : (TransformNode.global_transform_without_scale
      { node := (c26_camera.update none (RenderState.sample.setup 800 600 0)).1.data,
        parent := none }).det ≠ 0 := by
    rw [show TransformNode.global_transform_without_scale
      { node := (c26_camera.update none (RenderState.sample.setup 800 600 0)).1.data,
        parent := none } = 1 from rfl]
    simp
  obtain ⟨_, h2, h3, h4⟩ :=
    C26_camera_matrices (NodeData.sample NodeType.NODE_CAMERA "camera" 1) [] none
      (RenderState.sample.setup 800 600 0) rfl rfl hdet
  refine ⟨h2, h3.trans ?_, h4 rfl ?_ rfl rfl⟩
  · simp [RenderState.setup, RenderState.clear, NodeData.sample]
  · intro _ _
    exact sample_cache_valid _ _ _

/-! ## Unit rotations are invertible -/

theorem mat4_cast_mul_transpose (q : Quat) (h : q.is_unit) :
    mat4_cast q * (mat4_cast q).transpose = 1 := by
  unfold Quat.is_unit at h
  ext i j
  fin_cases i <;> fin_cases j <;>
    simp [mat4_cast, Matrix.mul_apply, Fin.sum_univ_four, Matrix.transpose_apply,
      Matrix.vecHead, Matrix.vecTail] <;>
    first
      | linear_combination (4 * (q.y * q.y + q.z * q.z)) * h
      | linear_combination (4 * (q.x * q.x + q.z * q.z)) * h
      | linear_combination (4 * (q.x * q.x + q.y * q.y)) * h
      | linear_combination (-4 * q.x * q.y) * h
      | linear_combination (-4 * q.x * q.z) * h
      | linear_combination (-4 * q.y * q.z) * h

theorem glm_translate_mul_neg (p : Vec3) :
    glm_translate p * glm_translate p.neg = 1 := by
  ext i j
  fin_cases i <;> fin_cases j <;>
    simp [glm_translate, Vec3.neg, Matrix.mul_apply, Fin.sum_univ_four, Matrix.vecHead,
      Matrix.vecTail]

theorem translate_rotate_det_ne_zero (d : NodeData) (h : d.m_orientation.is_unit) :
    d.translate_rotate.det ≠ 0 := by
  apply Matrix.det_ne_zero_of_right_inverse
    (B := (mat4_cast d.m_orientation).transpose * glm_translate d.m_position.neg)
  unfold NodeData.translate_rotate
  calc glm_translate d.m_position * mat4_cast d.m_orientation
        * ((mat4_cast d.m_orientation).transpose * glm_translate d.m_position.neg)
      = glm_translate d.m_position
          * (mat4_cast d.m_orientation * (mat4_cast d.m_orientation).transpose)
          * glm_translate d.m_position.neg := by
        simp only [Matrix.mul_assoc]
    _ = 1 := by
        rw [mat4_cast_mul_transpose _ h, Matrix.mul_one, glm_translate_mul_neg]

/-- The global transform-without-scale of a node with valid caches and a unit
orientation, below no transform parent or below one with valid caches and a
unit orientation, is invertible. -/
theorem global_transform_without_scale_det_ne_zero (p : NodePtr)
    (hv : p.node.cache_valid) (hq : p.node.m_orientation.is_unit)
    (hp : ∀ pt : NodeData, p.parent_transform = some pt →
      pt.cache_valid ∧ pt.m_orientation.is_unit) :
    (TransformNode.global_transform_without_scale p).det ≠ 0 := by
  have hn : p.node.m_model_matrix_without_scale.det ≠ 0 := by
    rw [hv.2]
    exact translate_rotate_det_ne_zero p.node hq
  unfold TransformNode.global_transform_without_scale
  cases hpt : p.parent_transform with
  | none => exact hn
  | some pt =>
    obtain ⟨pv, pq⟩ := hp pt hpt
    simp only []
    rw [Matrix.det_mul]
    refine mul_ne_zero ?_ hn
    rw [pv.2]
    exact translate_rotate_det_ne_zero pt pq

/-! ## The records the instance loop writes -/

theorem write_instance_geometry_other (u : Uploader) (idx : Nat) (p : NodePtr) (k : Nat)
    (hk : k ≠ idx) :
    (u.write_instance idx p).geometry_instance_buffer k = u.geometry_instance_buffer k := by
  unfold Uploader.write_instance
  cases h : p.node.m_mesh with
  | none => rfl
  | some mesh => simp [write_at, hk]

theorem write_instance_written (u : Uploader) (idx : Nat) (p : NodePtr)
    (hm : p.node.m_mesh.isSome = true) :
    ((u.write_instance idx p).instance_buffer idx).isSome = true ∧
    ((u.write_instance idx p).geometry_instance_buffer idx).isSome = true := by
  unfold Uploader.write_instance
  cases h : p.node.m_mesh with
  | none => rw [h] at hm; exact absurd hm (by decide)
  | some mesh => simp [write_at]

theorem write_instances_outside :
    ∀ (rest : List NodePtr) (idx : Nat) (u : Uploader) (k : Nat),
      k < idx ∨ idx + rest.length ≤ k →
      (Uploader.write_instances idx rest u).instance_buffer k = u.instance_buffer k ∧
      (Uploader.write_instances idx rest u).geometry_instance_buffer k
        = u.geometry_instance_buffer k
  | [], _, _, _, _ => ⟨rfl, rfl⟩
  | p :: rest, idx, u, k, hk => by
    have hne : k ≠ idx := by
      rcases hk with hk | hk
      · exact Nat.ne_of_lt hk
      · simp only [List.length_cons] at hk
        omega
    have hk2 : k < idx + 1 ∨ idx + 1 + rest.length ≤ k := by
      rcases hk with hk | hk
      · exact Or.inl (Nat.lt_succ_of_lt hk)
      · simp only [List.length_cons] at hk
        exact Or.inr (by omega)
    obtain ⟨h1, h2⟩ := write_instances_outside rest (idx + 1) (u.write_instance idx p) k hk2
    rw [Uploader.write_instances, h1, h2, write_instance_other u idx p k hne,
      write_instance_geometry_other u idx p k hne]
    exact ⟨rfl, rfl⟩

theorem write_instances_written :
    ∀ (rest : List NodePtr) (idx : Nat) (u : Uploader) (j : Nat), j < rest.length →
      (∀ p ∈ rest, p.node.m_mesh.isSome = true) →
      ((Uploader.write_instances idx rest u).instance_buffer (idx + j)).isSome = true ∧
      ((Uploader.write_instances idx rest u).geometry_instance_buffer (idx + j)).isSome = true
  | [], _, _, j, hj, _ => by simp at hj
  | q :: rest, idx, u, 0, _, hm => by
    obtain ⟨h1, h2⟩ := write_instances_outside rest (idx + 1) (u.write_instance idx q) idx
      (Or.inl (Nat.lt_succ_self idx))
    obtain ⟨w1, w2⟩ := write_instance_written u idx q (hm q (List.mem_cons_self _ _))
    rw [Uploader.write_instances]
    show ((Uploader.write_instances (idx + 1) rest (u.write_instance idx q)).instance_buffer
        idx).isSome = true ∧
      ((Uploader.write_instances (idx + 1) rest
        (u.write_instance idx q)).geometry_instance_buffer idx).isSome = true
    rw [h1, h2]
    exact ⟨w1, w2⟩
  | q :: rest, idx, u, j + 1, hj, hm => by
    have ih := write_instances_written rest (idx + 1) (u.write_instance idx q) j
      (by simpa using hj) (fun p hp => hm p (List.mem_cons_of_mem _ hp))
    rw [Uploader.write_instances]
    have e : idx + (j + 1) = idx + 1 + j := by omega
    rw [e]
    exact ih

theorem write_lights_geometry_buffer (u : Uploader) (rs : RenderState) :
    (u.write_lights rs).geometry_instance_buffer = u.geometry_instance_buffer := by
  have hf : ∀ (f : NodePtr → LightData) (lights : List NodePtr) (v : Uploader),
      (lights.foldl (fun w light => w.push_light (f light)) v).geometry_instance_buffer
        = v.geometry_instance_buffer := by
    intro f lights
    induction lights with
    | nil => intro v; rfl
    | cons l lights ih => intro v; rw [List.foldl_cons, ih]; rfl
  unfold Uploader.write_lights
  simp only [hf]
  split <;> rfl

/-- The two instance buffers after a call of `create_gpu_resources` that is
not `ready`: the instance loop ran over the whole mesh list, on the buffers
as they were. -/
theorem create_gpu_resources_instance_buffers (s : Scene) (rs : RenderState)
    (h : rs.m_scene_state ≠ SceneState.SCENE_STATE_READY) :
    ∃ u : Uploader,
      u.instance_buffer = s.m_instance_data_buffer ∧
      u.geometry_instance_buffer = s.m_tlas_instance_buffer_host ∧
      (s.create_gpu_resources rs).scene.m_instance_data_buffer
        = (Uploader.write_instances 0 rs.m_meshes u).instance_buffer ∧
      (s.create_gpu_resources rs).scene.m_tlas_instance_buffer_host
        = (Uploader.write_instances 0 rs.m_meshes u).geometry_instance_buffer := by
  unfold Scene.create_gpu_resources
  rw [if_pos h]
  simp only [write_lights_instance_buffer, write_lights_geometry_buffer]
  by_cases h2 : rs.m_scene_state = SceneState.SCENE_STATE_HIERARCHY_UPDATED
  · simp only [h2, if_true]
    exact ⟨_, rfl, rfl, rfl, rfl⟩
  · simp only [h2, if_false]
    exact ⟨_, rfl, rfl, rfl, rfl⟩

/-! ## Records written through the counters -/

theorem filled_init {α : Type} (before : Nat → Option α) : Filled before 0 before :=
  ⟨fun k hk => absurd hk (Nat.not_lt_zero k), fun _ _ => rfl⟩

theorem filled_write {α : Type} (before buffer : Nat → Option α) (counter : Nat) (v : α)
    (h : Filled before counter buffer) :
    Filled before (counter + 1) (write_at buffer counter v) := by
  obtain ⟨h1, h2⟩ := h
  constructor
  · intro k hk
    unfold write_at
    by_cases e : k = counter
    · simp [e]
    · simp only [e, if_false]
      exact h1 k (by omega)
  · intro k hk
    unfold write_at
    have e : k ≠ counter := by omega
    simp only [e, if_false]
    exact h2 k (by omega)

/-- Both record tables of the registrar have been filled through their
counters. -/
theorem add_material_filled (s : Scene) (st : Registrar) (material : Material)
    (hm : Filled s.m_material_data_buffer st.gpu_material_counter st.material_buffer)
    (hl : Filled s.m_light_data_buffer st.gpu_light_counter st.light_buffer) :
    Filled s.m_material_data_buffer (st.add_material material).gpu_material_counter
      (st.add_material material).material_buffer ∧
    Filled s.m_light_data_buffer (st.add_material material).gpu_light_counter
      (st.add_material material).light_buffer := by
  unfold Registrar.add_material
  split
  · exact ⟨hm, hl⟩
  · have h := fill_material_without_textures
      { st with
        processed_materials := material.id :: st.processed_materials,
        gpu_material_counter := st.gpu_material_counter + 1 } material
    have e1 := congrArg Registrar.material_buffer h
    have e2 := congrArg Registrar.gpu_material_counter h
    have e3 := congrArg Registrar.light_buffer h
    have e4 := congrArg Registrar.gpu_light_counter h
    simp only [Registrar.without_textures] at e1 e2 e3 e4
    simp only []
    rw [e1, e2, e3, e4]
    exact ⟨filled_write _ _ _ _ hm, hl⟩

theorem add_area_light_filled (s : Scene) (st : Registrar) (mesh_node_idx : Nat)
    (material : Material) (base_index index_count : Nat)
    (hm : Filled s.m_material_data_buffer st.gpu_material_counter st.material_buffer)
    (hl : Filled s.m_light_data_buffer st.gpu_light_counter st.light_buffer) :
    Filled s.m_material_data_buffer
      (st.add_area_light mesh_node_idx material base_index index_count).gpu_material_counter
      (st.add_area_light mesh_node_idx material base_index index_count).material_buffer ∧
    Filled s.m_light_data_buffer
      (st.add_area_light mesh_node_idx material base_index index_count).gpu_light_counter
      (st.add_area_light mesh_node_idx material base_index index_count).light_buffer := by
  unfold Registrar.add_area_light
  split
  · exact ⟨hm, filled_write _ _ _ _ hl⟩
  · exact ⟨hm, hl⟩

theorem foldl_register_submesh_filled (s : Scene) (mesh_node_idx : Nat) (mesh_node : NodePtr)
    (mesh : Mesh) :
    ∀ (subs : List (SubMesh mesh.materials.length)) (st : Registrar),
      Filled s.m_material_data_buffer st.gpu_material_counter st.material_buffer →
      Filled s.m_light_data_buffer st.gpu_light_counter st.light_buffer →
      Filled s.m_material_data_buffer
        (subs.foldl (Registrar.register_submesh mesh_node_idx mesh_node mesh) st).gpu_material_counter
        (subs.foldl (Registrar.register_submesh mesh_node_idx mesh_node mesh) st).material_buffer ∧
      Filled s.m_light_data_buffer
        (subs.foldl (Registrar.register_submesh mesh_node_idx mesh_node mesh) st).gpu_light_counter
        (subs.foldl (Registrar.register_submesh mesh_node_idx mesh_node mesh) st).light_buffer
  | [], _, hm, hl => ⟨hm, hl⟩
  | sub :: subs, st, hm, hl => by
    rw [List.foldl_cons]
    obtain ⟨a1, a2⟩ := add_material_filled s st (effective_material mesh_node mesh sub) hm hl
    obtain ⟨b1, b2⟩ := add_area_light_filled s _ mesh_node_idx
      (effective_material mesh_node mesh sub) sub.base_index sub.index_count a1 a2
    exact foldl_register_submesh_filled s mesh_node_idx mesh_node mesh subs _ b1 b2

theorem process_mesh_node_filled (s : Scene) (st : Registrar) (mesh_node_idx : Nat)
    (mesh_node : NodePtr)
    (hm : Filled s.m_material_data_buffer st.gpu_material_counter st.material_buffer)
    (hl : Filled s.m_light_data_buffer st.gpu_light_counter st.light_buffer) :
    Filled s.m_material_data_buffer
      (st.process_mesh_node mesh_node_idx mesh_node).gpu_material_counter
      (st.process_mesh_node mesh_node_idx mesh_node).material_buffer ∧
    Filled s.m_light_data_buffer
      (st.process_mesh_node mesh_node_idx mesh_node).gpu_light_counter
      (st.process_mesh_node mesh_node_idx mesh_node).light_buffer := by
  unfold Registrar.process_mesh_node
  cases h : mesh_node.node.m_mesh with
  | none => exact ⟨hm, hl⟩
  | some mesh =>
    simp only []
    show Filled s.m_material_data_buffer
        (st.register_mesh mesh_node_idx mesh_node mesh).gpu_material_counter
        (st.register_mesh mesh_node_idx mesh_node mesh).material_buffer ∧
      Filled s.m_light_data_buffer
        (st.register_mesh mesh_node_idx mesh_node mesh).gpu_light_counter
        (st.register_mesh mesh_node_idx mesh_node mesh).light_buffer
    unfold Registrar.register_mesh
    split
    · exact ⟨hm, hl⟩
    · exact foldl_register_submesh_filled s mesh_node_idx mesh_node mesh _ _ hm hl

theorem process_mesh_nodes_filled (s : Scene) :
    ∀ (meshes : List NodePtr) (mesh_node_idx : Nat) (st : Registrar),
      Filled s.m_material_data_buffer st.gpu_material_counter st.material_buffer →
      Filled s.m_light_data_buffer st.gpu_light_counter st.light_buffer →
      Filled s.m_material_data_buffer
        (Registrar.process_mesh_nodes mesh_node_idx meshes st).gpu_material_counter
        (Registrar.process_mesh_nodes mesh_node_idx meshes st).material_buffer ∧
      Filled s.m_light_data_buffer
        (Registrar.process_mesh_nodes mesh_node_idx meshes st).gpu_light_counter
        (Registrar.process_mesh_nodes mesh_node_idx meshes st).light_buffer
  | [], _, _, hm, hl => ⟨hm, hl⟩
  | p :: rest, idx, st, hm, hl => by
    rw [Registrar.process_mesh_nodes]
    obtain ⟨a1, a2⟩ := process_mesh_node_filled s st idx p hm hl
    exact process_mesh_nodes_filled s rest (idx + 1) _ a1 a2

theorem hierarchy_pass_filled (s : Scene) (meshes : List NodePtr) :
    Filled s.m_material_data_buffer (hierarchy_pass s meshes).gpu_material_counter
      (hierarchy_pass s meshes).material_buffer ∧
    Filled s.m_light_data_buffer (hierarchy_pass s meshes).gpu_light_counter
      (hierarchy_pass s meshes).light_buffer :=
  process_mesh_nodes_filled s meshes 0 (Registrar.init s) (filled_init _) (filled_init _)

theorem write_lights_filled (before : Nat → Option LightData) (u : Uploader) (rs : RenderState)
    (h : Filled before u.gpu_light_counter u.light_buffer) :
    Filled before (u.write_lights rs).gpu_light_counter (u.write_lights rs).light_buffer := by
  have hf : ∀ (f : NodePtr → LightData) (lights : List NodePtr) (v : Uploader),
      Filled before v.gpu_light_counter v.light_buffer →
      Filled before (lights.foldl (fun w light => w.push_light (f light)) v).gpu_light_counter
        (lights.foldl (fun w light => w.push_light (f light)) v).light_buffer := by
    intro f lights
    induction lights with
    | nil => intro v hv; exact hv
    | cons l lights ih =>
      intro v hv
      rw [List.foldl_cons]
      exact ih _ (filled_write _ _ _ _ hv)
  unfold Uploader.write_lights
  apply hf
  apply hf
  apply hf
  split
  · exact filled_write _ _ _ _ h
  · exact h

theorem create_gpu_resources_records (s : Scene) (rs : RenderState)
    (h : rs.m_scene_state = SceneState.SCENE_STATE_HIERARCHY_UPDATED) :
    (s.create_gpu_resources rs).registrar = some (hierarchy_pass s rs.m_meshes) ∧
    (s.create_gpu_resources rs).scene.m_material_data_buffer
      = (hierarchy_pass s rs.m_meshes).material_buffer ∧
    Filled s.m_light_data_buffer (s.create_gpu_resources rs).light_records_written
      (s.create_gpu_resources rs).scene.m_light_data_buffer := by
  obtain ⟨_, hl⟩ := hierarchy_pass_filled s rs.m_meshes
  unfold Scene.create_gpu_resources
  simp only [h, ne_eq, reduceCtorEq, not_false_eq_true, if_true, true_and]
  apply write_lights_filled
  rw [(write_instances_lights _ _ _).1, (write_instances_lights _ _ _).2]
  exact hl

/-! ## C23 -/

/-- C23 as stated fails: with tables of two records each, a first frame over
three mesh instances with three emissive materials and three textures is
hierarchy-updated and writes the third instance record, the third material
record and the third light record at index 2, past the end of each table, and
puts three textures into the descriptor write; the result of the call carries
no error. -/
theorem C23_records_written_past_the_ceilings :
    c23_frame.render_state.m_scene_state = SceneState.SCENE_STATE_HIERARCHY_UPDATED ∧
    c23_limits.MAX_SCENE_MESH_INSTANCE_COUNT < c23_frame.render_state.m_meshes.length ∧
    (c23_scene.m_instance_data_buffer c23_limits.MAX_SCENE_MESH_INSTANCE_COUNT).isSome = false ∧
    (c23_frame.scene.m_instance_data_buffer
      c23_limits.MAX_SCENE_MESH_INSTANCE_COUNT).isSome = true ∧
    (c23_frame.scene.m_tlas_instance_buffer_host
      c23_limits.MAX_SCENE_MESH_INSTANCE_COUNT).isSome = true ∧
    (c23_scene.m_material_data_buffer c23_limits.MAX_SCENE_MATERIAL_COUNT).isSome = false ∧
    (c23_frame.scene.m_material_data_buffer c23_limits.MAX_SCENE_MATERIAL_COUNT).isSome = true ∧
    (c23_scene.m_light_data_buffer c23_limits.MAX_SCENE_LIGHT_COUNT).isSome = false ∧
    (c23_frame.scene.m_light_data_buffer c23_limits.MAX_SCENE_LIGHT_COUNT).isSome = true ∧
    c23_frame.pass.registrar.map (fun st => st.image_descriptors) = some [55, 66, 77] ∧
    c23_limits.MAX_SCENE_MATERIAL_TEXTURE_COUNT < 3 := by
  decide

/-- C23, amended: registration makes no capacity check and has no error
result.  On a hierarchy-updated frame started on a freshly reset RenderState
it writes the instance records (per-instance buffer and TLAS host buffer) at
the indices below the number of visible mesh instances, the material records
at the indices below its material counter and the light records at the
indices below its light counter, and leaves every other record of these
buffers as it was: the writes stay inside a table exactly when the count is
at most the ceiling of the table, and record `ceiling` is written when the
count exceeds it. -/
theorem C23_records_written_below_the_counts (s : Scene) (rs : RenderState)
    (width height cmd_buffer : Nat) (i : Nat)
    (h : (s.update (rs.setup width height cmd_buffer)).render_state.m_scene_state
      = SceneState.SCENE_STATE_HIERARCHY_UPDATED) :
    ∃ st : Registrar,
      (s.update (rs.setup width height cmd_buffer)).pass.registrar = some st ∧
      (i < (s.update (rs.setup width height cmd_buffer)).render_state.m_meshes.length →
        ((s.update (rs.setup width height cmd_buffer)).scene.m_instance_data_buffer i).isSome
          = true ∧
        ((s.update (rs.setup width height cmd_buffer)).scene.m_tlas_instance_buffer_host
          i).isSome = true) ∧
      ((s.update (rs.setup width height cmd_buffer)).render_state.m_meshes.length ≤ i →
        (s.update (rs.setup width height cmd_buffer)).scene.m_instance_data_buffer i
          = s.m_instance_data_buffer i ∧
        (s.update (rs.setup width height cmd_buffer)).scene.m_tlas_instance_buffer_host i
          = s.m_tlas_instance_buffer_host i) ∧
      Filled s.m_material_data_buffer st.gpu_material_counter
        (s.update (rs.setup width height cmd_buffer)).scene.m_material_data_buffer ∧
      Filled s.m_light_data_buffer
        (s.update (rs.setup width height cmd_buffer)).pass.light_records_written
        (s.update (rs.setup width height cmd_buffer)).scene.m_light_data_buffer := by
  have hmesh := frame_meshes_have_mesh s rs width height cmd_buffer
  obtain ⟨s1, hpass, hb1, hb2, hb3, hb4⟩ : ∃ s1 : Scene,
      (s.update (rs.setup width height cmd_buffer)).pass
        = s1.create_gpu_resources (s.update (rs.setup width height cmd_buffer)).render_state ∧
      s1.m_instance_data_buffer = s.m_instance_data_buffer ∧
      s1.m_tlas_instance_buffer_host = s.m_tlas_instance_buffer_host ∧
      s1.m_material_data_buffer = s.m_material_data_buffer ∧
      s1.m_light_data_buffer = s.m_light_data_buffer := by
    unfold Scene.update
    exact ⟨_, rfl, rfl, rfl, rfl, rfl⟩
  have hne : (s.update (rs.setup width height cmd_buffer)).render_state.m_scene_state
      ≠ SceneState.SCENE_STATE_READY := by
    rw [h]
    decide
  obtain ⟨u, u1, u2, e1, e2⟩ := create_gpu_resources_instance_buffers s1 _ hne
  obtain ⟨r1, r2, r3⟩ := create_gpu_resources_records s1 _ h
  obtain ⟨f1, _⟩ := hierarchy_pass_filled s1
    (s.update (rs.setup width height cmd_buffer)).render_state.m_meshes
  unfold Frame.scene
  rw [hpass]
  refine ⟨_, r1, ?_, ?_, ?_, ?_⟩
  · intro hi
    rw [e1, e2]
    have hw := write_instances_written _ 0 u i hi hmesh
    rw [Nat.zero_add] at hw
    exact hw
  · intro hi
    rw [e1, e2]
    obtain ⟨w1, w2⟩ := write_instances_outside
      (s.update (rs.setup width height cmd_buffer)).render_state.m_meshes 0 u i
      (Or.inr (by omega))
    rw [w1, w2, u1, u2, hb1, hb2]
    exact ⟨rfl, rfl⟩
  · rw [r2, ← hb3]
    exact f1
  · rw [← hb4]
    exact r3

/-- C23, amended, on the first frame over three mesh instances with three
emissive materials: the records 0, 1, 2 of each table are written and record
3 is not. -/
theorem C23_records_written_below_the_counts_witness :
    c23_frame.render_state.m_scene_state = SceneState.SCENE_STATE_HIERARCHY_UPDATED ∧
    ∃ st : Registrar,
      c23_frame.pass.registrar = some st ∧
      (2 < c23_frame.render_state.m_meshes.length →
        (c23_frame.scene.m_instance_data_buffer 2).isSome = true ∧
        (c23_frame.scene.m_tlas_instance_buffer_host 2).isSome = true) ∧
      (c23_frame.render_state.m_meshes.length ≤ 2 →
        c23_frame.scene.m_instance_data_buffer 2 = c23_scene.m_instance_data_buffer 2 ∧
        c23_frame.scene.m_tlas_instance_buffer_host 2
          = c23_scene.m_tlas_instance_buffer_host 2) ∧
      Filled c23_scene.m_material_data_buffer st.gpu_material_counter
        c23_frame.scene.m_material_data_buffer ∧
      Filled c23_scene.m_light_data_buffer c23_frame.pass.light_records_written
        c23_frame.scene.m_light_data_buffer :=
  ⟨by decide,
   C23_records_written_below_the_counts c23_scene RenderState.sample 800 600 0 2 (by decide)⟩

/-! ## C24 -/

/-- C24 as stated fails: `add_child` accepts a node that is already in the
graph.  From a tree with the children 1 and 2, adding the node 3 to node 1 and
then to node 2 leaves node 3 in two children lists; adding it twice to the
root leaves it twice in one list; adding the root to itself makes node 0 its
own child. -/
theorem C24_add_child_twice_breaks_the_tree :
    c24_root.ids.Nodup ∧ c24_root.parents_ok = true ∧
    (run_edits c24_root
      [GraphEdit.add_child [0] c24_child, GraphEdit.add_child [1] c24_child]).ids
        = [0, 1, 3, 2, 3] ∧
    (run_edits c24_root
      [GraphEdit.add_child [] c24_child, GraphEdit.add_child [] c24_child]).ids
        = [0, 1, 2, 3, 3] ∧
    ¬ (run_edits c24_root
      [GraphEdit.add_child [] c24_child, GraphEdit.add_child [] c24_child]).ids.Nodup ∧
    (run_edits c24_root [GraphEdit.add_child [] c24_root]).ids = [0, 1, 2, 0, 1, 2] ∧
    ((run_edits c24_root [GraphEdit.add_child [] c24_root]).m_children.map
      (fun c => (c.data.m_id, c.data.m_parent))) = [(1, some 0), (2, some 0), (0, some 0)] := by
  decide

theorem parents_ok_list_append (holder : Nat) :
    ∀ a b : List Node,
      Node.parents_ok_list holder (a ++ b)
        = (Node.parents_ok_list holder a && Node.parents_ok_list holder b)
  | [], b => by simp [Node.parents_ok_list]
  | c :: a, b => by
    rw [List.cons_append, Node.parents_ok_list, Node.parents_ok_list,
      parents_ok_list_append holder a b]
    simp only [Bool.and_assoc]

theorem parents_ok_list_cons (holder : Nat) (c : Node) (cs : List Node) :
    Node.parents_ok_list holder (c :: cs)
      = ((c.data.m_parent == some holder) && c.parents_ok && Node.parents_ok_list holder cs) := by
  rw [Node.parents_ok_list]

theorem parents_ok_mk (d : NodeData) (cs : List Node) :
    (Node.mk d cs).parents_ok = Node.parents_ok_list d.m_id cs := by
  rw [Node.parents_ok]

theorem modify_of_none (g : Node → Node) (cs : List Node) (i : Nat) (h : cs[i]? = none) :
    cs.modify g i = cs := by
  apply List.ext_getElem?
  intro m
  rw [List.getElem?_modify]
  by_cases e : i = m
  · subst e
    rw [h]
    rfl
  · cases cs[m]? <;> simp [e]

theorem edit_at_none (f : Option NodeData → Node → Node) :
    ∀ (p : List Nat) (root : Node) (parent : Option NodeData),
      root.subtree_at p = none → Node.edit_at f parent p root = root
  | [], root, _, h => by simp [Node.subtree_at] at h
  | i :: p, .mk d cs, parent, h => by
    rw [subtree_at_cons] at h
    rw [edit_at_cons]
    cases hc : cs[i]? with
    | none => rw [modify_of_none _ cs i hc]
    | some c =>
      rw [hc] at h
      obtain ⟨_, s2, _⟩ := split_at_child cs i c hc
      have hs : c.subtree_at p = none := by simpa using h
      rw [s2, edit_at_none f p c (some d) hs]
      exact congrArg (Node.mk d) (split_at_child cs i c hc).1.symm

/-- An edit at a path keeps the id and the parent reference of every node on
the path, and keeps the parent references right when the call does. -/
theorem edit_at_parents_ok (f : Option NodeData → Node → Node)
    (hf : ∀ (parent : Option NodeData) (n : Node),
      (f parent n).data.m_id = n.data.m_id ∧ (f parent n).data.m_parent = n.data.m_parent ∧
      (n.parents_ok = true → (f parent n).parents_ok = true)) :
    ∀ (p : List Nat) (root : Node) (parent : Option NodeData),
      (Node.edit_at f parent p root).data.m_id = root.data.m_id ∧
      (Node.edit_at f parent p root).data.m_parent = root.data.m_parent ∧
      (root.parents_ok = true → (Node.edit_at f parent p root).parents_ok = true)
  | [], root, parent => by
    have e : Node.edit_at f parent [] root = f parent root := by rw [Node.edit_at]
    rw [e]
    exact hf parent root
  | i :: p, .mk d cs, parent => by
    rw [edit_at_cons]
    refine ⟨rfl, rfl, ?_⟩
    intro hok
    rw [parents_ok_mk] at hok ⊢
    cases hc : cs[i]? with
    | none =>
      rw [modify_of_none _ cs i hc]
      exact hok
    | some c =>
      obtain ⟨s1, s2, _⟩ := split_at_child cs i c hc
      obtain ⟨_, ih2, ih3⟩ := edit_at_parents_ok f hf p c (some d)
      rw [s1, parents_ok_list_append, parents_ok_list_cons] at hok
      rw [s2, parents_ok_list_append, parents_ok_list_cons, ih2]
      simp only [Bool.and_eq_true] at hok ⊢
      obtain ⟨h1, ⟨h2, h3⟩, h4⟩ := hok
      exact ⟨h1, ⟨h2, ih3 h3⟩, h4⟩

theorem add_child_ids (par child : Node) : (par.add_child child).ids = par.ids ++ child.ids := by
  cases par with
  | mk d cs =>
    cases child with
    | mk c ccs =>
      rw [Node.add_child, ids_mk, ids_mk, ids_list_split]
      simp [ids_mk, Node.ids_list, Node.subtrees_list]

theorem add_child_keeps (par child : Node) :
    (par.add_child child).data.m_id = par.data.m_id ∧
    (par.add_child child).data.m_parent = par.data.m_parent ∧
    (child.parents_ok = true → par.parents_ok = true →
      (par.add_child child).parents_ok = true) := by
  cases par with
  | mk d cs =>
    cases child with
    | mk c ccs =>
      rw [Node.add_child]
      refine ⟨rfl, rfl, ?_⟩
      intro hc hp
      rw [parents_ok_mk] at hc hp ⊢
      rw [parents_ok_list_append, parents_ok_list_cons, parents_ok_mk]
      simp only [Bool.and_eq_true]
      exact ⟨hp, ⟨by simp [Node.data], hc⟩, by simp [Node.parents_ok_list]⟩

theorem parents_ok_list_eraseIdx (holder : Nat) (cs : List Node) (i : Nat)
    (h : Node.parents_ok_list holder cs = true) :
    Node.parents_ok_list holder (cs.eraseIdx i) = true := by
  cases hc : cs[i]? with
  | none =>
    have hi : cs.length ≤ i := by
      rcases Nat.lt_or_ge i cs.length with hlt | hge
      · rw [List.getElem?_eq_getElem hlt] at hc
        exact absurd hc (by simp)
      · exact hge
    rw [List.eraseIdx_of_length_le hi]
    exact h
  | some c =>
    obtain ⟨s1, _, s3⟩ := split_at_child cs i c hc
    rw [s1, parents_ok_list_append, parents_ok_list_cons] at h
    rw [s3, parents_ok_list_append]
    simp only [Bool.and_eq_true] at h ⊢
    exact ⟨h.1, h.2.2⟩

theorem remove_child_keeps (name : String) (par : Node) :
    (par.remove_child name).1.data.m_id = par.data.m_id ∧
    (par.remove_child name).1.data.m_parent = par.data.m_parent ∧
    (par.parents_ok = true → (par.remove_child name).1.parents_ok = true) := by
  cases par with
  | mk d cs =>
    rw [Node.remove_child]
    cases hc : Node.child_to_remove name cs with
    | none => exact ⟨rfl, rfl, fun h => h⟩
    | some i =>
      refine ⟨rfl, rfl, ?_⟩
      intro h
      rw [parents_ok_mk] at h ⊢
      exact parents_ok_list_eraseIdx d.m_id cs i h

theorem remove_child_ids_sublist (name : String) (par : Node) :
    List.Sublist (par.remove_child name).1.ids par.ids := by
  cases par with
  | mk d cs =>
    rw [Node.remove_child]
    cases hc : Node.child_to_remove name cs with
    | none =>
      simp only []
      rw [ids_mk, ids_mk]
    | some i =>
      simp only []
      rw [ids_mk, ids_mk]
      apply List.Sublist.cons₂
      cases hg : cs[i]? with
      | none =>
        have hi : cs.length ≤ i := by
          rcases Nat.lt_or_ge i cs.length with hlt | hge
          · rw [List.getElem?_eq_getElem hlt] at hg
            exact absurd hg (by simp)
          · exact hge
        rw [List.eraseIdx_of_length_le hi]
      | some c =>
        obtain ⟨s1, _, s3⟩ := split_at_child cs i c hg
        have e1 : Node.ids_list (cs.eraseIdx i)
            = Node.ids_list (cs.take i) ++ Node.ids_list (cs.drop (i + 1)) := by
          rw [s3, ids_list_append]
        have e2 : Node.ids_list cs
            = Node.ids_list (cs.take i) ++ (c.ids ++ Node.ids_list (cs.drop (i + 1))) := by
          conv_lhs => rw [s1]
          rw [ids_list_split, List.append_assoc]
        rw [e1, e2]
        exact List.Sublist.append_left (List.sublist_append_right _ _) _

theorem add_child_at_tree (root child : Node) (p : List Nat) (h : root.is_tree)
    (hc : child.is_tree) (hd : ∀ i ∈ child.ids, i ∉ root.ids) :
    ((GraphEdit.add_child p child).apply root).is_tree := by
  obtain ⟨h1, h2⟩ := h
  obtain ⟨c1, c2⟩ := hc
  constructor
  · show (Node.edit_at (fun _ n => n.add_child child) none p root).ids.Nodup
    cases hp : root.subtree_at p with
    | none =>
      rw [edit_at_none _ p root none hp]
      exact h1
    | some par =>
      obtain ⟨A, B, parent1, e1, e2⟩ :=
        edit_at_ids (fun _ n => n.add_child child) p root none par hp
      rw [e2, add_child_ids]
      have hperm : List.Perm (A ++ (par.ids ++ child.ids) ++ B) (root.ids ++ child.ids) := by
        rw [e1]
        have e3 : A ++ (par.ids ++ child.ids) ++ B = (A ++ par.ids) ++ (child.ids ++ B) := by
          simp
        have e4 : A ++ par.ids ++ B ++ child.ids = (A ++ par.ids) ++ (B ++ child.ids) := by
          simp
        rw [e3, e4]
        exact List.Perm.append_left _ List.perm_append_comm
      rw [List.Perm.nodup_iff hperm, List.nodup_append]
      exact ⟨h1, c1, fun i hr hcb => hd i hcb hr⟩
  · show (Node.edit_at (fun _ n => n.add_child child) none p root).parents_ok = true
    refine (edit_at_parents_ok (fun _ n => n.add_child child) ?_ p root none).2.2 h2
    intro _ n
    obtain ⟨k1, k2, k3⟩ := add_child_keeps n child
    exact ⟨k1, k2, k3 c2⟩

theorem remove_child_at_tree (root : Node) (p : List Nat) (name : String) (h : root.is_tree) :
    ((GraphEdit.remove_child p name).apply root).is_tree := by
  obtain ⟨h1, h2⟩ := h
  constructor
  · show (Node.edit_at (fun _ n => (n.remove_child name).1) none p root).ids.Nodup
    cases hp : root.subtree_at p with
    | none =>
      rw [edit_at_none _ p root none hp]
      exact h1
    | some par =>
      obtain ⟨A, B, parent1, e1, e2⟩ :=
        edit_at_ids (fun _ n => (n.remove_child name).1) p root none par hp
      rw [e2]
      rw [e1] at h1
      refine List.Nodup.sublist ?_ h1
      exact List.Sublist.append_right
        (List.Sublist.append_left (remove_child_ids_sublist name par) A) B
  · show (Node.edit_at (fun _ n => (n.remove_child name).1) none p root).parents_ok = true
    refine (edit_at_parents_ok (fun _ n => (n.remove_child name).1) ?_ p root none).2.2 h2
    intro _ n
    exact remove_child_keeps name n

theorem subtree_at_id_mem :
    ∀ (q : List Nat) (n b : Node), n.subtree_at q = some b →
      b.data.m_id ∈ n.ids ∧ (q ≠ [] → b.data.m_id ∈ Node.ids_list n.m_children)
  | [], n, b, h => by
    have e : n = b := by simpa [Node.subtree_at] using h
    subst e
    cases n with
    | mk d cs =>
      rw [ids_mk]
      exact ⟨List.mem_cons_self _ _, fun hq => absurd rfl hq⟩
  | i :: q, .mk d cs, b, h => by
    rw [subtree_at_cons] at h
    cases hc : cs[i]? with
    | none => rw [hc] at h; exact absurd h (by simp)
    | some c =>
      rw [hc] at h
      obtain ⟨ih, _⟩ := subtree_at_id_mem q c b (by simpa using h)
      obtain ⟨s1, _, _⟩ := split_at_child cs i c hc
      have hm : b.data.m_id ∈ Node.ids_list cs := by
        rw [s1, ids_list_split]
        exact List.mem_append_left _ (List.mem_append_right _ ih)
      rw [ids_mk]
      exact ⟨List.mem_cons_of_mem _ hm, fun _ => hm⟩

/-- In a graph whose ids are pairwise distinct no node has the id of one of
its ancestors. -/
theorem nodup_no_self_ancestor (root a b : Node) (p q : List Nat) (h : root.ids.Nodup)
    (ha : root.subtree_at p = some a) (hb : a.subtree_at q = some b) (hq : q ≠ []) :
    b.data.m_id ≠ a.data.m_id := by
  obtain ⟨A, B, _, e1, _⟩ := edit_at_ids (fun _ n => n) p root none a ha
  rw [e1] at h
  have hna : a.ids.Nodup := (List.nodup_append.mp (List.nodup_append.mp h).1).2.1
  have hm := (subtree_at_id_mem q a b hb).2 hq
  cases a with
  | mk d cs =>
    rw [ids_mk] at hna
    intro heq
    rw [heq] at hm
    exact (List.nodup_cons.mp hna).1 hm

theorem run_edits_tree :
    ∀ (edits : List GraphEdit) (root : Node), root.is_tree → edits_detached root edits →
      (run_edits root edits).is_tree
  | [], _, h, _ => h
  | e :: edits, root, h, hd => by
    obtain ⟨hd1, hd2⟩ := hd
    have hstep : (e.apply root).is_tree := by
      cases e with
      | add_child p child => exact add_child_at_tree root child p h hd1.1 hd1.2
      | remove_child p name => exact remove_child_at_tree root p name h
    exact run_edits_tree edits (e.apply root) hstep hd2

/-- C24, amended: starting from a tree, after every sequence of `add_child`
and `remove_child` calls on nodes of the graph in which each `add_child` gets
a detached subtree (a tree none of whose nodes is in the graph at that call),
the graph is a tree: no node is held in two children lists or twice in one,
every child's parent reference names the node whose children list holds it,
and no node is its own ancestor. -/
theorem C24_detached_edits_keep_the_tree (root : Node) (edits : List GraphEdit)
    (a b : Node) (p q : List Nat)
    (h : root.is_tree) (hd : edits_detached root edits) :
    (run_edits root edits).ids.Nodup ∧
    (run_edits root edits).parents_ok = true ∧
    ((run_edits root edits).subtree_at p = some a → a.subtree_at q = some b → q ≠ [] →
      b.data.m_id ≠ a.data.m_id) := by
  obtain ⟨t1, t2⟩ := run_edits_tree edits root h hd
  exact ⟨t1, t2, fun ha hb hq => nodup_no_self_ancestor _ a b p q t1 ha hb hq⟩

/-- C24, amended, on the root with the children 1 and 2: the detached node 3
is added to node 1, then the child "b" of the root is removed; node 3, at
path [0, 0], does not have the id of the root. -/
theorem C24_detached_edits_keep_the_tree_witness :
    c24_root.is_tree ∧
    edits_detached c24_root
      [GraphEdit.add_child [0] c24_child, GraphEdit.remove_child [] "b"] ∧
    (run_edits c24_root
      [GraphEdit.add_child [0] c24_child, GraphEdit.remove_child [] "b"]).ids.Nodup ∧
    (run_edits c24_root
      [GraphEdit.add_child [0] c24_child, GraphEdit.remove_child [] "b"]).parents_ok = true ∧
    (run_edits c24_root
      [GraphEdit.add_child [0] c24_child, GraphEdit.remove_child [] "b"]).ids = [0, 1, 3] := by
  have h1 : c24_root.is_tree := ⟨by decide, by decide⟩
  have h2 : edits_detached c24_root
      [GraphEdit.add_child [0] c24_child, GraphEdit.remove_child [] "b"] :=
    ⟨⟨⟨by decide, by decide⟩, by decide⟩, trivial, trivial⟩
  obtain ⟨t1, t2, _⟩ :=
    C24_detached_edits_keep_the_tree c24_root
      [GraphEdit.add_child [0] c24_child, GraphEdit.remove_child [] "b"]
      c24_root c24_child [] [0, 0] h1 h2
  exact ⟨h1, h2, t1, t2, by decide⟩

/-! ## Area-light records of the registrar -/

theorem extends_refl (st : Registrar) : st.Extends st :=
  ⟨fun _ h => h, fun _ _ _ h => h, Nat.le_refl _, fun _ _ => rfl, Nat.le_refl _, fun _ _ => rfl⟩

theorem extends_trans (a b c : Registrar) (h1 : a.Extends b) (h2 : b.Extends c) : a.Extends c :=
  ⟨fun id h => h2.hproc id (h1.hproc id h),
   fun id h k hk => h2.hlookup id (h1.hproc id h) k (h1.hlookup id h k hk),
   Nat.le_trans h1.hcount h2.hcount,
   fun k hk => (h2.hbuf k (Nat.lt_of_lt_of_le hk h1.hcount)).trans (h1.hbuf k hk),
   Nat.le_trans h1.hlcount h2.hlcount,
   fun j hj => (h2.hlbuf j (Nat.lt_of_lt_of_le hj h1.hlcount)).trans (h1.hlbuf j hj)⟩

theorem packed_at_extend (st st2 : Registrar) (id k : Nat) (hid : id ∈ st.processed_materials)
    (h : st.packed_at id k) (e : st.Extends st2) : st2.packed_at id k := by
  obtain ⟨h1, h2, st0, m0, h3, h4⟩ := h
  exact ⟨e.hlookup id hid k h1, Nat.lt_of_lt_of_le h2 e.hcount, st0, m0, h3,
    (e.hbuf k h2).trans h4⟩

theorem area_light_ok_extend (meshes : List NodePtr) (st st2 : Registrar) (j : Nat)
    (hj : j < st.gpu_light_counter) (h : st.area_light_ok meshes j) (e : st.Extends st2) :
    st2.area_light_ok meshes j := by
  obtain ⟨idx, p, mesh, sub, k, a1, a2, a3, a4, a5, a6, a7⟩ := h
  exact ⟨idx, p, mesh, sub, k, a1, a2, a3, a4, (e.hlbuf j hj).trans a5, e.hproc _ a6,
    e.hlookup _ a6 k a7⟩

theorem index_lookup_some (m : IndexMap) (key id k : Nat) (h : m.lookup id = some k) :
    (m.index key).2.lookup id = some k := by
  unfold IndexMap.index
  cases hk : m.lookup key with
  | some v => exact h
  | none =>
    simp only [List.lookup_cons]
    have e : (id == key) = false := by
      rw [beq_eq_false_iff_ne]
      intro heq
      rw [heq, hk] at h
      exact absurd h (by simp)
    rw [e]
    exact h

theorem index_found (m : IndexMap) (key k : Nat) (h : m.lookup key = some k) :
    m.index key = (k, m) := by
  unfold IndexMap.index
  rw [h]

theorem add_material_fields (st : Registrar) (material : Material)
    (hnew : st.processed_materials.contains material.id = false) :
    (st.add_material material).processed_materials = material.id :: st.processed_materials ∧
    (st.add_material material).global_material_indices
      = st.global_material_indices.assign material.id st.gpu_material_counter ∧
    (st.add_material material).gpu_material_counter = st.gpu_material_counter + 1 ∧
    (∃ st0 : Registrar, (st.add_material material).material_buffer
      = write_at st.material_buffer st.gpu_material_counter (st0.fill_material material).1) ∧
    (st.add_material material).gpu_light_counter = st.gpu_light_counter ∧
    (st.add_material material).light_buffer = st.light_buffer := by
  have h := fill_material_without_textures
    { st with
      processed_materials := material.id :: st.processed_materials,
      gpu_material_counter := st.gpu_material_counter + 1 } material
  have e0 := congrArg Registrar.processed_materials h
  have e1 := congrArg Registrar.material_buffer h
  have e2 := congrArg Registrar.gpu_material_counter h
  have e3 := congrArg Registrar.light_buffer h
  have e4 := congrArg Registrar.gpu_light_counter h
  have e5 := congrArg Registrar.global_material_indices h
  simp only [Registrar.without_textures] at e0 e1 e2 e3 e4 e5
  unfold Registrar.add_material
  rw [if_neg (by rw [hnew]; exact Bool.false_ne_true)]
  simp only []
  rw [e0, e1, e2, e3, e4, e5]
  exact ⟨rfl, rfl, rfl, ⟨_, rfl⟩, rfl, rfl⟩

theorem area_inv_of_extends (meshes : List NodePtr) (st st2 : Registrar)
    (inv : AreaInv meshes st) (e : st.Extends st2)
    (hp : st2.processed_materials = st.processed_materials)
    (hl : st2.gpu_light_counter = st.gpu_light_counter) : AreaInv meshes st2 := by
  constructor
  · intro id hid
    rw [hp] at hid
    obtain ⟨k, hk⟩ := inv.hmat id hid
    exact ⟨k, packed_at_extend st st2 id k hid hk e⟩
  · intro j hj
    rw [hl] at hj
    exact area_light_ok_extend meshes st st2 j hj (inv.hlight j hj) e

theorem add_material_extends (st : Registrar) (material : Material) :
    st.Extends (st.add_material material) := by
  cases hnew : st.processed_materials.contains material.id with
  | true =>
    have e : st.add_material material = st := by
      unfold Registrar.add_material
      rw [if_pos hnew]
    rw [e]
    exact extends_refl st
  | false =>
    obtain ⟨f1, f2, f3, ⟨st0, f4⟩, f5, f6⟩ := add_material_fields st material hnew
    have hnot : material.id ∉ st.processed_materials := by
      intro hm
      have : st.processed_materials.contains material.id = true := by simpa using hm
      rw [hnew] at this
      exact absurd this (by decide)
    refine ⟨?_, ?_, ?_, ?_, ?_, ?_⟩
    · intro id hid
      rw [f1]
      exact List.mem_cons_of_mem _ hid
    · intro id hid k hk
      rw [f2]
      unfold IndexMap.assign
      have e : (id == material.id) = false := by
        rw [beq_eq_false_iff_ne]
        intro heq
        rw [heq] at hid
        exact hnot hid
      rw [List.lookup_cons, e]
      exact hk
    · rw [f3]
      exact Nat.le_succ _
    · intro k hk
      rw [f4]
      unfold write_at
      rw [if_neg (Nat.ne_of_lt hk)]
    · rw [f5]
    · intro j _
      rw [f6]

theorem add_material_inv (meshes : List NodePtr) (st : Registrar) (material : Material)
    (inv : AreaInv meshes st) :
    AreaInv meshes (st.add_material material) ∧
    material.id ∈ (st.add_material material).processed_materials := by
  have hext := add_material_extends st material
  cases hnew : st.processed_materials.contains material.id with
  | true =>
    have e : st.add_material material = st := by
      unfold Registrar.add_material
      rw [if_pos hnew]
    rw [e]
    exact ⟨inv, by simpa using hnew⟩
  | false =>
    obtain ⟨f1, f2, f3, ⟨st0, f4⟩, f5, f6⟩ := add_material_fields st material hnew
    refine ⟨⟨?_, ?_⟩, ?_⟩
    · intro id hid
      rw [f1] at hid
      rcases List.mem_cons.mp hid with hid | hid
      · refine ⟨st.gpu_material_counter, ?_, ?_, st0, material, hid.symm, ?_⟩
        · rw [f2, hid]
          unfold IndexMap.assign
          simp [List.lookup_cons]
        · rw [f3]
          exact Nat.lt_succ_self _
        · rw [f4]
          unfold write_at
          rw [if_pos rfl]
      · obtain ⟨k, hk⟩ := inv.hmat id hid
        exact ⟨k, packed_at_extend st _ id k hid hk hext⟩
    · intro j hj
      rw [f5] at hj
      exact area_light_ok_extend meshes st _ j hj (inv.hlight j hj) hext
    · rw [f1]
      exact List.mem_cons_self _ _

theorem add_area_light_inv (meshes : List NodePtr) (st : Registrar) (idx : Nat) (p : NodePtr)
    (mesh : Mesh) (sub : SubMesh mesh.materials.length)
    (h1 : meshes[idx]? = some p) (h2 : p.node.m_mesh = some mesh) (h3 : sub ∈ mesh.sub_meshes)
    (inv : AreaInv meshes st)
    (hin : (effective_material p mesh sub).id ∈ st.processed_materials) :
    AreaInv meshes
      (st.add_area_light idx (effective_material p mesh sub) sub.base_index sub.index_count) ∧
    st.Extends
      (st.add_area_light idx (effective_material p mesh sub) sub.base_index sub.index_count) := by
  unfold Registrar.add_area_light
  cases he : (effective_material p mesh sub).is_emissive with
  | false => exact ⟨inv, extends_refl st⟩
  | true =>
    obtain ⟨k, hk⟩ := inv.hmat _ hin
    have hfound := index_found st.global_material_indices _ k hk.1
    simp only [if_true, hfound]
    have hext : st.Extends
        { st with
          m_num_area_lights := st.m_num_area_lights + 1,
          gpu_light_counter := st.gpu_light_counter + 1,
          global_material_indices := st.global_material_indices,
          light_buffer :=
            write_at st.light_buffer st.gpu_light_counter
              (LightData.area idx k (sub.base_index / 3) (sub.index_count / 3)) } := by
      refine ⟨fun _ h => h, fun _ _ _ h => h, Nat.le_refl _, fun _ _ => rfl, Nat.le_succ _, ?_⟩
      intro j hj
      show write_at st.light_buffer st.gpu_light_counter _ j = st.light_buffer j
      unfold write_at
      rw [if_neg (Nat.ne_of_lt hj)]
    refine ⟨⟨?_, ?_⟩, hext⟩
    · intro id hid
      obtain ⟨k2, hk2⟩ := inv.hmat id hid
      exact ⟨k2, packed_at_extend st _ id k2 hid hk2 hext⟩
    · intro j hj
      have hj2 : j < st.gpu_light_counter + 1 := hj
      by_cases e : j = st.gpu_light_counter
      · refine ⟨idx, p, mesh, sub, k, h1, h2, h3, he, ?_, hin, hk.1⟩
        show write_at st.light_buffer st.gpu_light_counter _ j = _
        unfold write_at
        rw [if_pos e]
      · have hlt : j < st.gpu_light_counter := by omega
        exact area_light_ok_extend meshes st _ j hlt (inv.hlight j hlt) hext

theorem foldl_register_submesh_inv (meshes : List NodePtr) (idx : Nat) (p : NodePtr)
    (mesh : Mesh) (h1 : meshes[idx]? = some p) (h2 : p.node.m_mesh = some mesh) :
    ∀ (subs : List (SubMesh mesh.materials.length)) (st : Registrar),
      (∀ sub ∈ subs, sub ∈ mesh.sub_meshes) → AreaInv meshes st →
      AreaInv meshes (subs.foldl (Registrar.register_submesh idx p mesh) st) ∧
      st.Extends (subs.foldl (Registrar.register_submesh idx p mesh) st)
  | [], st, _, inv => ⟨inv, extends_refl st⟩
  | sub :: subs, st, hs, inv => by
    rw [List.foldl_cons]
    obtain ⟨a1, a2⟩ := add_material_inv meshes st (effective_material p mesh sub) inv
    obtain ⟨b1, b2⟩ := add_area_light_inv meshes _ idx p mesh sub h1 h2
      (hs sub (List.mem_cons_self _ _)) a1 a2
    obtain ⟨c1, c2⟩ := foldl_register_submesh_inv meshes idx p mesh h1 h2 subs
      (Registrar.register_submesh idx p mesh st sub)
      (fun s hsub => hs s (List.mem_cons_of_mem _ hsub)) b1
    exact ⟨c1, extends_trans _ _ _
      (extends_trans _ _ _ (add_material_extends st _) b2) c2⟩

theorem foldl_set_submesh_material_lookup (p : NodePtr) (mesh : Mesh) (id k : Nat) :
    ∀ (subs : List (SubMesh mesh.materials.length)) (acc : IndexMap × List (Nat × Nat)),
      acc.1.lookup id = some k →
      (subs.foldl (set_submesh_material p mesh) acc).1.lookup id = some k
  | [], _, h => h
  | sub :: subs, acc, h => by
    rw [List.foldl_cons]
    apply foldl_set_submesh_material_lookup p mesh id k subs
    unfold set_submesh_material
    exact index_lookup_some acc.1 _ id k h

theorem process_mesh_node_inv (meshes : List NodePtr) (st : Registrar) (idx : Nat)
    (p : NodePtr) (h1 : meshes[idx]? = some p) (inv : AreaInv meshes st) :
    AreaInv meshes (st.process_mesh_node idx p) := by
  unfold Registrar.process_mesh_node
  cases h2 : p.node.m_mesh with
  | none => exact inv
  | some mesh =>
    simp only []
    have hreg : AreaInv meshes (st.register_mesh idx p mesh) := by
      unfold Registrar.register_mesh
      split
      · exact inv
      · exact (foldl_register_submesh_inv meshes idx p mesh h1 h2 mesh.sub_meshes
          { st with
            processed_meshes := mesh.id :: st.processed_meshes,
            m_global_mesh_indices :=
              st.m_global_mesh_indices.assign mesh.id st.mesh_index_counter,
            mesh_index_counter := st.mesh_index_counter + 1,
            ibo_descriptors := st.ibo_descriptors ++ [mesh.index_buffer],
            vbo_descriptors := st.vbo_descriptors ++ [mesh.vertex_buffer] }
          (fun _ h => h) ⟨inv.hmat, inv.hlight⟩).1
    refine area_inv_of_extends meshes (st.register_mesh idx p mesh) _ hreg ?_ rfl rfl
    refine ⟨fun _ h => h, ?_, Nat.le_refl _, fun _ _ => rfl, Nat.le_refl _, fun _ _ => rfl⟩
    intro id _ k hk
    exact foldl_set_submesh_material_lookup p mesh id k mesh.sub_meshes _ hk

theorem process_mesh_nodes_inv (meshes : List NodePtr) :
    ∀ (rest : List NodePtr) (idx : Nat) (st : Registrar),
      (∀ (j : Nat) (p : NodePtr), rest[j]? = some p → meshes[idx + j]? = some p) →
      AreaInv meshes st → AreaInv meshes (Registrar.process_mesh_nodes idx rest st)
  | [], _, _, _, inv => inv
  | p :: rest, idx, st, hctx, inv => by
    rw [Registrar.process_mesh_nodes]
    apply process_mesh_nodes_inv meshes rest (idx + 1)
    · intro j q hq
      have := hctx (j + 1) q (by simpa using hq)
      rw [← this]
      congr 1
      omega
    · exact process_mesh_node_inv meshes st idx p (hctx 0 p (by simp)) inv

theorem hierarchy_pass_area_inv (s : Scene) (meshes : List NodePtr) :
    AreaInv meshes (hierarchy_pass s meshes) := by
  unfold hierarchy_pass
  apply process_mesh_nodes_inv meshes meshes 0
  · intro j p hp
    rw [Nat.zero_add]
    exact hp
  · constructor
    · intro id hid
      simp [Registrar.init] at hid
    · intro j hj
      simp [Registrar.init] at hj

theorem write_lights_below (u : Uploader) (rs : RenderState) (j : Nat)
    (hj : j < u.gpu_light_counter) :
    (u.write_lights rs).light_buffer j = u.light_buffer j := by
  have hf : ∀ (f : NodePtr → LightData) (lights : List NodePtr) (v : Uploader),
      j < v.gpu_light_counter →
      j < (lights.foldl (fun w light => w.push_light (f light)) v).gpu_light_counter ∧
      (lights.foldl (fun w light => w.push_light (f light)) v).light_buffer j
        = v.light_buffer j := by
    intro f lights
    induction lights with
    | nil => intro v hv; exact ⟨hv, rfl⟩
    | cons l lights ih =>
      intro v hv
      rw [List.foldl_cons]
      have hv2 : j < (v.push_light (f l)).gpu_light_counter := Nat.lt_succ_of_lt hv
      obtain ⟨i1, i2⟩ := ih (v.push_light (f l)) hv2
      refine ⟨i1, i2.trans ?_⟩
      show write_at v.light_buffer v.gpu_light_counter (f l) j = v.light_buffer j
      unfold write_at
      rw [if_neg (Nat.ne_of_lt hv)]
  have h0 : j < (if rs.has_ibl_image || decide (rs.m_directional_lights.length > 0) then
        u.push_light LightData.environment_map else u).gpu_light_counter ∧
      (if rs.has_ibl_image || decide (rs.m_directional_lights.length > 0) then
        u.push_light LightData.environment_map else u).light_buffer j = u.light_buffer j := by
    split
    · refine ⟨Nat.lt_succ_of_lt hj, ?_⟩
      show write_at u.light_buffer u.gpu_light_counter _ j = u.light_buffer j
      unfold write_at
      rw [if_neg (Nat.ne_of_lt hj)]
    · exact ⟨hj, rfl⟩
  unfold Uploader.write_lights
  obtain ⟨a1, a2⟩ := hf directional_light_data rs.m_directional_lights _ h0.1
  obtain ⟨b1, b2⟩ := hf point_light_data rs.m_point_lights _ a1
  obtain ⟨_, c2⟩ := hf spot_light_data rs.m_spot_lights _ b1
  exact c2.trans (b2.trans (a2.trans h0.2))

theorem create_gpu_resources_area_lights (s : Scene) (rs : RenderState)
    (h : rs.m_scene_state = SceneState.SCENE_STATE_HIERARCHY_UPDATED) :
    (s.create_gpu_resources rs).scene.m_num_area_lights
      = (hierarchy_pass s rs.m_meshes).m_num_area_lights ∧
    ∀ j, j < (hierarchy_pass s rs.m_meshes).gpu_light_counter →
      (s.create_gpu_resources rs).scene.m_light_data_buffer j
        = (hierarchy_pass s rs.m_meshes).light_buffer j := by
  unfold Scene.create_gpu_resources
  simp only [h, ne_eq, reduceCtorEq, not_false_eq_true, if_true, true_and]
  intro j hj
  rw [write_lights_below _ _ j (by rw [(write_instances_lights _ _ _).1]; exact hj),
    (write_instances_lights _ _ _).2]

/-! ## C28 -/

/-- C28: on a hierarchy-updated frame, every area-light record (the light
records below the area-light count of the pass) is the record of an emissive
submesh of an entry of the mesh list: it has the kind area and holds the index
of that entry in the mesh list, the slot stored for the effective material of
the submesh, at which the material buffer holds a record packed for this
material identity, the primitive offset `base_index / 3` and the primitive
count `index_count / 3` of the submesh, both by integer division. -/
theorem C28_area_light_records (s : Scene) (rs0 : RenderState) (j : Nat)
    (h : (s.update rs0).render_state.m_scene_state = SceneState.SCENE_STATE_HIERARCHY_UPDATED) :
    ∃ st : Registrar,
      (s.update rs0).pass.registrar = some st ∧
      (s.update rs0).scene.m_num_area_lights = st.gpu_light_counter ∧
      (j < (s.update rs0).scene.m_num_area_lights →
        ∃ (idx : Nat) (p : NodePtr) (mesh : Mesh) (sub : SubMesh mesh.materials.length)
          (k : Nat),
          (s.update rs0).render_state.m_meshes[idx]? = some p ∧
          p.node.m_mesh = some mesh ∧ sub ∈ mesh.sub_meshes ∧
          (effective_material p mesh sub).is_emissive = true ∧
          (s.update rs0).scene.m_light_data_buffer j
            = some (LightData.area idx k (sub.base_index / 3) (sub.index_count / 3)) ∧
          st.global_material_indices.lookup (effective_material p mesh sub).id = some k ∧
          k < st.gpu_material_counter ∧
          ∃ (st0 : Registrar) (m0 : Material),
            m0.id = (effective_material p mesh sub).id ∧
            (s.update rs0).scene.m_material_data_buffer k
              = some (st0.fill_material m0).1) := by
  obtain ⟨s1, hpass, _⟩ := scene_update_pass s rs0
  obtain ⟨r1, r2, _⟩ := create_gpu_resources_records s1 _ h
  obtain ⟨a1, a2⟩ := create_gpu_resources_area_lights s1 _ h
  obtain ⟨c1, c2⟩ := hierarchy_pass_area_lights s1 (s.update rs0).render_state.m_meshes
  have inv := hierarchy_pass_area_inv s1 (s.update rs0).render_state.m_meshes
  have hnum : (s.update rs0).scene.m_num_area_lights
      = (hierarchy_pass s1 (s.update rs0).render_state.m_meshes).gpu_light_counter := by
    unfold Frame.scene
    rw [hpass, a1, c1, c2]
  refine ⟨_, by rw [hpass]; exact r1, hnum, ?_⟩
  intro hj
  rw [hnum] at hj
  obtain ⟨idx, p, mesh, sub, k, b1, b2, b3, b4, b5, b6, b7⟩ := inv.hlight j hj
  obtain ⟨k2, p1, p2, st0, m0, p3, p4⟩ := inv.hmat _ b6
  have hk : k2 = k := by
    rw [b7] at p1
    exact (Option.some.inj p1).symm
  subst hk
  refine ⟨idx, p, mesh, sub, k2, b1, b2, b3, b4, ?_, b7, p2, st0, m0, p3, ?_⟩
  · unfold Frame.scene
    rw [hpass, a2 j hj]
    exact b5
  · unfold Frame.scene
    rw [hpass, r2]
    exact p4

/-- C28 on the first frame of a scene with an emissive mesh, a point light and
an IBL image: light record 0 is the area light of the only emissive
submesh. -/
theorem C28_area_light_records_witness :
    c29_frame.render_state.m_scene_state = SceneState.SCENE_STATE_HIERARCHY_UPDATED ∧
    c29_frame.scene.m_light_data_buffer 0 = some (LightData.area 0 0 2 12) ∧
    ∃ st : Registrar,
      c29_frame.pass.registrar = some st ∧
      c29_frame.scene.m_num_area_lights = st.gpu_light_counter ∧
      (0 < c29_frame.scene.m_num_area_lights →
        ∃ (idx : Nat) (p : NodePtr) (mesh : Mesh) (sub : SubMesh mesh.materials.length)
          (k : Nat),
          c29_frame.render_state.m_meshes[idx]? = some p ∧
          p.node.m_mesh = some mesh ∧ sub ∈ mesh.sub_meshes ∧
          (effective_material p mesh sub).is_emissive = true ∧
          c29_frame.scene.m_light_data_buffer 0
            = some (LightData.area idx k (sub.base_index / 3) (sub.index_count / 3)) ∧
          st.global_material_indices.lookup (effective_material p mesh sub).id = some k ∧
          k < st.gpu_material_counter ∧
          ∃ (st0 : Registrar) (m0 : Material),
            m0.id = (effective_material p mesh sub).id ∧
            c29_frame.scene.m_material_data_buffer k = some (st0.fill_material m0).1) :=
  ⟨by decide, by decide,
   C28_area_light_records c29_scene (RenderState.sample.setup 800 600 0) 0 (by decide)⟩

end Helios
